import Mathlib

/-!
MIPS IEEE-754 emulation core: comparison and single-to-double widening.

A shallow embedding of `arch/mips/math-emu/dp_cmp.c`, `dp_fsp.c`, `ieee754.c`
and `ieee754dp.h`.

Conventions of the embedding:

* a packed double (`union ieee754dp`) is its 64-bit pattern, a `Nat` below `2^64`;
  a packed single (`union ieee754sp`) is a `Nat` below `2^32`;
* C `int` and `s64` values are `Int`; conversions between `u64` and `s64` wrap
  modulo `2^64` (`toS64`, `toU64`), the conversion to `int` wraps modulo `2^32`;
* the global exception context is threaded explicitly as a `State`;
* the installation's handler `ieee754_xcpt` is a parameter `xcpt` of every
  function that can reach it.
-/

namespace MathEmu

/-! ## Machine integers -/

/-- Conversion of a 64-bit unsigned value to `s64` (two's complement). -/
def toS64 (u : Nat) : Int :=
  if u % 2 ^ 64 < 2 ^ 63 then ((u % 2 ^ 64 : Nat) : Int) else ((u % 2 ^ 64 : Nat) : Int) - 2 ^ 64

/-- Conversion of an integer to `u64` (reduction modulo `2^64`). -/
def toU64 (i : Int) : Nat := (i % 2 ^ 64).toNat

/-- Conversion of an integer to a 32-bit `int` (wraps modulo `2^32`). -/
def toS32 (i : Int) : Int :=
  if i % 2 ^ 32 < 2 ^ 31 then i % 2 ^ 32 else i % 2 ^ 32 - 2 ^ 32

/-! ## `ieee754dp.h` -/

def DP_EBIAS : Int := 1023
def DP_EMIN : Int := -1022
def DP_EMAX : Int := 1023
def DP_FBITS : Nat := 52
def DP_MBITS : Nat := 52

def DP_MBIT (x : Nat) : Nat := (1 <<< x) % 2 ^ 64
def DP_HIDDEN_BIT : Nat := DP_MBIT DP_FBITS
def DP_SIGN_BIT : Nat := DP_MBIT 63

/-- Modelled from the spec: `union ieee754dp` is declared in `ieee754.h`, which is
not among the sources. Per the data model the 64-bit word decomposes bit-exactly
into `sign` (1 bit, the top bit), `biased_exponent` (11 bits) and `mantissa`
(52 bits); `DPSIGN` reads the sign field. -/
def DPSIGN (dp : Nat) : Nat := dp / 2 ^ 63 % 2

/-- Modelled from the spec: the 11-bit biased exponent field of `union ieee754dp`. -/
def DPBEXP (dp : Nat) : Nat := dp / 2 ^ 52 % 2 ^ 11

/-- Modelled from the spec: the 52-bit mantissa field of `union ieee754dp`. -/
def DPMANT (dp : Nat) : Nat := dp % 2 ^ 52

/-- `ieee754dp_finite`. -/
def ieee754dp_finite (x : Nat) : Int :=
  if (DPBEXP x : Int) ≠ DP_EMAX + 1 + DP_EBIAS then 1 else 0

/-- `builddp`: the three bit-field stores, each truncating to the width of its field
(the `assert`s expand to nothing). -/
def builddp (s : Int) (bx : Int) (m : Nat) : Nat :=
  (s % 2).toNat * 2 ^ 63 + (bx % 2 ^ 11).toNat * 2 ^ 52 + m % 2 ^ 52

/-! ## Classification and the exception context (`ieee754.h`, `ieee754int.h`) -/

/-- Modelled from the spec: the classification constants `IEEE754_CLASS_*` are
declared in `ieee754.h`, which is not among the sources; the data model lists the
six classes. -/
inductive ieee754_class
  | NORM | ZERO | DNORM | INF | SNAN | QNAN
  deriving DecidableEq, Repr

open ieee754_class

/-- Modelled from the spec: the predicate-mask bits of `ieee754.h` (absent), a
bitmask over LESS_THAN, EQUAL, GREATER_THAN, UNORDERED; this one is LESS_THAN. -/
def IEEE754_CLT : Nat := 0x01
/-- Modelled from the spec: the EQUAL bit of the predicate mask (`ieee754.h`, absent). -/
def IEEE754_CEQ : Nat := 0x02
/-- Modelled from the spec: the GREATER_THAN bit of the predicate mask (`ieee754.h`, absent). -/
def IEEE754_CGT : Nat := 0x04
/-- Modelled from the spec: the UNORDERED bit of the predicate mask (`ieee754.h`, absent). -/
def IEEE754_CUN : Nat := 0x08

/-- Modelled from the spec: the exception flag bits of `ieee754.h` (absent):
inexact, underflow, overflow, division by zero, invalid operation; this one is inexact. -/
def IEEE754_INEXACT : Nat := 0x01
/-- Modelled from the spec: the underflow flag bit (`ieee754.h`, absent). -/
def IEEE754_UNDERFLOW : Nat := 0x02
/-- Modelled from the spec: the overflow flag bit (`ieee754.h`, absent). -/
def IEEE754_OVERFLOW : Nat := 0x04
/-- Modelled from the spec: the division-by-zero flag bit (`ieee754.h`, absent). -/
def IEEE754_ZERO_DIVIDE : Nat := 0x08
/-- Modelled from the spec: the invalid-operation flag bit (`ieee754.h`, absent). -/
def IEEE754_INVALID_OPERATION : Nat := 0x10

/-- Modelled from the spec: result-kind tags passed to the handler (`ieee754.h`, absent);
this one tags an `int` result. -/
def IEEE754_RT_SI : Nat := 0
/-- Modelled from the spec: the result-kind tag of a 64-bit integer result (`ieee754.h`, absent). -/
def IEEE754_RT_DI : Nat := 1
/-- Modelled from the spec: the result-kind tag of a single-precision result (`ieee754.h`, absent). -/
def IEEE754_RT_SP : Nat := 2
/-- Modelled from the spec: the result-kind tag of a double-precision result (`ieee754.h`, absent). -/
def IEEE754_RT_DP : Nat := 3

/-- Modelled from the spec: `struct ieee754xctx` (`ieee754.h`, absent): operation
name, result-kind tag, result slot and the operands of the variadic call. -/
structure ieee754xctx where
  op : String
  rt : Nat
  rv : Int
  ap : List Nat
  deriving DecidableEq, Repr

/-- Modelled from the spec: the exception context (`ieee754_csr` of `ieee754.h`,
absent): the pending flags `cx` and the trap-enable mask `mx`. The two lists are
ghost state that records, oldest first, every trap entry invoked (by function
name) and every argument handed to the handler `ieee754_xcpt`. -/
structure State where
  cx : Nat
  mx : Nat
  entries : List String
  handled : List ieee754xctx
  deriving DecidableEq, Repr

/-- Modelled from the spec: `clear()` resets the pending-flags set. -/
def ieee754_clearcx (st : State) : State := { st with cx := 0 }

/-- Modelled from the spec: `set(flag)` marks a flag pending. -/
def ieee754_setcx (st : State) (flags : Nat) : State := { st with cx := st.cx ||| flags }

/-- Modelled from the spec: `set_and_test(flag)` sets the flag and returns whether
it is enabled to trap. -/
def ieee754_setandtestcx (st : State) (x : Nat) : State × Nat :=
  (ieee754_setcx st x, st.mx &&& x)

/-- Modelled from the spec: `is_tripped()`, true if any pending flag is in the
trap-enable mask. -/
def ieee754_tstx (st : State) : Nat := st.cx &&& st.mx

/-- Modelled from the spec: `EXPLODEDP` of `ieee754int.h` (absent): reads the three
fields and classifies them by the rule of the data model; a Normal gets its
exponent unbiased and the hidden bit set, a Denormal gets exponent `DP_EMIN`.
Yields `(xc, xs, xe, xm)`. -/
def EXPLODEDP (v : Nat) : ieee754_class × Int × Int × Nat :=
  let vs : Int := DPSIGN v
  let ve : Int := DPBEXP v
  let vm : Nat := DPMANT v
  if ve = DP_EMAX + 1 + DP_EBIAS then
    if vm = 0 then (INF, vs, ve, vm)
    else if vm &&& DP_MBIT (DP_FBITS - 1) ≠ 0 then (QNAN, vs, ve, vm)
    else (SNAN, vs, ve, vm)
  else if ve = DP_EMIN - 1 + DP_EBIAS then
    if vm ≠ 0 then (DNORM, vs, DP_EMIN, vm)
    else (ZERO, vs, ve, vm)
  else (NORM, vs, ve - DP_EBIAS, vm ||| DP_HIDDEN_BIT)

/-- Modelled from the spec: `ieee754dp_isnan` (`ieee754dp.c`, absent), the helper
predicate `is_nan` derived from the classifier. -/
def ieee754dp_isnan (x : Nat) : Int :=
  if (EXPLODEDP x).1 = SNAN ∨ (EXPLODEDP x).1 = QNAN then 1 else 0

/-! ## `ieee754.c`: the integer trap entries -/

/-- `ieee754si_xcpt`. -/
def ieee754si_xcpt (xcpt : ieee754xctx → ieee754xctx) (st : State) (r : Int) (op : String)
    (ap : List Nat) : State × Int :=
  let st := { st with entries := st.entries ++ ["ieee754si_xcpt"] }
  if ieee754_tstx st = 0 then (st, r)
  else
    let ax : ieee754xctx := { op := op, rt := IEEE754_RT_SI, rv := r, ap := ap }
    ({ st with handled := st.handled ++ [ax] }, toS32 (xcpt ax).rv)

/-- `ieee754di_xcpt`. -/
def ieee754di_xcpt (xcpt : ieee754xctx → ieee754xctx) (st : State) (r : Int) (op : String)
    (ap : List Nat) : State × Int :=
  let st := { st with entries := st.entries ++ ["ieee754di_xcpt"] }
  if ieee754_tstx st = 0 then (st, r)
  else
    let ax : ieee754xctx := { op := op, rt := IEEE754_RT_DI, rv := r, ap := ap }
    ({ st with handled := st.handled ++ [ax] }, toS64 (toU64 (xcpt ax).rv))

/-! ## `dp_cmp.c` -/

/-- The comparison key of `ieee754dp_cmp`: `s64 vx = x.bits; if (vx < 0) vx = -vx ^ DP_SIGN_BIT;`.
The negation is taken in `s64`, the exclusive-or in `u64`, and the result is stored back
into the `s64`. -/
def cmp_key (bits : Nat) : Int :=
  let vx := toS64 bits
  if vx < 0 then toS64 (toU64 (-vx) ^^^ DP_SIGN_BIT) else vx

/-- `ieee754dp_cmp`. The `int` mask `cmp` is given by its bit pattern. `FLUSHXDP` and
`FLUSHYDP` are macros of `ieee754int.h` (absent) on which the spec is silent: it has no
step between classifying the operands and the branch on NaN, so they are taken to leave
operands and context unchanged. The `s64` that `ieee754di_xcpt` returns is converted to
the `int` result. -/
def ieee754dp_cmp (xcpt : ieee754xctx → ieee754xctx) (st : State) (x y : Nat) (cmp : Nat)
    (sig : Int) : State × Int :=
  let xc := (EXPLODEDP x).1
  let yc := (EXPLODEDP y).1
  let st := ieee754_clearcx st
  if ieee754dp_isnan x ≠ 0 ∨ ieee754dp_isnan y ≠ 0 then
    let st := if sig ≠ 0 ∨ xc = SNAN ∨ yc = SNAN then ieee754_setcx st IEEE754_INVALID_OPERATION
      else st
    if cmp &&& IEEE754_CUN ≠ 0 then (st, 1)
    else if cmp &&& (IEEE754_CLT ||| IEEE754_CGT) ≠ 0 then
      if sig ≠ 0 then
        let t := ieee754_setandtestcx st IEEE754_INVALID_OPERATION
        if t.2 ≠ 0 then
          let r := ieee754di_xcpt xcpt t.1 0 "fcmpf" [x]
          (r.1, toS32 r.2)
        else (t.1, 0)
      else (st, 0)
    else (st, 0)
  else
    let vx := cmp_key x
    let vy := cmp_key y
    if vx < vy then (st, if cmp &&& IEEE754_CLT ≠ 0 then 1 else 0)
    else if vx = vy then (st, if cmp &&& IEEE754_CEQ ≠ 0 then 1 else 0)
    else (st, if cmp &&& IEEE754_CGT ≠ 0 then 1 else 0)

/-! ## `ieee754.c`: the special-value catalogs -/

/-- Modelled from the spec: `struct ieee754dp_const` is declared in `ieee754.h` (absent);
it lays a double out as sign (1 bit), biased exponent (11 bits) and the mantissa stored
as two machine words, the high 20 bits and the low 32 bits. `DPSTR` is the initialiser
macro of `ieee754.c`, the same fields in either byte order. -/
def DPSTR (s : Nat) (b : Int) (mh ml : Nat) : Nat :=
  s % 2 * 2 ^ 63 + (b % 2 ^ 11).toNat * 2 ^ 52 + mh % 2 ^ 20 * 2 ^ 32 + ml % 2 ^ 32

/-- `__ieee754dp_spcvals`. -/
def __ieee754dp_spcvals : List Nat := [
  DPSTR 0 (DP_EMIN - 1 + DP_EBIAS) 0 0,             -- + zero
  DPSTR 1 (DP_EMIN - 1 + DP_EBIAS) 0 0,             -- - zero
  DPSTR 0 DP_EBIAS 0 0,                             -- + 1.0
  DPSTR 1 DP_EBIAS 0 0,                             -- - 1.0
  DPSTR 0 (3 + DP_EBIAS) 0x40000 0,                 -- + 10.0
  DPSTR 1 (3 + DP_EBIAS) 0x40000 0,                 -- - 10.0
  DPSTR 0 (DP_EMAX + 1 + DP_EBIAS) 0 0,             -- + infinity
  DPSTR 1 (DP_EMAX + 1 + DP_EBIAS) 0 0,             -- - infinity
  DPSTR 0 (DP_EMAX + 1 + DP_EBIAS) 0x7FFFF 0xFFFFFFFF, -- + indef quiet Nan
  DPSTR 0 (DP_EMAX + DP_EBIAS) 0xFFFFF 0xFFFFFFFF,  -- + max
  DPSTR 1 (DP_EMAX + DP_EBIAS) 0xFFFFF 0xFFFFFFFF,  -- - max
  DPSTR 0 (DP_EMIN + DP_EBIAS) 0 0,                 -- + min normal
  DPSTR 1 (DP_EMIN + DP_EBIAS) 0 0,                 -- - min normal
  DPSTR 0 (DP_EMIN - 1 + DP_EBIAS) 0 1,             -- + min denormal
  DPSTR 1 (DP_EMIN - 1 + DP_EBIAS) 0 1,             -- - min denormal
  DPSTR 0 (31 + DP_EBIAS) 0 0,                      -- + 1.0e31
  DPSTR 0 (63 + DP_EBIAS) 0 0                       -- + 1.0e63
]

/-- Modelled from the spec: the enumerated constants `IEEE754_SPCVAL_*` that index the
catalog are declared in `ieee754.h` (absent); they number the entries in table order.
This one is + zero. -/
def IEEE754_SPCVAL_PZERO : Nat := 0
/-- Modelled from the spec: catalog index of - zero (`ieee754.h`, absent). -/
def IEEE754_SPCVAL_NZERO : Nat := 1
/-- Modelled from the spec: catalog index of + 1.0 (`ieee754.h`, absent). -/
def IEEE754_SPCVAL_PONE : Nat := 2
/-- Modelled from the spec: catalog index of - 1.0 (`ieee754.h`, absent). -/
def IEEE754_SPCVAL_NONE : Nat := 3
/-- Modelled from the spec: catalog index of + 10.0 (`ieee754.h`, absent). -/
def IEEE754_SPCVAL_PTEN : Nat := 4
/-- Modelled from the spec: catalog index of - 10.0 (`ieee754.h`, absent). -/
def IEEE754_SPCVAL_NTEN : Nat := 5
/-- Modelled from the spec: catalog index of + infinity (`ieee754.h`, absent). -/
def IEEE754_SPCVAL_PINFINITY : Nat := 6
/-- Modelled from the spec: catalog index of - infinity (`ieee754.h`, absent). -/
def IEEE754_SPCVAL_NINFINITY : Nat := 7
/-- Modelled from the spec: catalog index of the indefinite NaN (`ieee754.h`, absent). -/
def IEEE754_SPCVAL_INDEF : Nat := 8
/-- Modelled from the spec: catalog index of + max (`ieee754.h`, absent). -/
def IEEE754_SPCVAL_PMAX : Nat := 9
/-- Modelled from the spec: catalog index of - max (`ieee754.h`, absent). -/
def IEEE754_SPCVAL_NMAX : Nat := 10
/-- Modelled from the spec: catalog index of + min normal (`ieee754.h`, absent). -/
def IEEE754_SPCVAL_PMIN : Nat := 11
/-- Modelled from the spec: catalog index of - min normal (`ieee754.h`, absent). -/
def IEEE754_SPCVAL_NMIN : Nat := 12
/-- Modelled from the spec: catalog index of + min denormal (`ieee754.h`, absent). -/
def IEEE754_SPCVAL_PMIND : Nat := 13
/-- Modelled from the spec: catalog index of - min denormal (`ieee754.h`, absent). -/
def IEEE754_SPCVAL_NMIND : Nat := 14
/-- Modelled from the spec: catalog index of the entry commented + 1.0e31 (`ieee754.h`, absent). -/
def IEEE754_SPCVAL_P1E31 : Nat := 15
/-- Modelled from the spec: catalog index of the entry commented + 1.0e63 (`ieee754.h`, absent). -/
def IEEE754_SPCVAL_P1E63 : Nat := 16

/-- Entry `i` of the double-precision catalog. -/
def dp_spcval (i : Nat) : Nat := __ieee754dp_spcvals.getD i 0

/-- Modelled from the spec: `ieee754dp_zero(sn)` of `ieee754.h` (absent), the catalog's
zero of sign `sn`. -/
def ieee754dp_zero (sn : Int) : Nat := dp_spcval (IEEE754_SPCVAL_PZERO + sn.toNat)

/-- Modelled from the spec: `ieee754dp_inf(sn)` of `ieee754.h` (absent), the catalog's
infinity of sign `sn`. -/
def ieee754dp_inf (sn : Int) : Nat := dp_spcval (IEEE754_SPCVAL_PINFINITY + sn.toNat)

/-- Modelled from the spec: `ieee754dp_indef()` of `ieee754.h` (absent), the catalog's
indefinite NaN. -/
def ieee754dp_indef : Nat := dp_spcval IEEE754_SPCVAL_INDEF

/-! ## Single precision (`ieee754sp.h`, `ieee754int.h`) -/

/-- Modelled from the spec: the single-precision parameters of `ieee754sp.h` (absent):
8 exponent bits with bias 127, 23 fraction bits. This one is the bias. -/
def SP_EBIAS : Int := 127
/-- Modelled from the spec: the smallest exponent of a single Normal (`ieee754sp.h`, absent). -/
def SP_EMIN : Int := -126
/-- Modelled from the spec: the largest exponent of a single Normal (`ieee754sp.h`, absent). -/
def SP_EMAX : Int := 127
/-- Modelled from the spec: the fraction width of a single (`ieee754sp.h`, absent). -/
def SP_FBITS : Nat := 23
/-- Modelled from the spec: the mantissa width of a single (`ieee754sp.h`, absent). -/
def SP_MBITS : Nat := 23
/-- Modelled from the spec: bit `x` of a 32-bit word, as `DP_MBIT` (`ieee754sp.h`, absent). -/
def SP_MBIT (x : Nat) : Nat := (1 <<< x) % 2 ^ 32
/-- Modelled from the spec: the hidden-bit position of a single, as `DP_HIDDEN_BIT` (`ieee754sp.h`, absent). -/
def SP_HIDDEN_BIT : Nat := SP_MBIT SP_FBITS
/-- Modelled from the spec: the sign bit of a single, as `DP_SIGN_BIT` (`ieee754sp.h`, absent). -/
def SP_SIGN_BIT : Nat := SP_MBIT 31

/-- Modelled from the spec: the sign field of `union ieee754sp` (`ieee754.h`, absent). -/
def SPSIGN (sp : Nat) : Nat := sp / 2 ^ 31 % 2

/-- Modelled from the spec: the 8-bit biased exponent field of `union ieee754sp`. -/
def SPBEXP (sp : Nat) : Nat := sp / 2 ^ 23 % 2 ^ 8

/-- Modelled from the spec: the 23-bit mantissa field of `union ieee754sp`. -/
def SPMANT (sp : Nat) : Nat := sp % 2 ^ 23

/-- Modelled from the spec: `EXPLODESP` of `ieee754int.h` (absent), the single-precision
counterpart of `EXPLODEDP`. Yields `(xc, xs, xe, xm)`. -/
def EXPLODESP (v : Nat) : ieee754_class × Int × Int × Nat :=
  let vs : Int := SPSIGN v
  let ve : Int := SPBEXP v
  let vm : Nat := SPMANT v
  if ve = SP_EMAX + 1 + SP_EBIAS then
    if vm = 0 then (INF, vs, ve, vm)
    else if vm &&& SP_MBIT (SP_FBITS - 1) ≠ 0 then (QNAN, vs, ve, vm)
    else (SNAN, vs, ve, vm)
  else if ve = SP_EMIN - 1 + SP_EBIAS then
    if vm ≠ 0 then (DNORM, vs, SP_EMIN, vm)
    else (ZERO, vs, ve, vm)
  else (NORM, vs, ve - SP_EBIAS, vm ||| SP_HIDDEN_BIT)

/-- Modelled from the spec: `struct ieee754sp_const` is declared in `ieee754.h` (absent);
it lays a single out as sign (1 bit), biased exponent (8 bits) and mantissa (23 bits).
`SPSTR` is the initialiser macro of `ieee754.c`, the same fields in either byte order. -/
def SPSTR (s : Nat) (b : Int) (m : Nat) : Nat :=
  s % 2 * 2 ^ 31 + (b % 2 ^ 8).toNat * 2 ^ 23 + m % 2 ^ 23

/-- `__ieee754sp_spcvals`. -/
def __ieee754sp_spcvals : List Nat := [
  SPSTR 0 (SP_EMIN - 1 + SP_EBIAS) 0,        -- + zero
  SPSTR 1 (SP_EMIN - 1 + SP_EBIAS) 0,        -- - zero
  SPSTR 0 SP_EBIAS 0,                        -- + 1.0
  SPSTR 1 SP_EBIAS 0,                        -- - 1.0
  SPSTR 0 (3 + SP_EBIAS) 0x200000,           -- + 10.0
  SPSTR 1 (3 + SP_EBIAS) 0x200000,           -- - 10.0
  SPSTR 0 (SP_EMAX + 1 + SP_EBIAS) 0,        -- + infinity
  SPSTR 1 (SP_EMAX + 1 + SP_EBIAS) 0,        -- - infinity
  SPSTR 0 (SP_EMAX + 1 + SP_EBIAS) 0x3FFFFF, -- + indef quiet Nan
  SPSTR 0 (SP_EMAX + SP_EBIAS) 0x7FFFFF,     -- + max normal
  SPSTR 1 (SP_EMAX + SP_EBIAS) 0x7FFFFF,     -- - max normal
  SPSTR 0 (SP_EMIN + SP_EBIAS) 0,            -- + min normal
  SPSTR 1 (SP_EMIN + SP_EBIAS) 0,            -- - min normal
  SPSTR 0 (SP_EMIN - 1 + SP_EBIAS) 1,        -- + min denormal
  SPSTR 1 (SP_EMIN - 1 + SP_EBIAS) 1,        -- - min denormal
  SPSTR 0 (31 + SP_EBIAS) 0,                 -- + 1.0e31
  SPSTR 0 (63 + SP_EBIAS) 0                  -- + 1.0e63
]

/-- Entry `i` of the single-precision catalog. -/
def sp_spcval (i : Nat) : Nat := __ieee754sp_spcvals.getD i 0

/-- The seventeen names of the catalog with the format left open: what the name with
index `i` stands for in a binary format of bias `ebias`, exponent range `emin .. emax`
and `fbits` mantissa bits, as the triple (sign, biased exponent, mantissa). The names
and their order are those of the data model's list (the two zeros, ±1.0, ±10.0, the two
infinities, the indefinite NaN, ± max normal, ± min normal, ± min denormal, 1e31, 1e63);
the fields are the ones the rows of `__ieee754dp_spcvals` and `__ieee754sp_spcvals`
write for the name, with `DP_`/`SP_` read as the format: 10.0 is `1.25 * 2^3`, so its
mantissa is the quarter `2^(fbits-2)`; the indefinite NaN has every mantissa bit but
the topmost set; 1e31 and 1e63 have exponents 31 and 63. It is the yardstick both
tables are compared with, not a translation of either. -/
def spcval_named (ebias emin emax : Int) (fbits : Nat) (i : Nat) : Nat × Int × Nat :=
  if i = IEEE754_SPCVAL_PZERO then (0, emin - 1 + ebias, 0)
  else if i = IEEE754_SPCVAL_NZERO then (1, emin - 1 + ebias, 0)
  else if i = IEEE754_SPCVAL_PONE then (0, ebias, 0)
  else if i = IEEE754_SPCVAL_NONE then (1, ebias, 0)
  else if i = IEEE754_SPCVAL_PTEN then (0, 3 + ebias, 2 ^ (fbits - 2))
  else if i = IEEE754_SPCVAL_NTEN then (1, 3 + ebias, 2 ^ (fbits - 2))
  else if i = IEEE754_SPCVAL_PINFINITY then (0, emax + 1 + ebias, 0)
  else if i = IEEE754_SPCVAL_NINFINITY then (1, emax + 1 + ebias, 0)
  else if i = IEEE754_SPCVAL_INDEF then (0, emax + 1 + ebias, 2 ^ (fbits - 1) - 1)
  else if i = IEEE754_SPCVAL_PMAX then (0, emax + ebias, 2 ^ fbits - 1)
  else if i = IEEE754_SPCVAL_NMAX then (1, emax + ebias, 2 ^ fbits - 1)
  else if i = IEEE754_SPCVAL_PMIN then (0, emin + ebias, 0)
  else if i = IEEE754_SPCVAL_NMIN then (1, emin + ebias, 0)
  else if i = IEEE754_SPCVAL_PMIND then (0, emin - 1 + ebias, 1)
  else if i = IEEE754_SPCVAL_NMIND then (1, emin - 1 + ebias, 1)
  else if i = IEEE754_SPCVAL_P1E31 then (0, 31 + ebias, 0)
  else (0, 63 + ebias, 0)

/-- The classification rule in the words of the data model, for a format whose exponent
field has the zero/denormal sentinel `ebot` and the infinity/NaN sentinel `etop` and
whose mantissa has `fbits` bits: `spec_class ebot etop fbits c e m` says that class `c`
holds of the pair (biased exponent `e`, mantissa `m`). -/
def spec_class (ebot etop fbits : Nat) (c : ieee754_class) (e m : Nat) : Prop :=
  match c with
  | ZERO => e = ebot ∧ m = 0
  | DNORM => e = ebot ∧ m ≠ 0
  | NORM => ebot < e ∧ e < etop
  | INF => e = etop ∧ m = 0
  | QNAN => e = etop ∧ m ≠ 0 ∧ m.testBit (fbits - 1) = true
  | SNAN => e = etop ∧ m ≠ 0 ∧ m.testBit (fbits - 1) = false

/-- Modelled from the spec: `ieee754dp_nanxcpt` (`ieee754dp.c`, absent), the NaN-result
trap path: the handler runs only if the context is tripped, with the NaN `r` as the
fallback in the result slot; otherwise `r` is returned unchanged. -/
def ieee754dp_nanxcpt (xcpt : ieee754xctx → ieee754xctx) (st : State) (r : Nat) (op : String)
    (ap : List Nat) : State × Nat :=
  let st := { st with entries := st.entries ++ ["ieee754dp_nanxcpt"] }
  if ieee754_tstx st = 0 then (st, r)
  else
    let ax : ieee754xctx := { op := op, rt := IEEE754_RT_DP, rv := r, ap := ap }
    ({ st with handled := st.handled ++ [ax] }, toU64 (xcpt ax).rv)

/-! ## `dp_fsp.c` -/

/-- The renormalisation loop of `ieee754dp_fsp`,
`while ((xm >> SP_FBITS) == 0) { xm <<= 1; xe--; }`, on the 32-bit `xm`. Each unit of
fuel pays for one evaluation of the loop condition; `none` means the fuel ran out. -/
def SPDNORMx : Nat → Nat → Int → Option (Nat × Int)
  | 0, _, _ => none
  | fuel + 1, xm, xe =>
    if xm >>> SP_FBITS = 0 then SPDNORMx fuel ((xm <<< 1) % 2 ^ 32) (xe - 1)
    else some (xm, xe)

/-- The tail of `ieee754dp_fsp` after the `switch`: drop the hidden bit and build. -/
def fsp_build (xs xe : Int) (xm : Nat) : Nat :=
  let xm := xm &&& ((2 ^ 32 - 1) ^^^ SP_HIDDEN_BIT)
  builddp xs (xe + DP_EBIAS) ((xm <<< (DP_FBITS - SP_FBITS)) % 2 ^ 64)

/-- Modelled from the spec: `FLUSHXSP` is a macro of `ieee754int.h`, which is absent. In
`ieee754dp_fsp` it stands between `ieee754_clearcx()` and the `switch`, where it can
rewrite the operand `x`, its exploded form `(xc, xs, xe, xm)` and the exception context.
The spec names no flushing step: its conversion goes from the cleared context straight
to the dispatch on the class and (4.5) renormalises and widens a Denormal. The step is
therefore modelled as handing context, operand and exploded form on as they are; what
the macro of the source does to the flags is not settled by this definition. -/
def FLUSHXSP (st : State) (x : Nat) (v : ieee754_class × Int × Int × Nat) :
    State × Nat × (ieee754_class × Int × Int × Nat) :=
  (st, x, v)

/-- `ieee754dp_fsp`. The loop is run with fuel 33: a 32-bit `xm` that has not shown a bit
at or above position 23 after 32 shifts is zero and stays zero, so `none` stands for
the loop that never ends. `FLUSHXSP` runs after `ieee754_clearcx`, as in the source, and
the `switch` works on what it hands on. -/
def ieee754dp_fsp (xcpt : ieee754xctx → ieee754xctx) (st : State) (x : Nat) :
    Option (State × Nat) :=
  let v := EXPLODESP x
  let st := ieee754_clearcx st
  let f := FLUSHXSP st x v
  let st := f.1
  let x := f.2.1
  let xc := f.2.2.1
  let xs := f.2.2.2.1
  let xe := f.2.2.2.2.1
  let xm := f.2.2.2.2.2
  match xc with
  | SNAN =>
    let st := ieee754_setcx st IEEE754_INVALID_OPERATION
    some (ieee754dp_nanxcpt xcpt st ieee754dp_indef "fsp" [])
  | QNAN =>
    some (ieee754dp_nanxcpt xcpt st
      (builddp xs (DP_EMAX + 1 + DP_EBIAS) ((xm <<< (DP_FBITS - SP_FBITS)) % 2 ^ 64)) "fsp" [x])
  | INF => some (st, ieee754dp_inf xs)
  | ZERO => some (st, ieee754dp_zero xs)
  | DNORM =>
    match SPDNORMx 33 xm xe with
    | some r => some (st, fsp_build xs r.2 r.1)
    | none => none
  | NORM => some (st, fsp_build xs xe xm)

/-- The number a single pattern classified Normal or Denormal denotes:
`(-1)^s * 2^(e-127) * (1 + m/2^23)` for a Normal, `(-1)^s * 2^-126 * m/2^23` for a
Denormal (and Zero). -/
def sp_value (x : Nat) : ℚ :=
  let s := SPSIGN x
  let e := SPBEXP x
  let m := SPMANT x
  if e = 0 then (-1 : ℚ) ^ s * (2 : ℚ) ^ (-126 : ℤ) * ((m : ℚ) / 2 ^ 23)
  else (-1 : ℚ) ^ s * (2 : ℚ) ^ ((e : ℤ) - 127) * (1 + (m : ℚ) / 2 ^ 23)

/-! ## Denoted values -/

/-- The rational a finite double with sign `s`, exponent field `e` and mantissa `m`
denotes: `(-1)^s * 2^(e-1023) * (1 + m/2^52)` for a Normal, `(-1)^s * 2^-1022 * m/2^52`
for a Zero or Denormal. -/
def dp_finite_value (s e m : Nat) : ℚ :=
  if e = 0 then (-1 : ℚ) ^ s * (2 : ℚ) ^ (-1022 : ℤ) * ((m : ℚ) / 2 ^ 52)
  else (-1 : ℚ) ^ s * (2 : ℚ) ^ ((e : ℤ) - 1023) * (1 + (m : ℚ) / 2 ^ 52)

/-- The extended number a double pattern denotes: the infinity of sign `s` when the
exponent field is 2047 (a NaN, which denotes no number, is never passed), the rational
`dp_finite_value` otherwise. -/
def dp_value (x : Nat) : WithBot (WithTop ℚ) :=
  if DPBEXP x = 2047 then
    (if DPSIGN x = 1 then ⊥ else ((⊤ : WithTop ℚ) : WithBot (WithTop ℚ)))
  else ((dp_finite_value (DPSIGN x) (DPBEXP x) (DPMANT x) : ℚ) : WithTop ℚ)

/-- The relation bit that holds between the values of two non-NaN patterns. -/
def dp_relation (x y : Nat) : Nat :=
  if dp_value x < dp_value y then IEEE754_CLT
  else if dp_value x = dp_value y then IEEE754_CEQ
  else IEEE754_CGT

/-- The magnitude of a double scaled by `2^1074`: `m` when the exponent field is 0,
`2^(e-1) * (2^52 + m)` otherwise. -/
def dp_scaled (e m : Nat) : Nat := if e = 0 then m else 2 ^ (e - 1) * (2 ^ 52 + m)

/-- The signed scaled magnitude of a pattern. -/
def dp_rank (x : Nat) : Int :=
  if DPSIGN x = 0 then (dp_scaled (DPBEXP x) (DPMANT x) : Int)
  else -(dp_scaled (DPBEXP x) (DPMANT x) : Int)

/-- Reading a scaled integer back as an extended number: `k / 2^1074`, saturating to the
infinities at `±2^2098`. -/
def of_rank (k : Int) : WithBot (WithTop ℚ) :=
  if 2 ^ 2098 ≤ k then ((⊤ : WithTop ℚ) : WithBot (WithTop ℚ))
  else if k ≤ -2 ^ 2098 then ⊥
  else (((k : ℚ) / 2 ^ 1074 : ℚ) : WithTop ℚ)

/-- The arguments `(s, bx, m)` of the `builddp` call in the tail of `ieee754dp_fsp`, the
one `fsp_build` makes. -/
def fsp_build_args (xs xe : Int) (xm : Nat) : Int × Int × Nat :=
  let xm := xm &&& ((2 ^ 32 - 1) ^^^ SP_HIDDEN_BIT)
  (xs, xe + DP_EBIAS, (xm <<< (DP_FBITS - SP_FBITS)) % 2 ^ 64)

/-- The arguments of the `builddp` call that `ieee754dp_fsp` makes on input `x`: the call
in the QNAN case, or the call in the tail reached from the DNORM and NORM cases. The
SNAN, INF and ZERO cases return without calling `builddp`; `none` stands for them (and
for a loop that never ends). -/
def fsp_builddp_args (x : Nat) : Option (Int × Int × Nat) :=
  let xc := (EXPLODESP x).1
  let xs := (EXPLODESP x).2.1
  let xe := (EXPLODESP x).2.2.1
  let xm := (EXPLODESP x).2.2.2
  match xc with
  | SNAN => none
  | QNAN => some (xs, DP_EMAX + 1 + DP_EBIAS, (xm <<< (DP_FBITS - SP_FBITS)) % 2 ^ 64)
  | INF => none
  | ZERO => none
  | DNORM =>
    match SPDNORMx 33 xm xe with
    | some r => some (fsp_build_args xs r.2 r.1)
    | none => none
  | NORM => some (fsp_build_args xs xe xm)

/-- The sign-magnitude key of a single pattern, `(-1)^s * (x mod 2^31)`. -/
def sp_key (x : Nat) : Int := (-1 : Int) ^ SPSIGN x * ((x % 2 ^ 31 : Nat) : Int)

/-- How the magnitude `D` (low 63 bits) of a widened double relates to the magnitude `a`
(low 31 bits) of the non-NaN single it comes from, case by case: zero, denormal
(renormalised by `k` shifts), normal, infinity. -/
def widen_rel (a D : Nat) : Prop :=
  (a = 0 ∧ D = 0) ∨
  (∃ k, k ≤ 23 ∧ a < 2 ^ 23 ∧ 2 ^ 23 ≤ a * 2 ^ k ∧ a * 2 ^ k < 2 ^ 24 ∧
    D = (897 - k) * 2 ^ 52 + (a * 2 ^ k - 2 ^ 23) * 2 ^ 29) ∨
  (2 ^ 23 ≤ a ∧ a < 255 * 2 ^ 23 ∧ D = a * 2 ^ 29 + 896 * 2 ^ 52) ∨
  (a = 255 * 2 ^ 23 ∧ D = 2047 * 2 ^ 52)

/-! ## Auxiliary facts -/

theorem DP_SIGN_BIT_eq : DP_SIGN_BIT = 2 ^ 63 := by decide

theorem xor_sign_of_lt (a : Nat) (h : a < 2 ^ 63) : a ^^^ 2 ^ 63 = 2 ^ 63 + a := by
  apply Nat.eq_of_testBit_eq
  intro i
  rw [Nat.testBit_xor]
  rcases Nat.lt_trichotomy i 63 with hi | hi | hi
  · rw [Nat.testBit_two_pow_of_ne (by omega), Nat.testBit_two_pow_add_gt hi]
    simp
  · subst hi
    rw [Nat.testBit_two_pow_self, Nat.testBit_two_pow_add_eq, Nat.testBit_lt_two_pow h]
    simp
  · have h1 : a < 2 ^ i := lt_trans h (Nat.pow_lt_pow_right (by norm_num) hi)
    have h2 : 2 ^ 63 + a < 2 ^ i := by
      have : (2:Nat) ^ 64 ≤ 2 ^ i := Nat.pow_le_pow_right (by norm_num) hi
      omega
    rw [Nat.testBit_lt_two_pow h1, Nat.testBit_lt_two_pow h2, Nat.testBit_two_pow_of_ne (by omega)]
    simp

/-- The key is the sign-magnitude reading of the pattern. -/
theorem cmp_key_eq (x : Nat) (hx : x < 2 ^ 64) :
    cmp_key x = if x < 2 ^ 63 then (x : Int) else -((x - 2 ^ 63 : Nat) : Int) := by
  unfold cmp_key toS64 toU64
  rw [DP_SIGN_BIT_eq, Nat.mod_eq_of_lt hx]
  by_cases h : x < 2 ^ 63
  · simp only [h, if_true]
    rw [if_neg (by omega)]
  · simp only [h, if_false]
    rw [if_pos (by omega)]
    have e1 : (-((x : Int) - 2 ^ 64)) % 2 ^ 64 = ((2 ^ 64 - x : Nat) : Int) := by
      rw [Int.emod_eq_of_lt (by omega) (by omega)]
      omega
    rw [e1, Int.toNat_ofNat]
    by_cases hz : x = 2 ^ 63
    · subst hz
      decide
    · have hlt : 2 ^ 64 - x < 2 ^ 63 := by omega
      rw [xor_sign_of_lt _ hlt]
      have e2 : (2 ^ 63 + (2 ^ 64 - x)) % 2 ^ 64 = 2 ^ 63 + (2 ^ 64 - x) := Nat.mod_eq_of_lt (by omega)
      rw [e2, if_neg (by omega)]
      omega

theorem dp_scaled_lt (e1 m1 e2 m2 : Nat) (h1 : m1 < 2 ^ 52)
    (h : e1 * 2 ^ 52 + m1 < e2 * 2 ^ 52 + m2) (h2 : m2 < 2 ^ 52) :
    dp_scaled e1 m1 < dp_scaled e2 m2 := by
  unfold dp_scaled
  have hc : e1 < e2 ∨ (e1 = e2 ∧ m1 < m2) := by omega
  rcases hc with hc | ⟨rfl, hm⟩
  · have he2 : e2 ≠ 0 := by omega
    rw [if_neg he2]
    have hbig : 2 ^ e1 * 2 ^ 52 ≤ 2 ^ (e2 - 1) * (2 ^ 52 + m2) := by
      have : (2 : Nat) ^ e1 ≤ 2 ^ (e2 - 1) := Nat.pow_le_pow_right (by norm_num) (by omega)
      calc 2 ^ e1 * 2 ^ 52 ≤ 2 ^ (e2 - 1) * 2 ^ 52 := Nat.mul_le_mul_right _ this
        _ ≤ 2 ^ (e2 - 1) * (2 ^ 52 + m2) := Nat.mul_le_mul_left _ (by omega)
    by_cases he1 : e1 = 0
    · rw [if_pos he1]
      subst he1
      have : (2 : Nat) ^ 0 * 2 ^ 52 = 2 ^ 52 := by norm_num
      omega
    · rw [if_neg he1]
      have hstep : 2 ^ (e1 - 1) * (2 ^ 52 + m1) < 2 ^ e1 * 2 ^ 52 := by
        have e : (2 : Nat) ^ e1 = 2 ^ (e1 - 1) * 2 := by
          rw [← pow_succ]
          congr 1
          omega
        rw [e, Nat.mul_assoc]
        exact Nat.mul_lt_mul_of_pos_left (by omega) (Nat.two_pow_pos _)
      omega
  · by_cases he1 : e1 = 0
    · simp only [he1, if_true]
      exact hm
    · simp only [he1, if_false]
      exact Nat.mul_lt_mul_of_pos_left (by omega) (Nat.two_pow_pos _)

theorem dp_fields (x : Nat) (hx : x < 2 ^ 64) :
    DPMANT x < 2 ^ 52 ∧ DPBEXP x < 2 ^ 11 ∧
    (x < 2 ^ 63 → DPSIGN x = 0 ∧ x = DPBEXP x * 2 ^ 52 + DPMANT x) ∧
    (¬ x < 2 ^ 63 → DPSIGN x = 1 ∧ x - 2 ^ 63 = DPBEXP x * 2 ^ 52 + DPMANT x) := by
  unfold DPMANT DPBEXP DPSIGN
  refine ⟨by omega, by omega, fun h => ⟨by omega, by omega⟩, fun h => ⟨by omega, by omega⟩⟩

theorem dp_scaled_zero_iff (e m : Nat) : dp_scaled e m = 0 ↔ e * 2 ^ 52 + m = 0 := by
  unfold dp_scaled
  by_cases he : e = 0
  · subst he
    simp
  · rw [if_neg he]
    have : 0 < 2 ^ (e - 1) * (2 ^ 52 + m) := Nat.mul_pos (Nat.two_pow_pos _) (by omega)
    constructor
    · intro h
      omega
    · intro h
      have : e * 2 ^ 52 = 0 := by omega
      simp at this
      exact absurd this he

theorem dp_scaled_lt_iff (e1 m1 e2 m2 : Nat) (h1 : m1 < 2 ^ 52) (h2 : m2 < 2 ^ 52) :
    dp_scaled e1 m1 < dp_scaled e2 m2 ↔ e1 * 2 ^ 52 + m1 < e2 * 2 ^ 52 + m2 := by
  constructor
  · intro h
    by_contra hn
    have hc : e2 * 2 ^ 52 + m2 < e1 * 2 ^ 52 + m1 ∨ (e2 = e1 ∧ m2 = m1) := by omega
    rcases hc with hc | ⟨rfl, rfl⟩
    · have := dp_scaled_lt e2 m2 e1 m1 h2 hc h1
      omega
    · omega
  · intro h
    exact dp_scaled_lt e1 m1 e2 m2 h1 h h2

/-- The order of the keys is the order of the signed scaled magnitudes. -/
theorem dp_rank_lt_iff (x y : Nat) (hx : x < 2 ^ 64) (hy : y < 2 ^ 64) :
    dp_rank x < dp_rank y ↔ cmp_key x < cmp_key y := by
  obtain ⟨mx, _, px, nx⟩ := dp_fields x hx
  obtain ⟨my, _, py, ny⟩ := dp_fields y hy
  rw [cmp_key_eq x hx, cmp_key_eq y hy]
  unfold dp_rank
  have hxy := dp_scaled_lt_iff (DPBEXP x) (DPMANT x) (DPBEXP y) (DPMANT y) mx my
  have hyx := dp_scaled_lt_iff (DPBEXP y) (DPMANT y) (DPBEXP x) (DPMANT x) my mx
  have zx := dp_scaled_zero_iff (DPBEXP x) (DPMANT x)
  have zy := dp_scaled_zero_iff (DPBEXP y) (DPMANT y)
  by_cases sx : x < 2 ^ 63 <;> by_cases sy : y < 2 ^ 63
  · obtain ⟨a, b⟩ := px sx
    obtain ⟨c, d⟩ := py sy
    simp only [a, c, sx, sy, if_true]
    omega
  · obtain ⟨a, b⟩ := px sx
    obtain ⟨c, d⟩ := ny sy
    simp only [a, c, sx, sy, if_true, if_false]
    rw [if_neg (by decide)]
    omega
  · obtain ⟨a, b⟩ := nx sx
    obtain ⟨c, d⟩ := py sy
    simp only [a, c, sx, sy, if_true, if_false]
    rw [if_neg (by decide)]
    omega
  · obtain ⟨a, b⟩ := nx sx
    obtain ⟨c, d⟩ := ny sy
    simp only [a, c, sx, sy, if_false]
    rw [if_neg (by decide), if_neg (by decide)]
    omega

/-- The class `EXPLODEDP` assigns, read on the fields. -/
theorem EXPLODEDP_class (x : Nat) :
    (EXPLODEDP x).1 =
      if DPBEXP x = 2047 then
        (if DPMANT x = 0 then INF
         else if DPMANT x &&& DP_MBIT (DP_FBITS - 1) ≠ 0 then QNAN else SNAN)
      else if DPBEXP x = 0 then (if DPMANT x ≠ 0 then DNORM else ZERO)
      else NORM := by
  unfold EXPLODEDP
  have e1 : ((DPBEXP x : Int) = DP_EMAX + 1 + DP_EBIAS) ↔ DPBEXP x = 2047 := by
    simp only [DP_EMAX, DP_EBIAS]
    omega
  have e2 : ((DPBEXP x : Int) = DP_EMIN - 1 + DP_EBIAS) ↔ DPBEXP x = 0 := by
    simp only [DP_EMIN, DP_EBIAS]
    omega
  simp only [e1, e2]
  split_ifs <;> rfl

/-- The NaN test of the code, read on the fields. -/
theorem isnan_eq_zero_iff (x : Nat) :
    ieee754dp_isnan x = 0 ↔ ¬ (DPBEXP x = 2047 ∧ DPMANT x ≠ 0) := by
  unfold ieee754dp_isnan
  rw [EXPLODEDP_class]
  split_ifs <;> simp_all

theorem two_zpow_sub (k : Nat) (n : Nat) :
    (2 : ℚ) ^ ((k : ℤ) - (n : ℤ)) = 2 ^ k / 2 ^ n := by
  rw [zpow_sub₀ (by norm_num), zpow_natCast, zpow_natCast]

theorem dp_finite_value_eq (s e m : Nat) :
    dp_finite_value s e m = (-1 : ℚ) ^ s * ((dp_scaled e m : ℚ) / 2 ^ 1074) := by
  unfold dp_finite_value dp_scaled
  by_cases h0 : e = 0
  · simp only [h0, if_true]
    have : (2 : ℚ) ^ (-1022 : ℤ) = 2 ^ 52 / 2 ^ 1074 := by
      have := two_zpow_sub 52 1074
      rw [← this]
      norm_num
    rw [this]
    field_simp
    ring
  · simp only [h0, if_false]
    obtain ⟨k, hk⟩ : ∃ k, e = k + 1 := ⟨e - 1, by omega⟩
    have : (2 : ℚ) ^ ((e : ℤ) - 1023) = 2 ^ (k + 52) / 2 ^ 1074 := by
      have := two_zpow_sub (k + 52) 1074
      rw [← this, hk]
      congr 1
      push_cast
      ring
    rw [this, hk]
    simp only [Nat.add_sub_cancel]
    push_cast
    field_simp
    ring

theorem dp_scaled_inf : dp_scaled 2047 0 = 2 ^ 2098 := by
  unfold dp_scaled
  rw [if_neg (by decide), Nat.add_zero, ← pow_add]

theorem of_rank_top : of_rank (2 ^ 2098) = ((⊤ : WithTop ℚ) : WithBot (WithTop ℚ)) := by
  unfold of_rank
  rw [if_pos le_rfl]

theorem of_rank_bot : of_rank (-2 ^ 2098) = ⊥ := by
  unfold of_rank
  have hB : (0 : ℤ) < 2 ^ 2098 := by positivity
  generalize (2 : ℤ) ^ 2098 = B at *
  rw [if_neg (by omega), if_pos le_rfl]

theorem of_rank_mid (k : Int) (h1 : -2 ^ 2098 < k) (h2 : k < 2 ^ 2098) :
    of_rank k = (((k : ℚ) / 2 ^ 1074 : ℚ) : WithTop ℚ) := by
  unfold of_rank
  rw [if_neg (not_le.mpr h2), if_neg (not_le.mpr h1)]

theorem dp_rank_mid (x : Nat) (hx : x < 2 ^ 64) (h47 : DPBEXP x ≠ 2047) :
    -2 ^ 2098 < dp_rank x ∧ dp_rank x < 2 ^ 2098 := by
  obtain ⟨hm, he, _, _⟩ := dp_fields x hx
  have hlt : dp_scaled (DPBEXP x) (DPMANT x) < 2 ^ 2098 := by
    rw [← dp_scaled_inf]
    exact dp_scaled_lt (DPBEXP x) (DPMANT x) 2047 0 hm (by omega) (by norm_num)
  have hltz : ((dp_scaled (DPBEXP x) (DPMANT x) : Nat) : Int) < 2 ^ 2098 := by exact_mod_cast hlt
  have hB : (0 : ℤ) < 2 ^ 2098 := by positivity
  unfold dp_rank
  generalize (2 : ℤ) ^ 2098 = B at *
  split_ifs <;> constructor <;> omega

/-- The value of a non-NaN pattern is its signed scaled magnitude over `2^1074`. -/
theorem dp_value_eq_of_rank (x : Nat) (hx : x < 2 ^ 64) (nx : ieee754dp_isnan x = 0) :
    dp_value x = of_rank (dp_rank x) := by
  rw [isnan_eq_zero_iff] at nx
  have hs : DPSIGN x = 0 ∨ DPSIGN x = 1 := by unfold DPSIGN; omega
  by_cases h47 : DPBEXP x = 2047
  · have hm0 : DPMANT x = 0 := by
      by_contra h
      exact nx ⟨h47, h⟩
    unfold dp_value dp_rank
    rw [if_pos h47, h47, hm0, dp_scaled_inf]
    rcases hs with hs | hs
    · rw [if_neg (by omega), if_pos hs]
      simp only [Nat.cast_pow, Nat.cast_ofNat]
      rw [of_rank_top]
    · rw [if_pos hs, if_neg (by omega)]
      simp only [Nat.cast_pow, Nat.cast_ofNat]
      rw [of_rank_bot]
  · obtain ⟨h1, h2⟩ := dp_rank_mid x hx h47
    rw [of_rank_mid _ h1 h2]
    unfold dp_value
    rw [if_neg h47, dp_finite_value_eq]
    unfold dp_rank
    rcases hs with hs | hs
    · rw [if_pos hs, hs]
      simp
    · rw [if_neg (by omega), hs]
      congr 2
      push_cast
      ring

theorem of_rank_lt_iff (a b : Int) (ha1 : -2 ^ 2098 ≤ a) (ha2 : a ≤ 2 ^ 2098)
    (hb1 : -2 ^ 2098 ≤ b) (hb2 : b ≤ 2 ^ 2098) : of_rank a < of_rank b ↔ a < b := by
  have hB : (0 : ℤ) < 2 ^ 2098 := by positivity
  rcases eq_or_lt_of_le ha2 with ha | ha
  · rw [ha, of_rank_top, WithBot.coe_top]
    constructor
    · intro h
      exact absurd h not_top_lt
    · intro h
      exact absurd h (not_lt.mpr hb2)
  rcases eq_or_lt_of_le ha1 with ha' | ha'
  · rw [← ha', of_rank_bot]
    rcases eq_or_lt_of_le hb2 with hb | hb
    · rw [hb, of_rank_top]
      constructor
      · intro _
        exact lt_trans (neg_lt_zero.mpr hB) hB
      · intro _
        exact WithBot.bot_lt_coe _
    rcases eq_or_lt_of_le hb1 with hb' | hb'
    · rw [← hb', of_rank_bot]
      constructor
      · intro h
        exact absurd h (lt_irrefl _)
      · intro h
        exact absurd h (lt_irrefl _)
    · rw [of_rank_mid b hb' hb]
      constructor
      · intro _
        exact hb'
      · intro _
        exact WithBot.bot_lt_coe _
  rw [of_rank_mid a ha' ha]
  rcases eq_or_lt_of_le hb2 with hb | hb
  · rw [hb, of_rank_top]
    constructor
    · intro _
      exact ha
    · intro _
      exact WithBot.coe_lt_coe.mpr (WithTop.coe_lt_top _)
  rcases eq_or_lt_of_le hb1 with hb' | hb'
  · rw [← hb', of_rank_bot]
    constructor
    · intro h
      exact absurd h (not_lt_bot)
    · intro h
      exact absurd h (not_lt.mpr ha'.le)
  · rw [of_rank_mid b hb' hb, WithBot.coe_lt_coe, WithTop.coe_lt_coe,
      div_lt_div_iff_of_pos_right (by positivity), Int.cast_lt]

theorem dp_rank_bounds (x : Nat) (hx : x < 2 ^ 64) (nx : ieee754dp_isnan x = 0) :
    -2 ^ 2098 ≤ dp_rank x ∧ dp_rank x ≤ 2 ^ 2098 := by
  by_cases h47 : DPBEXP x = 2047
  · rw [isnan_eq_zero_iff] at nx
    have hm0 : DPMANT x = 0 := by
      by_contra h
      exact nx ⟨h47, h⟩
    have hB : (0 : ℤ) < 2 ^ 2098 := by positivity
    unfold dp_rank
    rw [h47, hm0, dp_scaled_inf]
    simp only [Nat.cast_pow, Nat.cast_ofNat]
    generalize (2 : ℤ) ^ 2098 = B at *
    split_ifs <;> constructor <;> omega
  · obtain ⟨h1, h2⟩ := dp_rank_mid x hx h47
    exact ⟨h1.le, h2.le⟩

/-- Monotonicity of the encoding: for non-NaN patterns the order of the denoted values
is the order of the keys that `ieee754dp_cmp` compares. -/
theorem dp_value_lt_iff (x y : Nat) (hx : x < 2 ^ 64) (hy : y < 2 ^ 64)
    (nx : ieee754dp_isnan x = 0) (ny : ieee754dp_isnan y = 0) :
    dp_value x < dp_value y ↔ cmp_key x < cmp_key y := by
  obtain ⟨a1, a2⟩ := dp_rank_bounds x hx nx
  obtain ⟨b1, b2⟩ := dp_rank_bounds y hy ny
  rw [dp_value_eq_of_rank x hx nx, dp_value_eq_of_rank y hy ny,
    of_rank_lt_iff _ _ a1 a2 b1 b2, dp_rank_lt_iff x y hx hy]

theorem dp_value_eq_iff (x y : Nat) (hx : x < 2 ^ 64) (hy : y < 2 ^ 64)
    (nx : ieee754dp_isnan x = 0) (ny : ieee754dp_isnan y = 0) :
    dp_value x = dp_value y ↔ cmp_key x = cmp_key y := by
  have h1 := dp_value_lt_iff x y hx hy nx ny
  have h2 := dp_value_lt_iff y x hy hx ny nx
  constructor
  · intro h
    rw [h] at h1 h2
    have := lt_irrefl (dp_value y)
    have n1 : ¬ cmp_key x < cmp_key y := fun hh => this (h1.mpr hh)
    have n2 : ¬ cmp_key y < cmp_key x := fun hh => this (h2.mpr hh)
    omega
  · intro h
    rw [h] at h1 h2
    have n1 : ¬ dp_value x < dp_value y := fun hh => lt_irrefl _ (h1.mp hh)
    have n2 : ¬ dp_value y < dp_value x := fun hh => lt_irrefl _ (h2.mp hh)
    exact le_antisymm (not_lt.mp n2) (not_lt.mp n1)

/-- The result of `ieee754dp_cmp` on two non-NaN operands. -/
theorem cmp_ordered (xcpt : ieee754xctx → ieee754xctx) (st : State) (x y cmp : Nat) (sig : Int)
    (nx : ieee754dp_isnan x = 0) (ny : ieee754dp_isnan y = 0) :
    ieee754dp_cmp xcpt st x y cmp sig =
      (ieee754_clearcx st,
        if cmp_key x < cmp_key y then (if cmp &&& IEEE754_CLT ≠ 0 then 1 else 0)
        else if cmp_key x = cmp_key y then (if cmp &&& IEEE754_CEQ ≠ 0 then 1 else 0)
        else (if cmp &&& IEEE754_CGT ≠ 0 then 1 else 0)) := by
  unfold ieee754dp_cmp
  simp only [nx, ny]
  split_ifs <;> simp_all

/-- The value returned by `ieee754dp_cmp` on two non-NaN operands. -/
theorem cmp_ordered_result (xcpt : ieee754xctx → ieee754xctx) (st : State) (x y cmp : Nat)
    (sig : Int) (nx : ieee754dp_isnan x = 0) (ny : ieee754dp_isnan y = 0) :
    (ieee754dp_cmp xcpt st x y cmp sig).2 =
      if cmp_key x < cmp_key y then (if cmp &&& IEEE754_CLT ≠ 0 then 1 else 0)
      else if cmp_key x = cmp_key y then (if cmp &&& IEEE754_CEQ ≠ 0 then 1 else 0)
      else (if cmp &&& IEEE754_CGT ≠ 0 then 1 else 0) := by
  rw [cmp_ordered xcpt st x y cmp sig nx ny]

/-- C1: for all double patterns `x`, `y` that are not NaN, every mask `cmp` and every
`sig`, `ieee754dp_cmp` returns 1 when the bit of the relation that holds between the
denoted extended numbers (LESS_THAN, EQUAL or GREATER_THAN) is set in `cmp`, and 0
otherwise. -/
theorem C1_cmp_follows_value (xcpt : ieee754xctx → ieee754xctx) (st : State)
    (x y cmp : Nat) (sig : Int) (hx : x < 2 ^ 64) (hy : y < 2 ^ 64)
    (nx : ieee754dp_isnan x = 0) (ny : ieee754dp_isnan y = 0) :
    (ieee754dp_cmp xcpt st x y cmp sig).2 =
      if cmp &&& dp_relation x y ≠ 0 then 1 else 0 := by
  rw [cmp_ordered xcpt st x y cmp sig nx ny]
  unfold dp_relation
  simp only [dp_value_lt_iff x y hx hy nx ny, dp_value_eq_iff x y hx hy nx ny]
  split_ifs <;> rfl

theorem C1_cmp_follows_value_witness :
    (0x4024000000000000 < 2 ^ 64 ∧ 0x3FF0000000000000 < 2 ^ 64 ∧
      ieee754dp_isnan 0x4024000000000000 = 0 ∧ ieee754dp_isnan 0x3FF0000000000000 = 0) ∧
    (ieee754dp_cmp id ⟨1, 0, [], []⟩ 0x4024000000000000 0x3FF0000000000000
        IEEE754_CGT 0).2 =
      if IEEE754_CGT &&& dp_relation 0x4024000000000000 0x3FF0000000000000 ≠ 0 then 1 else 0 :=
  ⟨⟨by decide, by decide, by decide, by decide⟩,
    C1_cmp_follows_value id ⟨1, 0, [], []⟩ 0x4024000000000000 0x3FF0000000000000
      IEEE754_CGT 0 (by decide) (by decide) (by decide) (by decide)⟩

/-- C2: compare reflexivity. For every double pattern `x` that is not a NaN,
`ieee754dp_cmp(x, x, IEEE754_CEQ, 0)` returns 1. -/
theorem C2_cmp_reflexive (xcpt : ieee754xctx → ieee754xctx) (st : State) (x : Nat)
    (_hx : x < 2 ^ 64) (nx : ieee754dp_isnan x = 0) :
    (ieee754dp_cmp xcpt st x x IEEE754_CEQ 0).2 = 1 := by
  rw [cmp_ordered xcpt st x x IEEE754_CEQ 0 nx nx]
  simp only [lt_irrefl, if_false, if_true]
  decide

theorem C2_cmp_reflexive_witness :
    (0xFFF0000000000000 < 2 ^ 64 ∧ ieee754dp_isnan 0xFFF0000000000000 = 0) ∧
    (ieee754dp_cmp id ⟨1, 0, [], []⟩ 0xFFF0000000000000 0xFFF0000000000000
        IEEE754_CEQ 0).2 = 1 :=
  ⟨⟨by decide, by decide⟩,
    C2_cmp_reflexive id ⟨1, 0, [], []⟩ 0xFFF0000000000000 (by decide) (by decide)⟩

/-- C3: compare antisymmetry. For all non-NaN doubles `x`, `y` and every `sig`,
`ieee754dp_cmp(x, y, IEEE754_CLT, sig)` equals `ieee754dp_cmp(y, x, IEEE754_CGT, sig)`. -/
theorem C3_cmp_antisymmetric (xcpt : ieee754xctx → ieee754xctx) (st : State) (x y : Nat)
    (sig : Int) (_hx : x < 2 ^ 64) (_hy : y < 2 ^ 64)
    (nx : ieee754dp_isnan x = 0) (ny : ieee754dp_isnan y = 0) :
    (ieee754dp_cmp xcpt st x y IEEE754_CLT sig).2 =
      (ieee754dp_cmp xcpt st y x IEEE754_CGT sig).2 := by
  rw [cmp_ordered xcpt st x y IEEE754_CLT sig nx ny,
    cmp_ordered xcpt st y x IEEE754_CGT sig ny nx]
  have c1 : IEEE754_CLT &&& IEEE754_CLT ≠ 0 := by decide
  have c2 : ¬ IEEE754_CLT &&& IEEE754_CEQ ≠ 0 := by decide
  have c3 : ¬ IEEE754_CLT &&& IEEE754_CGT ≠ 0 := by decide
  have c4 : ¬ IEEE754_CGT &&& IEEE754_CLT ≠ 0 := by decide
  have c5 : ¬ IEEE754_CGT &&& IEEE754_CEQ ≠ 0 := by decide
  have c6 : IEEE754_CGT &&& IEEE754_CGT ≠ 0 := by decide
  simp only [if_pos c1, if_neg c2, if_neg c3, if_neg c4, if_neg c5, if_pos c6]
  split_ifs <;> first | rfl | omega

theorem C3_cmp_antisymmetric_witness :
    (0x8000000000000001 < 2 ^ 64 ∧ 0x0000000000000001 < 2 ^ 64 ∧
      ieee754dp_isnan 0x8000000000000001 = 0 ∧ ieee754dp_isnan 0x0000000000000001 = 0) ∧
    (ieee754dp_cmp id ⟨0, 16, [], []⟩ 0x8000000000000001 0x0000000000000001
        IEEE754_CLT 1).2 =
      (ieee754dp_cmp id ⟨0, 16, [], []⟩ 0x0000000000000001 0x8000000000000001
        IEEE754_CGT 1).2 :=
  ⟨⟨by decide, by decide, by decide, by decide⟩,
    C3_cmp_antisymmetric id ⟨0, 16, [], []⟩ 0x8000000000000001 0x0000000000000001 1
      (by decide) (by decide) (by decide) (by decide)⟩

/-- C4: signed-zero equality. With `+0.0` the pattern `0x0000000000000000` and `-0.0` the
pattern `0x8000000000000000`, comparing them under `IEEE754_CEQ` returns 1 in either
order and comparing them under `IEEE754_CUN` returns 0; the key of `-0.0` is 0. -/
theorem C4_signed_zero_equal (xcpt : ieee754xctx → ieee754xctx) (st : State) :
    (ieee754dp_cmp xcpt st 0x0000000000000000 0x8000000000000000 IEEE754_CEQ 0).2 = 1 ∧
    (ieee754dp_cmp xcpt st 0x8000000000000000 0x0000000000000000 IEEE754_CEQ 0).2 = 1 ∧
    (ieee754dp_cmp xcpt st 0x0000000000000000 0x8000000000000000 IEEE754_CUN 0).2 = 0 ∧
    cmp_key 0x8000000000000000 = 0 ∧
    toU64 (-toS64 0x8000000000000000) = 0x8000000000000000 := by
  refine ⟨?_, ?_, ?_, by decide, by decide⟩
  · rw [cmp_ordered_result xcpt st _ _ _ _ (by decide) (by decide)]
    decide
  · rw [cmp_ordered_result xcpt st _ _ _ _ (by decide) (by decide)]
    decide
  · rw [cmp_ordered_result xcpt st _ _ _ _ (by decide) (by decide)]
    decide

/-- C5: NaN unordered. For every NaN double `n` (quiet or signaling) and every double `y`,
`ieee754dp_cmp(n, y, IEEE754_CUN, 0)` is 1 and `ieee754dp_cmp(n, y, IEEE754_CEQ, 0)` is 0,
and the same holds with the NaN as the second operand. -/
theorem C5_nan_unordered (xcpt : ieee754xctx → ieee754xctx) (st : State) (n y : Nat)
    (_hn : n < 2 ^ 64) (_hy : y < 2 ^ 64) (nn : ieee754dp_isnan n ≠ 0) :
    (ieee754dp_cmp xcpt st n y IEEE754_CUN 0).2 = 1 ∧
    (ieee754dp_cmp xcpt st n y IEEE754_CEQ 0).2 = 0 ∧
    (ieee754dp_cmp xcpt st y n IEEE754_CUN 0).2 = 1 ∧
    (ieee754dp_cmp xcpt st y n IEEE754_CEQ 0).2 = 0 := by
  have c1 : IEEE754_CUN &&& IEEE754_CUN ≠ 0 := by decide
  have c2 : ¬ IEEE754_CEQ &&& IEEE754_CUN ≠ 0 := by decide
  have c3 : ¬ IEEE754_CEQ &&& (IEEE754_CLT ||| IEEE754_CGT) ≠ 0 := by decide
  have h1 : ieee754dp_isnan n ≠ 0 ∨ ieee754dp_isnan y ≠ 0 := Or.inl nn
  have h2 : ieee754dp_isnan y ≠ 0 ∨ ieee754dp_isnan n ≠ 0 := Or.inr nn
  unfold ieee754dp_cmp
  simp only [if_pos h1, if_pos h2, if_pos c1, if_neg c2, if_neg c3, and_self]

theorem C5_nan_unordered_witness :
    (0x7FF0000000000001 < 2 ^ 64 ∧ 0x3FF0000000000000 < 2 ^ 64 ∧
      ieee754dp_isnan 0x7FF0000000000001 ≠ 0) ∧
    ((ieee754dp_cmp id ⟨0, 16, [], []⟩ 0x7FF0000000000001 0x3FF0000000000000
        IEEE754_CUN 0).2 = 1 ∧
    (ieee754dp_cmp id ⟨0, 16, [], []⟩ 0x7FF0000000000001 0x3FF0000000000000
        IEEE754_CEQ 0).2 = 0 ∧
    (ieee754dp_cmp id ⟨0, 16, [], []⟩ 0x3FF0000000000000 0x7FF0000000000001
        IEEE754_CUN 0).2 = 1 ∧
    (ieee754dp_cmp id ⟨0, 16, [], []⟩ 0x3FF0000000000000 0x7FF0000000000001
        IEEE754_CEQ 0).2 = 0) :=
  ⟨⟨by decide, by decide, by decide⟩,
    C5_nan_unordered id ⟨0, 16, [], []⟩ 0x7FF0000000000001 0x3FF0000000000000
      (by decide) (by decide) (by decide)⟩

theorem di_xcpt_cx (xcpt : ieee754xctx → ieee754xctx) (st : State) (r : Int) (op : String)
    (ap : List Nat) : (ieee754di_xcpt xcpt st r op ap).1.cx = st.cx := by
  unfold ieee754di_xcpt
  dsimp only
  split_ifs <;> rfl

/-- The pending flags `ieee754dp_cmp` leaves behind. -/
theorem cmp_cx (xcpt : ieee754xctx → ieee754xctx) (st : State) (x y cmp : Nat) (sig : Int) :
    (ieee754dp_cmp xcpt st x y cmp sig).1.cx =
      if (ieee754dp_isnan x ≠ 0 ∨ ieee754dp_isnan y ≠ 0) ∧
          (sig ≠ 0 ∨ (EXPLODEDP x).1 = SNAN ∨ (EXPLODEDP y).1 = SNAN)
      then IEEE754_INVALID_OPERATION else 0 := by
  by_cases hn : ieee754dp_isnan x ≠ 0 ∨ ieee754dp_isnan y ≠ 0
  · unfold ieee754dp_cmp
    by_cases hs : sig ≠ 0 ∨ (EXPLODEDP x).1 = SNAN ∨ (EXPLODEDP y).1 = SNAN
    · have hr : (if (ieee754dp_isnan x ≠ 0 ∨ ieee754dp_isnan y ≠ 0) ∧
          (sig ≠ 0 ∨ (EXPLODEDP x).1 = SNAN ∨ (EXPLODEDP y).1 = SNAN)
          then IEEE754_INVALID_OPERATION else 0) = IEEE754_INVALID_OPERATION := if_pos ⟨hn, hs⟩
      rw [hr, if_pos hn]
      simp only [if_pos hs]
      split_ifs <;>
        simp [di_xcpt_cx, ieee754_setandtestcx, ieee754_setcx, ieee754_clearcx,
          IEEE754_INVALID_OPERATION]
    · have hs0 : ¬ sig ≠ 0 := fun h => hs (Or.inl h)
      have hr : (if (ieee754dp_isnan x ≠ 0 ∨ ieee754dp_isnan y ≠ 0) ∧
          (sig ≠ 0 ∨ (EXPLODEDP x).1 = SNAN ∨ (EXPLODEDP y).1 = SNAN)
          then IEEE754_INVALID_OPERATION else 0) = 0 := if_neg (fun h => hs h.2)
      rw [hr, if_pos hn]
      simp only [if_neg hs, if_neg hs0]
      split_ifs <;> simp [ieee754_clearcx]
  · have hr : (if (ieee754dp_isnan x ≠ 0 ∨ ieee754dp_isnan y ≠ 0) ∧
        (sig ≠ 0 ∨ (EXPLODEDP x).1 = SNAN ∨ (EXPLODEDP y).1 = SNAN)
        then IEEE754_INVALID_OPERATION else 0) = 0 := if_neg (fun h => hn h.1)
    have nx : ieee754dp_isnan x = 0 := by
      by_contra h
      exact hn (Or.inl h)
    have ny : ieee754dp_isnan y = 0 := by
      by_contra h
      exact hn (Or.inr h)
    rw [hr, cmp_ordered xcpt st x y cmp sig nx ny]
    rfl

/-- C6: after `ieee754dp_cmp(x, y, cmp, sig)` returns, whatever the exception context held
before the call, the invalid-operation flag is pending iff at least one operand is a NaN
and (`sig` is non-zero or at least one operand is a signaling NaN). -/
theorem C6_invalid_flag (xcpt : ieee754xctx → ieee754xctx) (st : State) (x y cmp : Nat)
    (sig : Int) :
    (ieee754dp_cmp xcpt st x y cmp sig).1.cx &&& IEEE754_INVALID_OPERATION ≠ 0 ↔
      (ieee754dp_isnan x ≠ 0 ∨ ieee754dp_isnan y ≠ 0) ∧
        (sig ≠ 0 ∨ (EXPLODEDP x).1 = SNAN ∨ (EXPLODEDP y).1 = SNAN) := by
  rw [cmp_cx]
  by_cases h : (ieee754dp_isnan x ≠ 0 ∨ ieee754dp_isnan y ≠ 0) ∧
      (sig ≠ 0 ∨ (EXPLODEDP x).1 = SNAN ∨ (EXPLODEDP y).1 = SNAN)
  · rw [if_pos h]
    exact ⟨fun _ => h, fun _ => by decide⟩
  · rw [if_neg h]
    exact ⟨fun h0 => absurd rfl h0, fun h1 => absurd h1 h⟩

/-- The NaN branch of `ieee754dp_cmp`, with the three tests that guard the trap entry
gathered into one condition. -/
theorem cmp_nan (xcpt : ieee754xctx → ieee754xctx) (st : State) (x y cmp : Nat) (sig : Int)
    (hn : ieee754dp_isnan x ≠ 0 ∨ ieee754dp_isnan y ≠ 0) :
    ieee754dp_cmp xcpt st x y cmp sig =
      if cmp &&& IEEE754_CUN ≠ 0 then
        (if sig ≠ 0 ∨ (EXPLODEDP x).1 = SNAN ∨ (EXPLODEDP y).1 = SNAN
          then ieee754_setcx (ieee754_clearcx st) IEEE754_INVALID_OPERATION
          else ieee754_clearcx st, 1)
      else if cmp &&& (IEEE754_CLT ||| IEEE754_CGT) ≠ 0 ∧ sig ≠ 0 ∧
          st.mx &&& IEEE754_INVALID_OPERATION ≠ 0 then
        ((ieee754di_xcpt xcpt
            (ieee754_setcx (ieee754_setcx (ieee754_clearcx st) IEEE754_INVALID_OPERATION)
              IEEE754_INVALID_OPERATION) 0 "fcmpf" [x]).1,
          toS32 (ieee754di_xcpt xcpt
            (ieee754_setcx (ieee754_setcx (ieee754_clearcx st) IEEE754_INVALID_OPERATION)
              IEEE754_INVALID_OPERATION) 0 "fcmpf" [x]).2)
      else if cmp &&& (IEEE754_CLT ||| IEEE754_CGT) ≠ 0 ∧ sig ≠ 0 then
        (ieee754_setcx (ieee754_setcx (ieee754_clearcx st) IEEE754_INVALID_OPERATION)
          IEEE754_INVALID_OPERATION, 0)
      else
        (if sig ≠ 0 ∨ (EXPLODEDP x).1 = SNAN ∨ (EXPLODEDP y).1 = SNAN
          then ieee754_setcx (ieee754_clearcx st) IEEE754_INVALID_OPERATION
          else ieee754_clearcx st, 0) := by
  unfold ieee754dp_cmp
  rw [if_pos hn]
  by_cases hc : cmp &&& IEEE754_CUN ≠ 0
  · simp only [if_pos hc]
  · simp only [if_neg hc]
    by_cases hl : cmp &&& (IEEE754_CLT ||| IEEE754_CGT) ≠ 0
    · by_cases hs : sig ≠ 0
      · have hs1 : sig ≠ 0 ∨ (EXPLODEDP x).1 = SNAN ∨ (EXPLODEDP y).1 = SNAN := Or.inl hs
        have hm : (ieee754_setandtestcx
            (ieee754_setcx (ieee754_clearcx st) IEEE754_INVALID_OPERATION)
            IEEE754_INVALID_OPERATION).2 = st.mx &&& IEEE754_INVALID_OPERATION := rfl
        have h1 : (ieee754_setandtestcx
            (ieee754_setcx (ieee754_clearcx st) IEEE754_INVALID_OPERATION)
            IEEE754_INVALID_OPERATION).1 =
            ieee754_setcx (ieee754_setcx (ieee754_clearcx st) IEEE754_INVALID_OPERATION)
              IEEE754_INVALID_OPERATION := rfl
        by_cases ht : st.mx &&& IEEE754_INVALID_OPERATION ≠ 0
        · simp only [if_pos hl, if_pos hs, if_pos hs1, hm, h1, if_pos ht, if_pos (And.intro hl (And.intro hs ht))]
        · simp only [if_pos hl, if_pos hs, if_pos hs1, hm, h1, if_neg ht,
            if_neg (fun h : cmp &&& (IEEE754_CLT ||| IEEE754_CGT) ≠ 0 ∧ sig ≠ 0 ∧
              st.mx &&& IEEE754_INVALID_OPERATION ≠ 0 => ht h.2.2),
            if_pos (And.intro hl hs)]
      · simp only [if_pos hl, if_neg hs,
          if_neg (fun h : cmp &&& (IEEE754_CLT ||| IEEE754_CGT) ≠ 0 ∧ sig ≠ 0 ∧
              st.mx &&& IEEE754_INVALID_OPERATION ≠ 0 => hs h.2.1),
          if_neg (fun h : cmp &&& (IEEE754_CLT ||| IEEE754_CGT) ≠ 0 ∧ sig ≠ 0 => hs h.2)]
    · simp only [if_neg hl,
          if_neg (fun h : cmp &&& (IEEE754_CLT ||| IEEE754_CGT) ≠ 0 ∧ sig ≠ 0 ∧
              st.mx &&& IEEE754_INVALID_OPERATION ≠ 0 => hl h.1),
          if_neg (fun h : cmp &&& (IEEE754_CLT ||| IEEE754_CGT) ≠ 0 ∧ sig ≠ 0 => hl h.1)]

theorem di_xcpt_entries (xcpt : ieee754xctx → ieee754xctx) (st : State) (r : Int)
    (op : String) (ap : List Nat) :
    (ieee754di_xcpt xcpt st r op ap).1.entries = st.entries ++ ["ieee754di_xcpt"] := by
  unfold ieee754di_xcpt
  dsimp only
  split_ifs <;> rfl

theorem di_xcpt_default (st : State) (r : Int) (op : String) (ap : List Nat)
    (hr : toS64 (toU64 r) = r) : (ieee754di_xcpt id st r op ap).2 = r := by
  unfold ieee754di_xcpt
  dsimp only
  split_ifs
  · rfl
  · exact hr

/-- C7, as stated, fails: with invalid-operation trap-enabled and a handler that stores
`2^32` in the 64-bit result slot, the signaling less-than comparison of a NaN with 0
returns 0 while `ieee754di_xcpt`, called in the same state with fallback 0, returns
`2^32`: the `s64` is cut down to the `int` that `ieee754dp_cmp` returns. -/
theorem C7_counterexample :
    ieee754dp_isnan 0x7FF7FFFFFFFFFFFF ≠ 0 ∧
    IEEE754_CLT &&& IEEE754_CUN = 0 ∧
    IEEE754_CLT &&& (IEEE754_CLT ||| IEEE754_CGT) ≠ 0 ∧
    (⟨0, IEEE754_INVALID_OPERATION, [], []⟩ : State).mx &&& IEEE754_INVALID_OPERATION ≠ 0 ∧
    (ieee754dp_cmp (fun ax => { ax with rv := 2 ^ 32 })
        ⟨0, IEEE754_INVALID_OPERATION, [], []⟩ 0x7FF7FFFFFFFFFFFF 0 IEEE754_CLT 1).2 = 0 ∧
    (ieee754di_xcpt (fun ax => { ax with rv := 2 ^ 32 })
        (ieee754_setcx (ieee754_setcx
          (ieee754_clearcx ⟨0, IEEE754_INVALID_OPERATION, [], []⟩)
          IEEE754_INVALID_OPERATION) IEEE754_INVALID_OPERATION)
        0 "fcmpf" [0x7FF7FFFFFFFFFFFF]).2 = 2 ^ 32 := by
  decide

/-- C7 (amended): when `x` or `y` is a NaN, `ieee754dp_cmp(x, y, cmp, sig)` returns 1 if the
UNORDERED bit is set in `cmp`, without invoking a trap entry; otherwise it returns 0 and
invokes no trap entry, except when `cmp` has LESS_THAN or GREATER_THAN set, `sig` is
non-zero and invalid-operation is trap-enabled: then `ieee754di_xcpt` is invoked once, with
fallback 0 and operation "fcmpf", and the result is the `s64` it returns converted to
`int`. Under the default handler, which leaves the result slot unchanged, the result is
1 if the UNORDERED bit is set and 0 otherwise. -/
theorem C7_nan_result (xcpt : ieee754xctx → ieee754xctx) (st : State) (x y cmp : Nat)
    (sig : Int) (hn : ieee754dp_isnan x ≠ 0 ∨ ieee754dp_isnan y ≠ 0) :
    (ieee754dp_cmp xcpt st x y cmp sig).2 =
      (if cmp &&& IEEE754_CUN ≠ 0 then 1
       else if cmp &&& (IEEE754_CLT ||| IEEE754_CGT) ≠ 0 ∧ sig ≠ 0 ∧
          st.mx &&& IEEE754_INVALID_OPERATION ≠ 0 then
        toS32 (ieee754di_xcpt xcpt
          (ieee754_setcx (ieee754_setcx (ieee754_clearcx st) IEEE754_INVALID_OPERATION)
            IEEE754_INVALID_OPERATION) 0 "fcmpf" [x]).2
       else 0) ∧
    (ieee754dp_cmp xcpt st x y cmp sig).1.entries =
      (if cmp &&& IEEE754_CUN ≠ 0 then st.entries
       else if cmp &&& (IEEE754_CLT ||| IEEE754_CGT) ≠ 0 ∧ sig ≠ 0 ∧
          st.mx &&& IEEE754_INVALID_OPERATION ≠ 0 then st.entries ++ ["ieee754di_xcpt"]
       else st.entries) ∧
    (ieee754dp_cmp id st x y cmp sig).2 = (if cmp &&& IEEE754_CUN ≠ 0 then 1 else 0) := by
  rw [cmp_nan xcpt st x y cmp sig hn, cmp_nan id st x y cmp sig hn]
  refine ⟨?_, ?_, ?_⟩
  · split_ifs <;> rfl
  · split_ifs <;> first | rfl | (rw [di_xcpt_entries]; rfl)
  · split_ifs <;> first | rfl | (rw [di_xcpt_default _ _ _ _ (by decide)]; rfl)

theorem C7_nan_result_witness :
    (ieee754dp_isnan 0x7FF0000000000001 ≠ 0 ∨ ieee754dp_isnan 0xFFF8000000000000 ≠ 0) ∧
    ((ieee754dp_cmp (fun ax => { ax with rv := 1 }) ⟨0, 16, [], []⟩
        0x7FF0000000000001 0xFFF8000000000000 IEEE754_CGT 1).2 =
      (if IEEE754_CGT &&& IEEE754_CUN ≠ 0 then 1
       else if IEEE754_CGT &&& (IEEE754_CLT ||| IEEE754_CGT) ≠ 0 ∧ (1 : Int) ≠ 0 ∧
          (⟨0, 16, [], []⟩ : State).mx &&& IEEE754_INVALID_OPERATION ≠ 0 then
        toS32 (ieee754di_xcpt (fun ax => { ax with rv := 1 })
          (ieee754_setcx (ieee754_setcx (ieee754_clearcx ⟨0, 16, [], []⟩)
            IEEE754_INVALID_OPERATION) IEEE754_INVALID_OPERATION)
          0 "fcmpf" [0x7FF0000000000001]).2
       else 0) ∧
    (ieee754dp_cmp (fun ax => { ax with rv := 1 }) ⟨0, 16, [], []⟩
        0x7FF0000000000001 0xFFF8000000000000 IEEE754_CGT 1).1.entries =
      (if IEEE754_CGT &&& IEEE754_CUN ≠ 0 then (⟨0, 16, [], []⟩ : State).entries
       else if IEEE754_CGT &&& (IEEE754_CLT ||| IEEE754_CGT) ≠ 0 ∧ (1 : Int) ≠ 0 ∧
          (⟨0, 16, [], []⟩ : State).mx &&& IEEE754_INVALID_OPERATION ≠ 0 then
        (⟨0, 16, [], []⟩ : State).entries ++ ["ieee754di_xcpt"]
       else (⟨0, 16, [], []⟩ : State).entries) ∧
    (ieee754dp_cmp id ⟨0, 16, [], []⟩
        0x7FF0000000000001 0xFFF8000000000000 IEEE754_CGT 1).2 =
      (if IEEE754_CGT &&& IEEE754_CUN ≠ 0 then 1 else 0)) :=
  ⟨by decide,
    C7_nan_result (fun ax => { ax with rv := 1 }) ⟨0, 16, [], []⟩
      0x7FF0000000000001 0xFFF8000000000000 IEEE754_CGT 1 (by decide)⟩

/-- C8: the double-precision catalog is ordered by `ieee754dp_cmp` as its entry names say:
-infinity < -max < -10.0 < -1.0 < -min normal < -min denormal < -0 = +0 < +min denormal
< +min normal < +1.0 < +10.0 < entry 15 < entry 16 < +max < +infinity (`<` is mask CLT
returning 1, `=` is mask CEQ returning 1); and comparing +10.0 with +1.0 returns 0 for
mask CLT|CEQ and 1 for mask CGT. -/
theorem C8_catalog_ordered (xcpt : ieee754xctx → ieee754xctx) (st : State) (sig : Int) :
    (ieee754dp_cmp xcpt st (dp_spcval IEEE754_SPCVAL_NINFINITY) (dp_spcval IEEE754_SPCVAL_NMAX)
        IEEE754_CLT sig).2 = 1 ∧
    (ieee754dp_cmp xcpt st (dp_spcval IEEE754_SPCVAL_NMAX) (dp_spcval IEEE754_SPCVAL_NTEN)
        IEEE754_CLT sig).2 = 1 ∧
    (ieee754dp_cmp xcpt st (dp_spcval IEEE754_SPCVAL_NTEN) (dp_spcval IEEE754_SPCVAL_NONE)
        IEEE754_CLT sig).2 = 1 ∧
    (ieee754dp_cmp xcpt st (dp_spcval IEEE754_SPCVAL_NONE) (dp_spcval IEEE754_SPCVAL_NMIN)
        IEEE754_CLT sig).2 = 1 ∧
    (ieee754dp_cmp xcpt st (dp_spcval IEEE754_SPCVAL_NMIN) (dp_spcval IEEE754_SPCVAL_NMIND)
        IEEE754_CLT sig).2 = 1 ∧
    (ieee754dp_cmp xcpt st (dp_spcval IEEE754_SPCVAL_NMIND) (dp_spcval IEEE754_SPCVAL_NZERO)
        IEEE754_CLT sig).2 = 1 ∧
    (ieee754dp_cmp xcpt st (dp_spcval IEEE754_SPCVAL_NZERO) (dp_spcval IEEE754_SPCVAL_PZERO)
        IEEE754_CEQ sig).2 = 1 ∧
    (ieee754dp_cmp xcpt st (dp_spcval IEEE754_SPCVAL_PZERO) (dp_spcval IEEE754_SPCVAL_PMIND)
        IEEE754_CLT sig).2 = 1 ∧
    (ieee754dp_cmp xcpt st (dp_spcval IEEE754_SPCVAL_PMIND) (dp_spcval IEEE754_SPCVAL_PMIN)
        IEEE754_CLT sig).2 = 1 ∧
    (ieee754dp_cmp xcpt st (dp_spcval IEEE754_SPCVAL_PMIN) (dp_spcval IEEE754_SPCVAL_PONE)
        IEEE754_CLT sig).2 = 1 ∧
    (ieee754dp_cmp xcpt st (dp_spcval IEEE754_SPCVAL_PONE) (dp_spcval IEEE754_SPCVAL_PTEN)
        IEEE754_CLT sig).2 = 1 ∧
    (ieee754dp_cmp xcpt st (dp_spcval IEEE754_SPCVAL_PTEN) (dp_spcval IEEE754_SPCVAL_P1E31)
        IEEE754_CLT sig).2 = 1 ∧
    (ieee754dp_cmp xcpt st (dp_spcval IEEE754_SPCVAL_P1E31) (dp_spcval IEEE754_SPCVAL_P1E63)
        IEEE754_CLT sig).2 = 1 ∧
    (ieee754dp_cmp xcpt st (dp_spcval IEEE754_SPCVAL_P1E63) (dp_spcval IEEE754_SPCVAL_PMAX)
        IEEE754_CLT sig).2 = 1 ∧
    (ieee754dp_cmp xcpt st (dp_spcval IEEE754_SPCVAL_PMAX) (dp_spcval IEEE754_SPCVAL_PINFINITY)
        IEEE754_CLT sig).2 = 1 ∧
    (ieee754dp_cmp xcpt st (dp_spcval IEEE754_SPCVAL_PTEN) (dp_spcval IEEE754_SPCVAL_PONE)
        (IEEE754_CLT ||| IEEE754_CEQ) sig).2 = 0 ∧
    (ieee754dp_cmp xcpt st (dp_spcval IEEE754_SPCVAL_PTEN) (dp_spcval IEEE754_SPCVAL_PONE)
        IEEE754_CGT sig).2 = 1 := by
  refine ⟨?_, ?_, ?_, ?_, ?_, ?_, ?_, ?_, ?_, ?_, ?_, ?_, ?_, ?_, ?_, ?_, ?_⟩ <;>
    (rw [cmp_ordered_result xcpt st _ _ _ _ (by decide) (by decide)]; decide)

/-- C10: for each sign, `ieee754dp_fsp` maps the single infinity to the double infinity of
the same sign (biased exponent 2047, mantissa 0) and the single zero to the double zero of
the same sign; the context it leaves has no flag pending and records no trap entry and
no handler call beyond those already recorded. -/
theorem C10_fsp_inf_zero (xcpt : ieee754xctx → ieee754xctx) (st : State) :
    ieee754dp_fsp xcpt st 0x7F800000 = some (ieee754_clearcx st, builddp 0 2047 0) ∧
    ieee754dp_fsp xcpt st 0xFF800000 = some (ieee754_clearcx st, builddp 1 2047 0) ∧
    ieee754dp_fsp xcpt st 0x00000000 = some (ieee754_clearcx st, builddp 0 0 0) ∧
    ieee754dp_fsp xcpt st 0x80000000 = some (ieee754_clearcx st, builddp 1 0 0) ∧
    (EXPLODESP 0x7F800000).1 = INF ∧ (EXPLODESP 0xFF800000).1 = INF ∧
    (EXPLODESP 0x00000000).1 = ZERO ∧ (EXPLODESP 0x80000000).1 = ZERO ∧
    (EXPLODEDP (builddp 0 2047 0)).1 = INF ∧ (EXPLODEDP (builddp 1 2047 0)).1 = INF ∧
    (EXPLODEDP (builddp 0 0 0)).1 = ZERO ∧ (EXPLODEDP (builddp 1 0 0)).1 = ZERO ∧
    (ieee754_clearcx st).cx = 0 ∧ (ieee754_clearcx st).entries = st.entries ∧
    (ieee754_clearcx st).handled = st.handled := by
  refine ⟨rfl, rfl, rfl, rfl, by decide, by decide, by decide, by decide, by decide,
    by decide, by decide, by decide, rfl, rfl, rfl⟩

theorem SP_HIDDEN_BIT_eq : SP_HIDDEN_BIT = 2 ^ 23 := by decide

theorem or_hidden_of_lt (m : Nat) (h : m < 2 ^ 23) : m ||| 2 ^ 23 = 2 ^ 23 + m := by
  apply Nat.eq_of_testBit_eq
  intro i
  rw [Nat.testBit_or]
  rcases Nat.lt_trichotomy i 23 with hi | hi | hi
  · rw [Nat.testBit_two_pow_of_ne (by omega), Nat.testBit_two_pow_add_gt hi]
    simp
  · subst hi
    rw [Nat.testBit_two_pow_self, Nat.testBit_two_pow_add_eq, Nat.testBit_lt_two_pow h]
    simp
  · have h1 : m < 2 ^ i := lt_trans h (Nat.pow_lt_pow_right (by norm_num) hi)
    have h2 : 2 ^ 23 + m < 2 ^ i := by
      have : (2:Nat) ^ 24 ≤ 2 ^ i := Nat.pow_le_pow_right (by norm_num) hi
      omega
    rw [Nat.testBit_lt_two_pow h1, Nat.testBit_lt_two_pow h2, Nat.testBit_two_pow_of_ne (by omega)]
    simp

theorem and_drop_hidden (r : Nat) (h : r < 2 ^ 23) :
    (2 ^ 23 + r) &&& ((2 ^ 32 - 1) ^^^ 2 ^ 23) = r := by
  apply Nat.eq_of_testBit_eq
  intro i
  rw [Nat.testBit_and, Nat.testBit_xor, Nat.testBit_two_pow_sub_one]
  rcases Nat.lt_trichotomy i 23 with hi | hi | hi
  · rw [Nat.testBit_two_pow_of_ne (by omega), Nat.testBit_two_pow_add_gt hi]
    have : i < 32 := by omega
    simp [this]
  · subst hi
    rw [Nat.testBit_two_pow_self, Nat.testBit_lt_two_pow h]
    simp
  · have h1 : r < 2 ^ i := lt_trans h (Nat.pow_lt_pow_right (by norm_num) hi)
    have h2 : 2 ^ 23 + r < 2 ^ i := by
      have : (2:Nat) ^ 24 ≤ 2 ^ i := Nat.pow_le_pow_right (by norm_num) hi
      omega
    rw [Nat.testBit_lt_two_pow h1, Nat.testBit_lt_two_pow h2]
    simp

theorem sp_fields (x : Nat) :
    SPMANT x < 2 ^ 23 ∧ SPBEXP x < 2 ^ 8 ∧ SPSIGN x < 2 := by
  unfold SPMANT SPBEXP SPSIGN
  refine ⟨by omega, by omega, by omega⟩

/-- The class, sign, exponent and mantissa `EXPLODESP` yields, read on the fields. -/
theorem EXPLODESP_eq (x : Nat) :
    EXPLODESP x =
      if SPBEXP x = 255 then
        (if SPMANT x = 0 then (INF, (SPSIGN x : Int), (SPBEXP x : Int), SPMANT x)
         else if SPMANT x &&& SP_MBIT (SP_FBITS - 1) ≠ 0 then
           (QNAN, (SPSIGN x : Int), (SPBEXP x : Int), SPMANT x)
         else (SNAN, (SPSIGN x : Int), (SPBEXP x : Int), SPMANT x))
      else if SPBEXP x = 0 then
        (if SPMANT x ≠ 0 then (DNORM, (SPSIGN x : Int), -126, SPMANT x)
         else (ZERO, (SPSIGN x : Int), (SPBEXP x : Int), SPMANT x))
      else (NORM, (SPSIGN x : Int), (SPBEXP x : Int) - 127, SPMANT x ||| SP_HIDDEN_BIT) := by
  unfold EXPLODESP
  have e1 : ((SPBEXP x : Int) = SP_EMAX + 1 + SP_EBIAS) ↔ SPBEXP x = 255 := by
    simp only [SP_EMAX, SP_EBIAS]
    omega
  have e2 : ((SPBEXP x : Int) = SP_EMIN - 1 + SP_EBIAS) ↔ SPBEXP x = 0 := by
    simp only [SP_EMIN, SP_EBIAS]
    omega
  simp only [e1, e2]
  simp only [SP_EMIN, SP_EBIAS]

theorem builddp_fields (s e m : Nat) (hs : s < 2) (he : e < 2 ^ 11) (hm : m < 2 ^ 52) :
    builddp (s : Int) (e : Int) m = s * 2 ^ 63 + e * 2 ^ 52 + m ∧
    builddp (s : Int) (e : Int) m < 2 ^ 64 ∧
    DPSIGN (builddp (s : Int) (e : Int) m) = s ∧
    DPBEXP (builddp (s : Int) (e : Int) m) = e ∧
    DPMANT (builddp (s : Int) (e : Int) m) = m := by
  have hb : builddp (s : Int) (e : Int) m = s * 2 ^ 63 + e * 2 ^ 52 + m := by
    unfold builddp
    have h1 : ((s : Int) % 2).toNat = s := by omega
    have h2 : ((e : Int) % 2 ^ 11).toNat = e := by omega
    rw [h1, h2, Nat.mod_eq_of_lt hm]
  rw [hb]
  unfold DPSIGN DPBEXP DPMANT
  refine ⟨rfl, by omega, by omega, by omega, by omega⟩

/-- The renormalisation loop ends: started on a non-zero `xm` below `2^24` that `n` shifts
bring to `2^23` or above, it stops after `k ≤ n` shifts (`n + 1` evaluations of the loop
condition at most) with the hidden bit set, `xm` scaled by `2^k` and `xe` lowered by `k`. -/
theorem SPDNORMx_spec (n : Nat) : ∀ (xm : Nat) (xe : Int), 0 < xm → xm < 2 ^ 24 →
    2 ^ 23 ≤ xm * 2 ^ n →
    ∃ k, k ≤ n ∧ SPDNORMx (n + 1) xm xe = some (xm * 2 ^ k, xe - k) ∧
      2 ^ 23 ≤ xm * 2 ^ k ∧ xm * 2 ^ k < 2 ^ 24 := by
  induction n with
  | zero =>
    intro xm xe _ hlt hfuel
    have hbig : 2 ^ 23 ≤ xm := by simpa using hfuel
    have hs : ¬ xm >>> SP_FBITS = 0 := by
      rw [Nat.shiftRight_eq_div_pow]
      have : 1 ≤ xm / 2 ^ 23 := (Nat.le_div_iff_mul_le (by norm_num)).mpr (by omega)
      show ¬ xm / 2 ^ 23 = 0
      omega
    refine ⟨0, le_rfl, ?_, by simpa using hbig, by simpa using hlt⟩
    unfold SPDNORMx
    rw [if_neg hs]
    simp
  | succ n ih =>
    intro xm xe hpos hlt hfuel
    unfold SPDNORMx
    by_cases hs : xm >>> SP_FBITS = 0
    · have hsmall : xm < 2 ^ 23 := by
        rw [Nat.shiftRight_eq_div_pow] at hs
        have : xm / 2 ^ 23 = 0 := hs
        omega
      rw [if_pos hs, Nat.shiftLeft_eq]
      have hm : xm * 2 ^ 1 % 2 ^ 32 = xm * 2 := by omega
      rw [hm]
      have hf : 2 ^ 23 ≤ xm * 2 * 2 ^ n := by
        have : xm * 2 ^ (n + 1) = xm * 2 * 2 ^ n := by ring
        omega
      obtain ⟨k, hk, hrun, hlo, hhi⟩ := ih (xm * 2) (xe - 1) (by omega) (by omega) hf
      have e1 : xm * 2 * 2 ^ k = xm * 2 ^ (k + 1) := by ring
      refine ⟨k + 1, by omega, ?_, by omega, by omega⟩
      rw [hrun]
      have e2 : xe - 1 - (k : Int) = xe - ((k + 1 : Nat) : Int) := by push_cast; ring
      rw [e1, e2]
    · have hbig : 2 ^ 23 ≤ xm := by
        rw [Nat.shiftRight_eq_div_pow] at hs
        have : xm / 2 ^ 23 ≠ 0 := hs
        omega
      rw [if_neg hs]
      refine ⟨0, by omega, ?_, by simpa using hbig, by simpa using hlt⟩
      simp

/-- What `ieee754dp_fsp` returns on a Normal single. -/
theorem fsp_norm (xcpt : ieee754xctx → ieee754xctx) (st : State) (x : Nat)
    (he0 : SPBEXP x ≠ 0) (he255 : SPBEXP x ≠ 255) :
    ieee754dp_fsp xcpt st x = some (ieee754_clearcx st,
      builddp (SPSIGN x : Int) ((SPBEXP x + 896 : Nat) : Int) (SPMANT x * 2 ^ 29)) := by
  obtain ⟨hm, _, _⟩ := sp_fields x
  unfold ieee754dp_fsp FLUSHXSP
  rw [EXPLODESP_eq, if_neg he255, if_neg he0]
  dsimp only
  unfold fsp_build
  rw [SP_HIDDEN_BIT_eq, or_hidden_of_lt _ hm, and_drop_hidden _ hm]
  dsimp only
  rw [Nat.shiftLeft_eq]
  have e1 : DP_FBITS - SP_FBITS = 29 := rfl
  have e2 : (SPBEXP x : Int) - 127 + DP_EBIAS = ((SPBEXP x + 896 : Nat) : Int) := by
    simp only [DP_EBIAS]
    push_cast
    ring
  have e3 : SPMANT x * 2 ^ 29 % 2 ^ 64 = SPMANT x * 2 ^ 29 := by omega
  rw [e1, e2, e3]

/-- What `ieee754dp_fsp` returns on a Denormal single: the loop ends after `k ≤ 23`
shifts. -/
theorem fsp_dnorm (xcpt : ieee754xctx → ieee754xctx) (st : State) (x : Nat)
    (he0 : SPBEXP x = 0) (hm0 : SPMANT x ≠ 0) :
    ∃ k, k ≤ 23 ∧ 2 ^ 23 ≤ SPMANT x * 2 ^ k ∧ SPMANT x * 2 ^ k < 2 ^ 24 ∧
      ieee754dp_fsp xcpt st x = some (ieee754_clearcx st,
        builddp (SPSIGN x : Int) ((897 - k : Nat) : Int)
          ((SPMANT x * 2 ^ k - 2 ^ 23) * 2 ^ 29)) := by
  obtain ⟨hm, _, _⟩ := sp_fields x
  have hfuel : 2 ^ 23 ≤ SPMANT x * 2 ^ 32 := by omega
  obtain ⟨k, _, hrun, hlo, hhi⟩ :=
    SPDNORMx_spec 32 (SPMANT x) (-126) (by omega) (by omega) hfuel
  have hk : k ≤ 23 := by
    by_contra hc
    have h24 : (2 : Nat) ^ 24 ≤ 2 ^ k := Nat.pow_le_pow_right (by norm_num) (by omega)
    have : 2 ^ k ≤ SPMANT x * 2 ^ k := Nat.le_mul_of_pos_left _ (by omega)
    omega
  refine ⟨k, hk, hlo, hhi, ?_⟩
  unfold ieee754dp_fsp FLUSHXSP
  rw [EXPLODESP_eq, if_neg (by omega), if_pos he0, if_pos hm0]
  dsimp only
  rw [hrun]
  dsimp only
  unfold fsp_build
  obtain ⟨r, hr⟩ : ∃ r, SPMANT x * 2 ^ k = 2 ^ 23 + r := ⟨SPMANT x * 2 ^ k - 2 ^ 23, by omega⟩
  have hr23 : r < 2 ^ 23 := by omega
  rw [SP_HIDDEN_BIT_eq, hr, and_drop_hidden _ hr23]
  dsimp only
  rw [Nat.shiftLeft_eq]
  have e1 : DP_FBITS - SP_FBITS = 29 := rfl
  have e2 : (-126 : Int) - (k : Int) + DP_EBIAS = ((897 - k : Nat) : Int) := by
    simp only [DP_EBIAS]
    omega
  have e3 : r * 2 ^ 29 % 2 ^ 64 = r * 2 ^ 29 := by omega
  have e4 : 2 ^ 23 + r - 2 ^ 23 = r := by omega
  rw [e1, e2, e3, e4]

theorem dp_value_builddp (s e m : Nat) (hs : s < 2) (he : e < 2 ^ 11) (hm : m < 2 ^ 52)
    (h47 : e ≠ 2047) :
    dp_value (builddp (s : Int) (e : Int) m) = ((dp_finite_value s e m : ℚ) : WithTop ℚ) := by
  obtain ⟨_, _, f1, f2, f3⟩ := builddp_fields s e m hs he hm
  unfold dp_value
  rw [f1, f2, f3, if_neg h47]

theorem widen_norm_value (s e m : Nat) :
    dp_finite_value s (e + 896) (m * 2 ^ 29) =
      (-1 : ℚ) ^ s * (2 : ℚ) ^ ((e : ℤ) - 127) * (1 + (m : ℚ) / 2 ^ 23) := by
  unfold dp_finite_value
  rw [if_neg (by omega)]
  have e1 : (((e + 896 : Nat) : ℤ) - 1023) = (e : ℤ) - 127 := by
    push_cast
    ring
  have e2 : ((m * 2 ^ 29 : Nat) : ℚ) / 2 ^ 52 = (m : ℚ) / 2 ^ 23 := by
    push_cast
    field_simp
    ring
  rw [e1, e2]

theorem widen_dnorm_value (s m k : Nat) (hk : k ≤ 23) (hlo : 2 ^ 23 ≤ m * 2 ^ k) :
    dp_finite_value s (897 - k) ((m * 2 ^ k - 2 ^ 23) * 2 ^ 29) =
      (-1 : ℚ) ^ s * (2 : ℚ) ^ (-126 : ℤ) * ((m : ℚ) / 2 ^ 23) := by
  unfold dp_finite_value
  rw [if_neg (by omega)]
  have e1 : (2 : ℚ) ^ (((897 - k : Nat) : ℤ) - 1023) = (2 : ℚ) ^ (-126 : ℤ) / 2 ^ k := by
    have : (((897 - k : Nat) : ℤ) - 1023) = (-126 : ℤ) - (k : ℤ) := by omega
    rw [this, zpow_sub₀ (by norm_num), zpow_natCast]
  have e2 : (((m * 2 ^ k - 2 ^ 23) * 2 ^ 29 : Nat) : ℚ) / 2 ^ 52 =
      (m : ℚ) * 2 ^ k / 2 ^ 23 - 1 := by
    rw [Nat.cast_mul, Nat.cast_sub hlo]
    push_cast
    field_simp
    ring
  rw [e1, e2]
  field_simp
  ring

/-- C9: widen exactness. For every single pattern `x` classified Normal or Denormal,
`ieee754dp_fsp(x)` returns a double whose denoted value is exactly the rational `x`
denotes as a single; and the single 1.0 (sign 0, biased exponent 127, mantissa 0) widens
to the double 1.0 (sign 0, biased exponent 1023, mantissa 0). -/
theorem C9_widen_exact (xcpt : ieee754xctx → ieee754xctx) (st : State) (x : Nat)
    (_hx : x < 2 ^ 32) (hc : (EXPLODESP x).1 = NORM ∨ (EXPLODESP x).1 = DNORM) :
    (∃ d, ieee754dp_fsp xcpt st x = some (ieee754_clearcx st, d) ∧ d < 2 ^ 64 ∧
      dp_value d = (((sp_value x : ℚ) : WithTop ℚ) : WithBot (WithTop ℚ))) ∧
    (SPSIGN 0x3F800000 = 0 ∧ SPBEXP 0x3F800000 = 127 ∧ SPMANT 0x3F800000 = 0 ∧
      ieee754dp_fsp xcpt st 0x3F800000 = some (ieee754_clearcx st, builddp 0 1023 0)) := by
  refine ⟨?_, by decide, by decide, by decide,
    (fsp_norm xcpt st 0x3F800000 (by decide) (by decide)).trans
      (congrArg (fun d => some (ieee754_clearcx st, d))
        (show builddp ((SPSIGN 0x3F800000 : Nat) : Int) ((SPBEXP 0x3F800000 + 896 : Nat) : Int)
          (SPMANT 0x3F800000 * 2 ^ 29) = builddp 0 1023 0 by decide))⟩
  obtain ⟨hm, he, hs⟩ := sp_fields x
  have hcases : (SPBEXP x ≠ 0 ∧ SPBEXP x ≠ 255) ∨ (SPBEXP x = 0 ∧ SPMANT x ≠ 0) := by
    rw [EXPLODESP_eq] at hc
    split_ifs at hc <;> simp_all
  rcases hcases with ⟨he0, he255⟩ | ⟨he0, hm0⟩
  · refine ⟨_, fsp_norm xcpt st x he0 he255, ?_, ?_⟩
    · exact (builddp_fields _ _ _ hs (by omega) (by omega)).2.1
    · rw [dp_value_builddp _ _ _ hs (by omega) (by omega) (by omega),
        widen_norm_value]
      unfold sp_value
      rw [if_neg he0]
  · obtain ⟨k, hk, hlo, hhi, hrun⟩ := fsp_dnorm xcpt st x he0 hm0
    have hmb : (SPMANT x * 2 ^ k - 2 ^ 23) * 2 ^ 29 < 2 ^ 52 := by omega
    refine ⟨_, hrun, ?_, ?_⟩
    · exact (builddp_fields _ _ _ hs (by omega) hmb).2.1
    · rw [dp_value_builddp _ _ _ hs (by omega) hmb (by omega),
        widen_dnorm_value _ _ _ hk hlo]
      unfold sp_value
      rw [if_pos he0]

theorem C9_widen_exact_witness :
    (0x80000003 < 2 ^ 32 ∧
      ((EXPLODESP 0x80000003).1 = NORM ∨ (EXPLODESP 0x80000003).1 = DNORM)) ∧
    ((∃ d, ieee754dp_fsp id ⟨5, 0, [], []⟩ 0x80000003 = some (ieee754_clearcx ⟨5, 0, [], []⟩, d) ∧
        d < 2 ^ 64 ∧
        dp_value d = (((sp_value 0x80000003 : ℚ) : WithTop ℚ) : WithBot (WithTop ℚ))) ∧
      (SPSIGN 0x3F800000 = 0 ∧ SPBEXP 0x3F800000 = 127 ∧ SPMANT 0x3F800000 = 0 ∧
        ieee754dp_fsp id ⟨5, 0, [], []⟩ 0x3F800000 =
          some (ieee754_clearcx ⟨5, 0, [], []⟩, builddp 0 1023 0))) :=
  ⟨⟨by decide, Or.inr (by decide)⟩,
    C9_widen_exact id ⟨5, 0, [], []⟩ 0x80000003 (by decide) (Or.inr (by decide))⟩

/-- The class `EXPLODESP` assigns, read on the fields. -/
theorem EXPLODESP_class (x : Nat) :
    (EXPLODESP x).1 =
      if SPBEXP x = 255 then
        (if SPMANT x = 0 then INF
         else if SPMANT x &&& SP_MBIT (SP_FBITS - 1) ≠ 0 then QNAN else SNAN)
      else if SPBEXP x = 0 then (if SPMANT x ≠ 0 then DNORM else ZERO)
      else NORM := by
  rw [EXPLODESP_eq]
  split_ifs <;> rfl

theorem nanxcpt_cx (xcpt : ieee754xctx → ieee754xctx) (st : State) (r : Nat) (op : String)
    (ap : List Nat) : (ieee754dp_nanxcpt xcpt st r op ap).1.cx = st.cx := by
  unfold ieee754dp_nanxcpt
  dsimp only
  split_ifs <;> rfl

theorem nanxcpt_untripped (xcpt : ieee754xctx → ieee754xctx) (st : State) (r : Nat)
    (op : String) (ap : List Nat) (h : st.cx &&& st.mx = 0) :
    ieee754dp_nanxcpt xcpt st r op ap =
      ({ st with entries := st.entries ++ ["ieee754dp_nanxcpt"] }, r) := by
  unfold ieee754dp_nanxcpt
  have h2 : ieee754_tstx { st with entries := st.entries ++ ["ieee754dp_nanxcpt"] } = 0 := h
  dsimp only
  rw [if_pos h2]

theorem nanxcpt_default (st : State) (r : Nat) (op : String) (ap : List Nat)
    (hr : r < 2 ^ 64) : (ieee754dp_nanxcpt id st r op ap).2 = r := by
  unfold ieee754dp_nanxcpt
  dsimp only
  split_ifs
  · rfl
  · show toU64 (r : Int) = r
    unfold toU64
    omega

/-- The SignalingNaN case of `ieee754dp_fsp`. -/
theorem fsp_snan (xcpt : ieee754xctx → ieee754xctx) (st : State) (x : Nat)
    (hc : (EXPLODESP x).1 = SNAN) :
    ieee754dp_fsp xcpt st x = some (ieee754dp_nanxcpt xcpt
      (ieee754_setcx (ieee754_clearcx st) IEEE754_INVALID_OPERATION) ieee754dp_indef "fsp" []) := by
  unfold ieee754dp_fsp FLUSHXSP
  simp only [hc]

/-- The QuietNaN case of `ieee754dp_fsp`. -/
theorem fsp_qnan (xcpt : ieee754xctx → ieee754xctx) (st : State) (x : Nat)
    (hc : (EXPLODESP x).1 = QNAN) :
    ieee754dp_fsp xcpt st x = some (ieee754dp_nanxcpt xcpt (ieee754_clearcx st)
      (builddp (EXPLODESP x).2.1 (DP_EMAX + 1 + DP_EBIAS)
        (((EXPLODESP x).2.2.2 <<< (DP_FBITS - SP_FBITS)) % 2 ^ 64)) "fsp" [x]) := by
  unfold ieee754dp_fsp FLUSHXSP
  simp only [hc]

/-- The Infinity and Zero cases of `ieee754dp_fsp`. -/
theorem fsp_inf_zero (xcpt : ieee754xctx → ieee754xctx) (st : State) (x : Nat)
    (hc : (EXPLODESP x).1 = INF ∨ (EXPLODESP x).1 = ZERO) :
    ∃ d, ieee754dp_fsp xcpt st x = some (ieee754_clearcx st, d) := by
  unfold ieee754dp_fsp FLUSHXSP
  rcases hc with hc | hc
  · refine ⟨ieee754dp_inf (EXPLODESP x).2.1, ?_⟩
    simp only [hc]
  · refine ⟨ieee754dp_zero (EXPLODESP x).2.1, ?_⟩
    simp only [hc]

/-- C11: for every single-precision signaling NaN `x`, `ieee754dp_fsp(x)` returns with the
invalid-operation flag pending, and under the default handler its result is exactly the
catalog's double-precision indefinite NaN, whatever the sign and payload of `x`. -/
theorem C11_fsp_snan_indef (xcpt : ieee754xctx → ieee754xctx) (st : State) (x : Nat)
    (_hx : x < 2 ^ 32) (hc : (EXPLODESP x).1 = SNAN) :
    (∃ r, ieee754dp_fsp xcpt st x = some r ∧ r.1.cx &&& IEEE754_INVALID_OPERATION ≠ 0) ∧
    (∃ r, ieee754dp_fsp id st x = some r ∧ r.2 = dp_spcval IEEE754_SPCVAL_INDEF ∧
      r.1.cx &&& IEEE754_INVALID_OPERATION ≠ 0) ∧
    ieee754dp_isnan (dp_spcval IEEE754_SPCVAL_INDEF) ≠ 0 := by
  have hcx : ∀ h : ieee754xctx → ieee754xctx, (ieee754dp_nanxcpt h
      (ieee754_setcx (ieee754_clearcx st) IEEE754_INVALID_OPERATION) ieee754dp_indef "fsp"
      []).1.cx &&& IEEE754_INVALID_OPERATION ≠ 0 := by
    intro h
    rw [nanxcpt_cx]
    show (0 ||| 16) &&& 16 ≠ 0
    decide
  refine ⟨⟨_, fsp_snan xcpt st x hc, hcx xcpt⟩, ⟨_, fsp_snan id st x hc, ?_, hcx id⟩, by decide⟩
  exact nanxcpt_default _ _ _ _ (by decide)

theorem C11_fsp_snan_indef_witness :
    (0xFF800001 < 2 ^ 32 ∧ (EXPLODESP 0xFF800001).1 = SNAN) ∧
    ((∃ r, ieee754dp_fsp (fun ax => { ax with rv := 0 }) ⟨3, 16, [], []⟩ 0xFF800001 = some r ∧
        r.1.cx &&& IEEE754_INVALID_OPERATION ≠ 0) ∧
      (∃ r, ieee754dp_fsp id ⟨3, 16, [], []⟩ 0xFF800001 = some r ∧
        r.2 = dp_spcval IEEE754_SPCVAL_INDEF ∧ r.1.cx &&& IEEE754_INVALID_OPERATION ≠ 0) ∧
      ieee754dp_isnan (dp_spcval IEEE754_SPCVAL_INDEF) ≠ 0) :=
  ⟨⟨by decide, by decide⟩,
    C11_fsp_snan_indef (fun ax => { ax with rv := 0 }) ⟨3, 16, [], []⟩ 0xFF800001
      (by decide) (by decide)⟩

theorem and_two_pow_ne_zero_iff (m k : Nat) : m &&& 2 ^ k ≠ 0 ↔ m.testBit k = true := by
  constructor
  · intro h
    by_contra hb
    apply h
    apply Nat.eq_of_testBit_eq
    intro i
    rw [Nat.testBit_and, Nat.zero_testBit, Nat.testBit_two_pow]
    by_cases hik : k = i
    · subst hik
      simp [hb]
    · simp [hik]
  · intro h h0
    have : (m &&& 2 ^ k).testBit k = true := by
      rw [Nat.testBit_and, h, Nat.testBit_two_pow_self]
      rfl
    rw [h0, Nat.zero_testBit] at this
    exact absurd this (by decide)

theorem SP_MBIT_msb : SP_MBIT (SP_FBITS - 1) = 2 ^ 22 := by decide

theorem DP_MBIT_msb : DP_MBIT (DP_FBITS - 1) = 2 ^ 51 := by decide

/-- What `ieee754dp_fsp` returns on a QuietNaN single: the trap path is entered with no
flag pending, so the handler is not reached. -/
theorem fsp_qnan_result (xcpt : ieee754xctx → ieee754xctx) (st : State) (x : Nat)
    (hc : (EXPLODESP x).1 = QNAN) :
    ieee754dp_fsp xcpt st x =
      some ({ ieee754_clearcx st with
          entries := (ieee754_clearcx st).entries ++ ["ieee754dp_nanxcpt"] },
        builddp (SPSIGN x : Int) ((2047 : Nat) : Int) (SPMANT x * 2 ^ 29)) := by
  obtain ⟨hm, _, _⟩ := sp_fields x
  have hf : SPBEXP x = 255 ∧ SPMANT x ≠ 0 ∧ SPMANT x &&& SP_MBIT (SP_FBITS - 1) ≠ 0 := by
    rw [EXPLODESP_class] at hc
    split_ifs at hc
    simp_all
  have hE : EXPLODESP x = (QNAN, (SPSIGN x : Int), (SPBEXP x : Int), SPMANT x) := by
    rw [EXPLODESP_eq, if_pos hf.1, if_neg hf.2.1, if_pos hf.2.2]
  rw [fsp_qnan xcpt st x hc, hE]
  dsimp only
  rw [nanxcpt_untripped _ _ _ _ _ (by simp [ieee754_clearcx]), Nat.shiftLeft_eq]
  have e1 : DP_FBITS - SP_FBITS = 29 := rfl
  have e2 : DP_EMAX + 1 + DP_EBIAS = ((2047 : Nat) : Int) := by decide
  have e3 : SPMANT x * 2 ^ 29 % 2 ^ 64 = SPMANT x * 2 ^ 29 := by omega
  rw [e1, e2, e3]

/-- C12: for every single-precision quiet NaN `x`, `ieee754dp_fsp(x)` is, under every
handler and so under the default one, the double with the sign of `x`, biased exponent
2047 and mantissa `m * 2^29` (the payload in the top 23 fraction bits, the low 29 bits
zero); the result is a quiet NaN and invalid-operation is not pending. -/
theorem C12_fsp_qnan_payload (xcpt : ieee754xctx → ieee754xctx) (st : State) (x : Nat)
    (_hx : x < 2 ^ 32) (hc : (EXPLODESP x).1 = QNAN) :
    ∃ r, ieee754dp_fsp xcpt st x = some r ∧
      DPSIGN r.2 = SPSIGN x ∧ DPBEXP r.2 = 2047 ∧ DPMANT r.2 = SPMANT x * 2 ^ 29 ∧
      DPMANT r.2 / 2 ^ 29 = SPMANT x ∧ DPMANT r.2 % 2 ^ 29 = 0 ∧
      (EXPLODEDP r.2).1 = QNAN ∧ r.1.cx &&& IEEE754_INVALID_OPERATION = 0 := by
  obtain ⟨hm, _, hs⟩ := sp_fields x
  have hf : SPBEXP x = 255 ∧ SPMANT x ≠ 0 ∧ SPMANT x &&& SP_MBIT (SP_FBITS - 1) ≠ 0 := by
    rw [EXPLODESP_class] at hc
    split_ifs at hc
    simp_all
  obtain ⟨_, _, f1, f2, f3⟩ :=
    builddp_fields (SPSIGN x) 2047 (SPMANT x * 2 ^ 29) hs (by norm_num) (by omega)
  refine ⟨_, fsp_qnan_result xcpt st x hc, f1, f2, f3, ?_, ?_, ?_, ?_⟩
  · rw [f3]
    omega
  · rw [f3]
    omega
  · rw [EXPLODEDP_class, f2, f3, if_pos rfl, if_neg (by omega)]
    have hq : SPMANT x * 2 ^ 29 &&& DP_MBIT (DP_FBITS - 1) ≠ 0 := by
      rw [DP_MBIT_msb, and_two_pow_ne_zero_iff, ← Nat.shiftLeft_eq, Nat.testBit_shiftLeft]
      have := hf.2.2
      rw [SP_MBIT_msb, and_two_pow_ne_zero_iff] at this
      simpa using this
    rw [if_pos hq]
  · show (0 : Nat) &&& IEEE754_INVALID_OPERATION = 0
    decide

theorem C12_fsp_qnan_payload_witness :
    (0xFFC00005 < 2 ^ 32 ∧ (EXPLODESP 0xFFC00005).1 = QNAN) ∧
    (∃ r, ieee754dp_fsp id ⟨3, 16, [], []⟩ 0xFFC00005 = some r ∧
      DPSIGN r.2 = SPSIGN 0xFFC00005 ∧ DPBEXP r.2 = 2047 ∧
      DPMANT r.2 = SPMANT 0xFFC00005 * 2 ^ 29 ∧
      DPMANT r.2 / 2 ^ 29 = SPMANT 0xFFC00005 ∧ DPMANT r.2 % 2 ^ 29 = 0 ∧
      (EXPLODEDP r.2).1 = QNAN ∧ r.1.cx &&& IEEE754_INVALID_OPERATION = 0) :=
  ⟨⟨by decide, by decide⟩,
    C12_fsp_qnan_payload id ⟨3, 16, [], []⟩ 0xFFC00005 (by decide) (by decide)⟩

/-- `ieee754dp_fsp` returns on every input: the renormalisation loop never runs out of
fuel. -/
theorem fsp_total (xcpt : ieee754xctx → ieee754xctx) (st : State) (x : Nat) :
    ∃ r, ieee754dp_fsp xcpt st x = some r := by
  have hcls := EXPLODESP_class x
  cases h : (EXPLODESP x).1 with
  | NORM =>
    rw [h] at hcls
    have hf : SPBEXP x ≠ 0 ∧ SPBEXP x ≠ 255 := by
      split_ifs at hcls
      simp_all
    exact ⟨_, fsp_norm xcpt st x hf.1 hf.2⟩
  | ZERO =>
    obtain ⟨d, hd⟩ := fsp_inf_zero xcpt st x (Or.inr h)
    exact ⟨_, hd⟩
  | DNORM =>
    rw [h] at hcls
    have hf : SPBEXP x = 0 ∧ SPMANT x ≠ 0 := by
      split_ifs at hcls
      simp_all
    obtain ⟨k, _, _, _, hrun⟩ := fsp_dnorm xcpt st x hf.1 hf.2
    exact ⟨_, hrun⟩
  | INF =>
    obtain ⟨d, hd⟩ := fsp_inf_zero xcpt st x (Or.inl h)
    exact ⟨_, hd⟩
  | SNAN =>
    exact ⟨_, fsp_snan xcpt st x h⟩
  | QNAN =>
    exact ⟨_, fsp_qnan_result xcpt st x h⟩

theorem shift_count_unique (m a b : Nat) (ha1 : 2 ^ 23 ≤ m * 2 ^ a) (ha2 : m * 2 ^ a < 2 ^ 24)
    (hb1 : 2 ^ 23 ≤ m * 2 ^ b) (hb2 : m * 2 ^ b < 2 ^ 24) : a = b := by
  have key : ∀ c d : Nat, c < d → 2 ^ 23 ≤ m * 2 ^ c → m * 2 ^ d < 2 ^ 24 → False := by
    intro c d hcd h1 h2
    have hp : 2 ^ (c + 1) ≤ 2 ^ d := Nat.pow_le_pow_right (by norm_num) hcd
    have hm : m * 2 ^ (c + 1) ≤ m * 2 ^ d := Nat.mul_le_mul_left m hp
    have e : m * 2 ^ (c + 1) = m * 2 ^ c * 2 := by ring
    omega
  rcases Nat.lt_trichotomy a b with h | h | h
  · exact absurd (key a b h ha1 hb2) id
  · exact h
  · exact absurd (key b a h hb1 ha2) id

/-- C14: for every single-precision Denormal input (biased exponent 0, mantissa `m` with
`1 ≤ m < 2^23`) the renormalisation loop of `ieee754dp_fsp`, entered with `xm = m` and
`xe = -126`, ends after `k ≤ 23` iterations (`k + 1` evaluations of its condition are
enough, and the 33 that `ieee754dp_fsp` allows give the same result), with bit 23 of `xm`
set, no bit above it set, `xe ≥ -149` and `xm * 2^xe` equal to its value at loop entry. -/
theorem C14_renorm_loop (x : Nat) (_hx : x < 2 ^ 32) (he : SPBEXP x = 0)
    (hm1 : 1 ≤ SPMANT x) :
    EXPLODESP x = (DNORM, (SPSIGN x : Int), -126, SPMANT x) ∧
    ∃ k xm xe, k ≤ 23 ∧
      SPDNORMx (k + 1) (SPMANT x) (-126) = some (xm, xe) ∧
      SPDNORMx 33 (SPMANT x) (-126) = some (xm, xe) ∧
      xm = SPMANT x * 2 ^ k ∧ xe = -126 - (k : Int) ∧
      xm.testBit 23 = true ∧ xm < 2 ^ 24 ∧ -149 ≤ xe ∧
      (xm : ℚ) * (2 : ℚ) ^ xe = (SPMANT x : ℚ) * (2 : ℚ) ^ (-126 : ℤ) := by
  obtain ⟨hm, _, _⟩ := sp_fields x
  refine ⟨?_, ?_⟩
  · rw [EXPLODESP_eq, if_neg (by omega), if_pos he, if_pos (by omega)]
  obtain ⟨k, _, hrun, hlo, hhi⟩ :=
    SPDNORMx_spec 32 (SPMANT x) (-126) (by omega) (by omega) (by omega)
  obtain ⟨j, hj, hrunj, hloj, hhij⟩ :=
    SPDNORMx_spec k (SPMANT x) (-126) (by omega) (by omega) hlo
  have hjk : j = k := shift_count_unique (SPMANT x) j k hloj hhij hlo hhi
  subst hjk
  have hk : j ≤ 23 := by
    by_contra hc
    have h24 : (2 : Nat) ^ 24 ≤ 2 ^ j := Nat.pow_le_pow_right (by norm_num) (by omega)
    have : 2 ^ j ≤ SPMANT x * 2 ^ j := Nat.le_mul_of_pos_left _ (by omega)
    omega
  refine ⟨j, SPMANT x * 2 ^ j, -126 - (j : Int), hk, hrunj, hrun, rfl, rfl, ?_, hhi,
    by omega, ?_⟩
  · rw [Nat.testBit_to_div_mod]
    have : SPMANT x * 2 ^ j / 2 ^ 23 % 2 = 1 := by omega
    rw [this]
    rfl
  · rw [zpow_sub₀ (by norm_num), zpow_natCast]
    push_cast
    field_simp
    ring

theorem C14_renorm_loop_witness :
    (0x80000001 < 2 ^ 32 ∧ SPBEXP 0x80000001 = 0 ∧ 1 ≤ SPMANT 0x80000001) ∧
    (EXPLODESP 0x80000001 = (DNORM, (SPSIGN 0x80000001 : Int), -126, SPMANT 0x80000001) ∧
    ∃ k xm xe, k ≤ 23 ∧
      SPDNORMx (k + 1) (SPMANT 0x80000001) (-126) = some (xm, xe) ∧
      SPDNORMx 33 (SPMANT 0x80000001) (-126) = some (xm, xe) ∧
      xm = SPMANT 0x80000001 * 2 ^ k ∧ xe = -126 - (k : Int) ∧
      xm.testBit 23 = true ∧ xm < 2 ^ 24 ∧ -149 ≤ xe ∧
      (xm : ℚ) * (2 : ℚ) ^ xe = (SPMANT 0x80000001 : ℚ) * (2 : ℚ) ^ (-126 : ℤ)) :=
  ⟨⟨by decide, by decide, by decide⟩,
    C14_renorm_loop 0x80000001 (by decide) (by decide) (by decide)⟩

/-- C15: round trip. For every sign `s` in {0,1}, biased exponent `bx` with
`0 ≤ bx ≤ 2047` and mantissa `m < 2^52`, reading `builddp(s, bx, m)` with `DPSIGN`,
`DPBEXP` and `DPMANT` gives back exactly `(s, bx, m)`. -/
theorem C15_build_roundtrip (s bx : Int) (m : Nat) (hs : s = 0 ∨ s = 1) (hb0 : 0 ≤ bx)
    (hb1 : bx ≤ 2047) (hm : m < 2 ^ 52) :
    (DPSIGN (builddp s bx m) : Int) = s ∧ (DPBEXP (builddp s bx m) : Int) = bx ∧
    DPMANT (builddp s bx m) = m := by
  have es : s = ((s.toNat : Nat) : Int) := by omega
  have eb : bx = ((bx.toNat : Nat) : Int) := by omega
  obtain ⟨_, _, f1, f2, f3⟩ :=
    builddp_fields s.toNat bx.toNat m (by omega) (by omega) hm
  rw [← es, ← eb] at f1 f2 f3
  rw [f1, f2, f3]
  exact ⟨es.symm, eb.symm, rfl⟩

theorem C15_build_roundtrip_witness :
    (((1 : Int) = 0 ∨ (1 : Int) = 1) ∧ (0 : Int) ≤ 2047 ∧ (2047 : Int) ≤ 2047 ∧
      0x8000000000001 < 2 ^ 52) ∧
    ((DPSIGN (builddp 1 2047 0x8000000000001) : Int) = 1 ∧
      (DPBEXP (builddp 1 2047 0x8000000000001) : Int) = 2047 ∧
      DPMANT (builddp 1 2047 0x8000000000001) = 0x8000000000001) :=
  ⟨⟨by decide, by decide, by decide, by decide⟩,
    C15_build_roundtrip 1 2047 0x8000000000001 (by decide) (by decide) (by decide)
      (by decide)⟩

/-- C16: bit-exact decomposition. For every 64-bit double pattern `p`,
`builddp(DPSIGN(p), DPBEXP(p), DPMANT(p))` has exactly the bits of `p`, that is
`p = sign * 2^63 + bexp * 2^52 + mant` with `sign < 2`, `bexp < 2^11`, `mant < 2^52`. -/
theorem C16_fields_rebuild (p : Nat) (hp : p < 2 ^ 64) :
    builddp (DPSIGN p : Int) (DPBEXP p : Int) (DPMANT p) = p ∧
    p = DPSIGN p * 2 ^ 63 + DPBEXP p * 2 ^ 52 + DPMANT p ∧
    DPSIGN p < 2 ∧ DPBEXP p < 2 ^ 11 ∧ DPMANT p < 2 ^ 52 := by
  have hs : DPSIGN p < 2 := by unfold DPSIGN; omega
  have he : DPBEXP p < 2 ^ 11 := by unfold DPBEXP; omega
  have hm : DPMANT p < 2 ^ 52 := by unfold DPMANT; omega
  have hsum : p = DPSIGN p * 2 ^ 63 + DPBEXP p * 2 ^ 52 + DPMANT p := by
    unfold DPSIGN DPBEXP DPMANT
    omega
  obtain ⟨hb, _⟩ := builddp_fields (DPSIGN p) (DPBEXP p) (DPMANT p) hs he hm
  exact ⟨hb.trans hsum.symm, hsum, hs, he, hm⟩

theorem C16_fields_rebuild_witness :
    0xC024000000000001 < 2 ^ 64 ∧
    (builddp (DPSIGN 0xC024000000000001 : Int) (DPBEXP 0xC024000000000001 : Int)
        (DPMANT 0xC024000000000001) = 0xC024000000000001 ∧
      0xC024000000000001 = DPSIGN 0xC024000000000001 * 2 ^ 63 +
        DPBEXP 0xC024000000000001 * 2 ^ 52 + DPMANT 0xC024000000000001 ∧
      DPSIGN 0xC024000000000001 < 2 ∧ DPBEXP 0xC024000000000001 < 2 ^ 11 ∧
      DPMANT 0xC024000000000001 < 2 ^ 52) :=
  ⟨by decide, C16_fields_rebuild 0xC024000000000001 (by decide)⟩

/-- The rule of the data model assigns exactly one class to every pair whose exponent
lies between the two sentinels. -/
theorem spec_class_exists_unique (ebot etop fbits e m : Nat) (hbt : ebot < etop)
    (h1 : ebot ≤ e) (h2 : e ≤ etop) : ∃! c, spec_class ebot etop fbits c e m := by
  by_cases hb : e = ebot
  · by_cases hm : m = 0
    · refine ⟨ZERO, ⟨hb, hm⟩, ?_⟩
      intro c hc
      cases c <;> simp only [spec_class] at hc <;> first | rfl | omega
    · refine ⟨DNORM, ⟨hb, hm⟩, ?_⟩
      intro c hc
      cases c <;> simp only [spec_class] at hc <;> first | rfl | omega
  · by_cases ht : e = etop
    · by_cases hm : m = 0
      · refine ⟨INF, ⟨ht, hm⟩, ?_⟩
        intro c hc
        cases c <;> simp only [spec_class] at hc <;> first | rfl | omega
      · by_cases hq : m.testBit (fbits - 1) = true
        · refine ⟨QNAN, ⟨ht, hm, hq⟩, ?_⟩
          intro c hc
          cases c <;> simp only [spec_class] at hc <;> first | rfl | omega | simp_all
        · have hq2 : m.testBit (fbits - 1) = false := by simpa using hq
          refine ⟨SNAN, ⟨ht, hm, hq2⟩, ?_⟩
          intro c hc
          cases c <;> simp only [spec_class] at hc <;> first | rfl | omega | simp_all
    · refine ⟨NORM, ⟨by omega, by omega⟩, ?_⟩
      intro c hc
      cases c <;> simp only [spec_class] at hc <;> first | rfl | omega

/-- The class `EXPLODESP` assigns is the one the rule of the data model gives. -/
theorem EXPLODESP_spec_class (x : Nat) :
    spec_class 0 255 23 (EXPLODESP x).1 (SPBEXP x) (SPMANT x) := by
  obtain ⟨_, he, _⟩ := sp_fields x
  rw [EXPLODESP_class, SP_MBIT_msb]
  split_ifs with h1 h2 h3 h4 h5
  · exact ⟨h1, h2⟩
  · exact ⟨h1, h2, (and_two_pow_ne_zero_iff _ _).mp h3⟩
  · refine ⟨h1, h2, ?_⟩
    have := (and_two_pow_ne_zero_iff (SPMANT x) 22).not.mp h3
    simpa using this
  · exact ⟨h4, h5⟩
  · exact ⟨h4, not_not.mp h5⟩
  · exact ⟨by omega, by omega⟩

/-- The class `EXPLODEDP` assigns is the one the rule of the data model gives. -/
theorem EXPLODEDP_spec_class (x : Nat) :
    spec_class 0 2047 52 (EXPLODEDP x).1 (DPBEXP x) (DPMANT x) := by
  have he : DPBEXP x < 2 ^ 11 := by unfold DPBEXP; omega
  rw [EXPLODEDP_class, DP_MBIT_msb]
  split_ifs with h1 h2 h3 h4 h5
  · exact ⟨h1, h2⟩
  · exact ⟨h1, h2, (and_two_pow_ne_zero_iff _ _).mp h3⟩
  · refine ⟨h1, h2, ?_⟩
    have := (and_two_pow_ne_zero_iff (DPMANT x) 51).not.mp h3
    simpa using this
  · exact ⟨h4, h5⟩
  · exact ⟨h4, not_not.mp h5⟩
  · exact ⟨by omega, by omega⟩

/-- C17: classification is total and mutually exclusive. For every pair (biased exponent,
mantissa) of the single format and of the double format exactly one of the six classes
holds under the rule of the data model; the class `EXPLODESP` and `EXPLODEDP` hand to
the code is that class, and `ieee754dp_fsp`, whose switch has one case per class, returns
on every input. -/
theorem C17_classification_total (es ms ed md : Nat) (hes : es < 2 ^ 8) (_hms : ms < 2 ^ 23)
    (hed : ed < 2 ^ 11) (_hmd : md < 2 ^ 52) (xcpt : ieee754xctx → ieee754xctx) (st : State)
    (x d : Nat) :
    (∃! c, spec_class 0 255 23 c es ms) ∧
    (∃! c, spec_class 0 2047 52 c ed md) ∧
    spec_class 0 255 23 (EXPLODESP x).1 (SPBEXP x) (SPMANT x) ∧
    spec_class 0 2047 52 (EXPLODEDP d).1 (DPBEXP d) (DPMANT d) ∧
    (∃ r, ieee754dp_fsp xcpt st x = some r) := by
  refine ⟨spec_class_exists_unique 0 255 23 es ms (by norm_num) (by omega) (by omega),
    spec_class_exists_unique 0 2047 52 ed md (by norm_num) (by omega) (by omega),
    EXPLODESP_spec_class x, EXPLODEDP_spec_class d, ?_⟩
  obtain ⟨r, hr⟩ := fsp_total xcpt st x
  exact ⟨r, hr⟩

theorem C17_classification_total_witness :
    ((255 : Nat) < 2 ^ 8 ∧ (0x400000 : Nat) < 2 ^ 23 ∧ (2047 : Nat) < 2 ^ 11 ∧
      (1 : Nat) < 2 ^ 52) ∧
    ((∃! c, spec_class 0 255 23 c 255 0x400000) ∧
      (∃! c, spec_class 0 2047 52 c 2047 1) ∧
      spec_class 0 255 23 (EXPLODESP 0x7FC00000).1 (SPBEXP 0x7FC00000) (SPMANT 0x7FC00000) ∧
      spec_class 0 2047 52 (EXPLODEDP 0x7FF0000000000001).1 (DPBEXP 0x7FF0000000000001)
        (DPMANT 0x7FF0000000000001) ∧
      (∃ r, ieee754dp_fsp id ⟨0, 0, [], []⟩ 0x7FC00000 = some r)) :=
  ⟨⟨by decide, by decide, by decide, by decide⟩,
    C17_classification_total 255 0x400000 2047 1 (by decide) (by decide) (by decide)
      (by decide) id ⟨0, 0, [], []⟩ 0x7FC00000 0x7FF0000000000001⟩

/-- C18: for every double pattern `x`, `ieee754dp_finite(x)` is non-zero iff the biased
exponent field of `x` differs from `DP_EMAX + 1 + DP_EBIAS = 2047`, which holds iff `x`
is classified Zero, Denormal or Normal, that is iff `x` is neither an infinity nor a
NaN. -/
theorem C18_finite_iff (x : Nat) (_hx : x < 2 ^ 64) :
    DP_EMAX + 1 + DP_EBIAS = 2047 ∧
    (ieee754dp_finite x ≠ 0 ↔ DPBEXP x ≠ 2047) ∧
    (DPBEXP x ≠ 2047 ↔
      ((EXPLODEDP x).1 = ZERO ∨ (EXPLODEDP x).1 = DNORM ∨ (EXPLODEDP x).1 = NORM)) ∧
    (DPBEXP x ≠ 2047 ↔ ((EXPLODEDP x).1 ≠ INF ∧ ieee754dp_isnan x = 0)) := by
  refine ⟨by decide, ?_, ?_, ?_⟩
  · unfold ieee754dp_finite
    have e1 : ((DPBEXP x : Int) ≠ DP_EMAX + 1 + DP_EBIAS) ↔ DPBEXP x ≠ 2047 := by
      simp only [DP_EMAX, DP_EBIAS]
      omega
    by_cases h : DPBEXP x = 2047
    · rw [if_neg (fun hh => (e1.mp hh) h)]
      simp [h]
    · rw [if_pos (e1.mpr h)]
      simp [h]
  · rw [EXPLODEDP_class]
    split_ifs <;> simp_all
  · rw [isnan_eq_zero_iff, EXPLODEDP_class]
    split_ifs <;> simp_all

theorem C18_finite_iff_witness :
    0x7FF0000000000000 < 2 ^ 64 ∧
    (DP_EMAX + 1 + DP_EBIAS = 2047 ∧
    (ieee754dp_finite 0x7FF0000000000000 ≠ 0 ↔ DPBEXP 0x7FF0000000000000 ≠ 2047) ∧
    (DPBEXP 0x7FF0000000000000 ≠ 2047 ↔
      ((EXPLODEDP 0x7FF0000000000000).1 = ZERO ∨ (EXPLODEDP 0x7FF0000000000000).1 = DNORM ∨
        (EXPLODEDP 0x7FF0000000000000).1 = NORM)) ∧
    (DPBEXP 0x7FF0000000000000 ≠ 2047 ↔
      ((EXPLODEDP 0x7FF0000000000000).1 ≠ INF ∧ ieee754dp_isnan 0x7FF0000000000000 = 0))) :=
  ⟨by decide, C18_finite_iff 0x7FF0000000000000 (by decide)⟩

theorem toS32_of_range (r : Int) (h1 : -2 ^ 31 ≤ r) (h2 : r < 2 ^ 31) : toS32 r = r := by
  unfold toS32
  split_ifs <;> omega

theorem toS64_toU64_of_range (r : Int) (h1 : -2 ^ 63 ≤ r) (h2 : r < 2 ^ 63) :
    toS64 (toU64 r) = r := by
  unfold toS64 toU64
  have e : ((r % 2 ^ 64).toNat) % 2 ^ 64 = (r % 2 ^ 64).toNat := by omega
  rw [e]
  split_ifs <;> omega

/-- C19: `ieee754si_xcpt(r, op, ...)` and `ieee754di_xcpt(r, op, ...)` return `r` unchanged
and do not invoke the handler when no pending flag is in the trap-enable mask; when the
context is tripped they invoke the handler once, with the operation name, the tag
`IEEE754_RT_SI` (resp. `IEEE754_RT_DI`) and the result slot initialised to `r`, and return
what the slot then holds; a handler that leaves the slot untouched yields `r`. Neither
entry changes the pending flags or the mask. -/
theorem C19_integer_trap_entries (xcpt dflt : ieee754xctx → ieee754xctx) (st : State)
    (r q : Int) (op : String) (ap : List Nat)
    (hd : ∀ ax, (dflt ax).rv = ax.rv)
    (hr1 : -2 ^ 31 ≤ r) (hr2 : r < 2 ^ 31) (hq1 : -2 ^ 63 ≤ q) (hq2 : q < 2 ^ 63) :
    ((ieee754si_xcpt xcpt st r op ap).2 =
        (if ieee754_tstx st = 0 then r
         else toS32 (xcpt { op := op, rt := IEEE754_RT_SI, rv := r, ap := ap }).rv) ∧
      (ieee754si_xcpt xcpt st r op ap).1.handled =
        (if ieee754_tstx st = 0 then st.handled
         else st.handled ++ [{ op := op, rt := IEEE754_RT_SI, rv := r, ap := ap }]) ∧
      (ieee754si_xcpt xcpt st r op ap).1.cx = st.cx ∧
      (ieee754si_xcpt xcpt st r op ap).1.mx = st.mx ∧
      (ieee754si_xcpt dflt st r op ap).2 = r) ∧
    ((ieee754di_xcpt xcpt st q op ap).2 =
        (if ieee754_tstx st = 0 then q
         else toS64 (toU64 (xcpt { op := op, rt := IEEE754_RT_DI, rv := q, ap := ap }).rv)) ∧
      (ieee754di_xcpt xcpt st q op ap).1.handled =
        (if ieee754_tstx st = 0 then st.handled
         else st.handled ++ [{ op := op, rt := IEEE754_RT_DI, rv := q, ap := ap }]) ∧
      (ieee754di_xcpt xcpt st q op ap).1.cx = st.cx ∧
      (ieee754di_xcpt xcpt st q op ap).1.mx = st.mx ∧
      (ieee754di_xcpt dflt st q op ap).2 = q) := by
  have ht : ∀ l : List String, ieee754_tstx { st with entries := l } = ieee754_tstx st :=
    fun _ => rfl
  have hsi : ∀ h : ieee754xctx → ieee754xctx, ieee754si_xcpt h st r op ap =
      if ieee754_tstx st = 0 then
        ({ st with entries := st.entries ++ ["ieee754si_xcpt"] }, r)
      else
        ({ st with entries := st.entries ++ ["ieee754si_xcpt"],
                   handled := st.handled ++
                     [{ op := op, rt := IEEE754_RT_SI, rv := r, ap := ap }] },
          toS32 (h { op := op, rt := IEEE754_RT_SI, rv := r, ap := ap }).rv) := by
    intro h
    unfold ieee754si_xcpt
    simp only [ht]
  have hdi : ∀ h : ieee754xctx → ieee754xctx, ieee754di_xcpt h st q op ap =
      if ieee754_tstx st = 0 then
        ({ st with entries := st.entries ++ ["ieee754di_xcpt"] }, q)
      else
        ({ st with entries := st.entries ++ ["ieee754di_xcpt"],
                   handled := st.handled ++
                     [{ op := op, rt := IEEE754_RT_DI, rv := q, ap := ap }] },
          toS64 (toU64 (h { op := op, rt := IEEE754_RT_DI, rv := q, ap := ap }).rv)) := by
    intro h
    unfold ieee754di_xcpt
    simp only [ht]
  rw [hsi xcpt, hsi dflt, hdi xcpt, hdi dflt]
  by_cases h : ieee754_tstx st = 0
  · rw [if_pos h, if_pos h, if_pos h, if_pos h, if_pos h, if_pos h, if_pos h, if_pos h]
    exact ⟨⟨rfl, rfl, rfl, rfl, rfl⟩, ⟨rfl, rfl, rfl, rfl, rfl⟩⟩
  · rw [if_neg h, if_neg h, if_neg h, if_neg h, if_neg h, if_neg h, if_neg h, if_neg h]
    refine ⟨⟨rfl, rfl, rfl, rfl, ?_⟩, ⟨rfl, rfl, rfl, rfl, ?_⟩⟩
    · show toS32 (dflt _).rv = r
      rw [hd]
      exact toS32_of_range r hr1 hr2
    · show toS64 (toU64 (dflt _).rv) = q
      rw [hd]
      exact toS64_toU64_of_range q hq1 hq2

theorem C19_integer_trap_entries_witness :
    ((∀ ax : ieee754xctx, (id ax).rv = ax.rv) ∧ (-2 ^ 31 : Int) ≤ -5 ∧ (-5 : Int) < 2 ^ 31 ∧
      (-2 ^ 63 : Int) ≤ 2 ^ 40 ∧ (2 ^ 40 : Int) < 2 ^ 63) ∧
    (((ieee754si_xcpt (fun ax => { ax with rv := 7 }) ⟨16, 16, [], []⟩ (-5) "fcmpf" [1]).2 =
        (if ieee754_tstx ⟨16, 16, [], []⟩ = 0 then -5
         else toS32 ((fun ax => { ax with rv := 7 } : ieee754xctx → ieee754xctx)
           { op := "fcmpf", rt := IEEE754_RT_SI, rv := -5, ap := [1] }).rv) ∧
      (ieee754si_xcpt (fun ax => { ax with rv := 7 }) ⟨16, 16, [], []⟩ (-5) "fcmpf"
          [1]).1.handled =
        (if ieee754_tstx ⟨16, 16, [], []⟩ = 0 then (⟨16, 16, [], []⟩ : State).handled
         else (⟨16, 16, [], []⟩ : State).handled ++
           [{ op := "fcmpf", rt := IEEE754_RT_SI, rv := -5, ap := [1] }]) ∧
      (ieee754si_xcpt (fun ax => { ax with rv := 7 }) ⟨16, 16, [], []⟩ (-5) "fcmpf" [1]).1.cx =
        (⟨16, 16, [], []⟩ : State).cx ∧
      (ieee754si_xcpt (fun ax => { ax with rv := 7 }) ⟨16, 16, [], []⟩ (-5) "fcmpf" [1]).1.mx =
        (⟨16, 16, [], []⟩ : State).mx ∧
      (ieee754si_xcpt id ⟨16, 16, [], []⟩ (-5) "fcmpf" [1]).2 = -5) ∧
    ((ieee754di_xcpt (fun ax => { ax with rv := 7 }) ⟨16, 16, [], []⟩ (2 ^ 40) "fcmpf" [1]).2 =
        (if ieee754_tstx ⟨16, 16, [], []⟩ = 0 then 2 ^ 40
         else toS64 (toU64 ((fun ax => { ax with rv := 7 } : ieee754xctx → ieee754xctx)
           { op := "fcmpf", rt := IEEE754_RT_DI, rv := 2 ^ 40, ap := [1] }).rv)) ∧
      (ieee754di_xcpt (fun ax => { ax with rv := 7 }) ⟨16, 16, [], []⟩ (2 ^ 40) "fcmpf"
          [1]).1.handled =
        (if ieee754_tstx ⟨16, 16, [], []⟩ = 0 then (⟨16, 16, [], []⟩ : State).handled
         else (⟨16, 16, [], []⟩ : State).handled ++
           [{ op := "fcmpf", rt := IEEE754_RT_DI, rv := 2 ^ 40, ap := [1] }]) ∧
      (ieee754di_xcpt (fun ax => { ax with rv := 7 }) ⟨16, 16, [], []⟩ (2 ^ 40) "fcmpf"
          [1]).1.cx = (⟨16, 16, [], []⟩ : State).cx ∧
      (ieee754di_xcpt (fun ax => { ax with rv := 7 }) ⟨16, 16, [], []⟩ (2 ^ 40) "fcmpf"
          [1]).1.mx = (⟨16, 16, [], []⟩ : State).mx ∧
      (ieee754di_xcpt id ⟨16, 16, [], []⟩ (2 ^ 40) "fcmpf" [1]).2 = 2 ^ 40)) :=
  ⟨⟨fun _ => rfl, by decide, by decide, by decide, by decide⟩,
    C19_integer_trap_entries (fun ax => { ax with rv := 7 }) id ⟨16, 16, [], []⟩ (-5) (2 ^ 40)
      "fcmpf" [1] (fun _ => rfl) (by decide) (by decide) (by decide) (by decide)⟩

/-- C20, as stated, fails: the mantissa of the indefinite NaN entry has its most-significant
bit clear in both tables (bit 22 of `0x3FFFFF`, bit 51 of `0x7FFFFFFFFFFFF`), where the
claim has it set. -/
theorem C20_counterexample :
    SPMANT (sp_spcval IEEE754_SPCVAL_INDEF) = 0x3FFFFF ∧
    (SPMANT (sp_spcval IEEE754_SPCVAL_INDEF)).testBit (SP_FBITS - 1) = false ∧
    SPMANT (sp_spcval IEEE754_SPCVAL_INDEF) &&& SP_MBIT (SP_FBITS - 1) = 0 ∧
    DPMANT (dp_spcval IEEE754_SPCVAL_INDEF) = 0x7FFFFFFFFFFFF ∧
    (DPMANT (dp_spcval IEEE754_SPCVAL_INDEF)).testBit (DP_FBITS - 1) = false ∧
    DPMANT (dp_spcval IEEE754_SPCVAL_INDEF) &&& DP_MBIT (DP_FBITS - 1) = 0 := by
  decide

/-- C20 (amended): the catalog's indefinite NaN entry has, in the single table, sign 0,
biased exponent 255 and mantissa `0x3FFFFF` and, in the double table, sign 0, biased
exponent 2047 and mantissa `0x7FFFFFFFFFFFF`: the exponent field at the infinity/NaN
sentinel (`EMAX + 1 + EBIAS`), the mantissa non-zero, its most-significant bit clear and
every lower bit set. -/
theorem C20_indef_entry :
    (sp_spcval IEEE754_SPCVAL_INDEF = 0x7FBFFFFF ∧
      SPSIGN (sp_spcval IEEE754_SPCVAL_INDEF) = 0 ∧
      SPBEXP (sp_spcval IEEE754_SPCVAL_INDEF) = 255 ∧
      (SPBEXP (sp_spcval IEEE754_SPCVAL_INDEF) : Int) = SP_EMAX + 1 + SP_EBIAS ∧
      SPMANT (sp_spcval IEEE754_SPCVAL_INDEF) = 0x3FFFFF ∧
      SPMANT (sp_spcval IEEE754_SPCVAL_INDEF) ≠ 0 ∧
      (SPMANT (sp_spcval IEEE754_SPCVAL_INDEF)).testBit (SP_FBITS - 1) = false ∧
      (∀ i, i < SP_FBITS - 1 → (SPMANT (sp_spcval IEEE754_SPCVAL_INDEF)).testBit i = true) ∧
      SPMANT (sp_spcval IEEE754_SPCVAL_INDEF) = 2 ^ (SP_FBITS - 1) - 1) ∧
    (dp_spcval IEEE754_SPCVAL_INDEF = 0x7FF7FFFFFFFFFFFF ∧
      DPSIGN (dp_spcval IEEE754_SPCVAL_INDEF) = 0 ∧
      DPBEXP (dp_spcval IEEE754_SPCVAL_INDEF) = 2047 ∧
      (DPBEXP (dp_spcval IEEE754_SPCVAL_INDEF) : Int) = DP_EMAX + 1 + DP_EBIAS ∧
      DPMANT (dp_spcval IEEE754_SPCVAL_INDEF) = 0x7FFFFFFFFFFFF ∧
      DPMANT (dp_spcval IEEE754_SPCVAL_INDEF) ≠ 0 ∧
      (DPMANT (dp_spcval IEEE754_SPCVAL_INDEF)).testBit (DP_FBITS - 1) = false ∧
      (∀ i, i < DP_FBITS - 1 → (DPMANT (dp_spcval IEEE754_SPCVAL_INDEF)).testBit i = true) ∧
      DPMANT (dp_spcval IEEE754_SPCVAL_INDEF) = 2 ^ (DP_FBITS - 1) - 1) := by
  have hs : SPMANT (sp_spcval IEEE754_SPCVAL_INDEF) = 2 ^ 22 - 1 := by decide
  have hd : DPMANT (dp_spcval IEEE754_SPCVAL_INDEF) = 2 ^ 51 - 1 := by decide
  refine ⟨⟨by decide, by decide, by decide, by decide, by decide, by decide, by decide, ?_,
    by decide⟩, ⟨by decide, by decide, by decide, by decide, by decide, by decide, by decide,
    ?_, by decide⟩⟩
  · intro i hi
    have hi22 : i < 22 := hi
    rw [hs, Nat.testBit_two_pow_sub_one]
    exact decide_eq_true hi22
  · intro i hi
    have hi51 : i < 51 := hi
    rw [hd, Nat.testBit_two_pow_sub_one]
    exact decide_eq_true hi51

theorem dp_value_of_fields (x s e m : Nat) (hs : DPSIGN x = s) (he : DPBEXP x = e)
    (hm : DPMANT x = m) (h47 : e ≠ 2047) :
    dp_value x = ((dp_finite_value s e m : ℚ) : WithTop ℚ) := by
  unfold dp_value
  rw [hs, he, hm, if_neg h47]

theorem sp_value_of_fields (x s e m : Nat) (hs : SPSIGN x = s) (he : SPBEXP x = e)
    (hm : SPMANT x = m) :
    sp_value x = if e = 0 then (-1 : ℚ) ^ s * (2 : ℚ) ^ (-126 : ℤ) * ((m : ℚ) / 2 ^ 23)
      else (-1 : ℚ) ^ s * (2 : ℚ) ^ ((e : ℤ) - 127) * (1 + (m : ℚ) / 2 ^ 23) := by
  unfold sp_value
  rw [hs, he, hm]

/-- C21, as stated, fails: the last two catalog entries denote `2^31` and `2^63`, in the
double table and in the single table alike, and these are not `10^31` and `10^63`. -/
theorem C21_counterexample :
    dp_value (dp_spcval IEEE754_SPCVAL_P1E31) ≠ (((10 ^ 31 : ℚ) : WithTop ℚ) : WithBot (WithTop ℚ)) ∧
    dp_value (dp_spcval IEEE754_SPCVAL_P1E63) ≠ (((10 ^ 63 : ℚ) : WithTop ℚ) : WithBot (WithTop ℚ)) ∧
    sp_value (sp_spcval IEEE754_SPCVAL_P1E31) ≠ 10 ^ 31 ∧
    sp_value (sp_spcval IEEE754_SPCVAL_P1E63) ≠ 10 ^ 63 := by
  refine ⟨?_, ?_, ?_, ?_⟩
  · rw [dp_value_of_fields _ 0 1054 0 (by decide) (by decide) (by decide) (by decide)]
    norm_num [dp_finite_value]
  · rw [dp_value_of_fields _ 0 1086 0 (by decide) (by decide) (by decide) (by decide)]
    norm_num [dp_finite_value]
  · rw [sp_value_of_fields _ 0 158 0 (by decide) (by decide) (by decide)]
    norm_num
  · rw [sp_value_of_fields _ 0 190 0 (by decide) (by decide) (by decide)]
    norm_num

/-- C21 (amended): the last two catalog entries, named 1e31 and 1e63, have sign 0,
mantissa 0 and unbiased exponent 31 and 63, and denote the values `2^31` and `2^63`, in
both the single-precision and the double-precision table. -/
theorem C21_last_entries :
    (DPSIGN (dp_spcval IEEE754_SPCVAL_P1E31) = 0 ∧
      (DPBEXP (dp_spcval IEEE754_SPCVAL_P1E31) : Int) = 31 + DP_EBIAS ∧
      DPMANT (dp_spcval IEEE754_SPCVAL_P1E31) = 0 ∧
      dp_value (dp_spcval IEEE754_SPCVAL_P1E31) = (((2 ^ 31 : ℚ) : WithTop ℚ) : WithBot (WithTop ℚ))) ∧
    (DPSIGN (dp_spcval IEEE754_SPCVAL_P1E63) = 0 ∧
      (DPBEXP (dp_spcval IEEE754_SPCVAL_P1E63) : Int) = 63 + DP_EBIAS ∧
      DPMANT (dp_spcval IEEE754_SPCVAL_P1E63) = 0 ∧
      dp_value (dp_spcval IEEE754_SPCVAL_P1E63) = (((2 ^ 63 : ℚ) : WithTop ℚ) : WithBot (WithTop ℚ))) ∧
    (SPSIGN (sp_spcval IEEE754_SPCVAL_P1E31) = 0 ∧
      (SPBEXP (sp_spcval IEEE754_SPCVAL_P1E31) : Int) = 31 + SP_EBIAS ∧
      SPMANT (sp_spcval IEEE754_SPCVAL_P1E31) = 0 ∧
      sp_value (sp_spcval IEEE754_SPCVAL_P1E31) = 2 ^ 31) ∧
    (SPSIGN (sp_spcval IEEE754_SPCVAL_P1E63) = 0 ∧
      (SPBEXP (sp_spcval IEEE754_SPCVAL_P1E63) : Int) = 63 + SP_EBIAS ∧
      SPMANT (sp_spcval IEEE754_SPCVAL_P1E63) = 0 ∧
      sp_value (sp_spcval IEEE754_SPCVAL_P1E63) = 2 ^ 63) := by
  refine ⟨⟨by decide, by decide, by decide, ?_⟩, ⟨by decide, by decide, by decide, ?_⟩,
    ⟨by decide, by decide, by decide, ?_⟩, ⟨by decide, by decide, by decide, ?_⟩⟩
  · rw [dp_value_of_fields _ 0 1054 0 (by decide) (by decide) (by decide) (by decide)]
    norm_num [dp_finite_value]
  · rw [dp_value_of_fields _ 0 1086 0 (by decide) (by decide) (by decide) (by decide)]
    norm_num [dp_finite_value]
  · rw [sp_value_of_fields _ 0 158 0 (by decide) (by decide) (by decide)]
    norm_num
  · rw [sp_value_of_fields _ 0 190 0 (by decide) (by decide) (by decide)]
    norm_num

/-- C22: catalog entries 0 to 7 and 9 to 14 of both tables denote the values they are named
after: the two zeros (all non-sign bits zero), ±1.0, ±10.0 (`1.25 * 2^3`), the two
infinities (exponent sentinel, mantissa 0), ± the largest normal (`(2 - 2^-52) * 2^1023`,
resp. `(2 - 2^-23) * 2^127`), ± the smallest normal (`2^-1022`, resp. `2^-126`) and ± the
smallest denormal (`2^-1074`, resp. `2^-149`). The two tables list the same 17 names in
the same order: both have 17 entries, at every index the two entries have the same sign
and the same class, and at every index each entry has exactly the sign, biased exponent
and mantissa of the name with that index (`spcval_named`) in its own format, the 17 names
being pairwise distinct, so that every one of the 17 positions of either table is pinned,
down to the bit patterns. -/
theorem C22_catalog_values :
    (dp_spcval IEEE754_SPCVAL_PZERO = 0 ∧
      dp_spcval IEEE754_SPCVAL_NZERO = 2 ^ 63 ∧
      dp_value (dp_spcval IEEE754_SPCVAL_PZERO) = (((0 : ℚ) : WithTop ℚ) : WithBot (WithTop ℚ)) ∧
      dp_value (dp_spcval IEEE754_SPCVAL_NZERO) = (((0 : ℚ) : WithTop ℚ) : WithBot (WithTop ℚ)) ∧
      dp_value (dp_spcval IEEE754_SPCVAL_PONE) = (((1 : ℚ) : WithTop ℚ) : WithBot (WithTop ℚ)) ∧
      dp_value (dp_spcval IEEE754_SPCVAL_NONE) = (((-1 : ℚ) : WithTop ℚ) : WithBot (WithTop ℚ)) ∧
      dp_value (dp_spcval IEEE754_SPCVAL_PTEN) = (((10 : ℚ) : WithTop ℚ) : WithBot (WithTop ℚ)) ∧
      dp_value (dp_spcval IEEE754_SPCVAL_NTEN) = (((-10 : ℚ) : WithTop ℚ) : WithBot (WithTop ℚ)) ∧
      (10 : ℚ) = 1.25 * 2 ^ 3 ∧
      dp_spcval IEEE754_SPCVAL_PINFINITY = builddp 0 2047 0 ∧
      dp_spcval IEEE754_SPCVAL_NINFINITY = builddp 1 2047 0 ∧
      dp_value (dp_spcval IEEE754_SPCVAL_PINFINITY) = ((⊤ : WithTop ℚ) : WithBot (WithTop ℚ)) ∧
      dp_value (dp_spcval IEEE754_SPCVAL_NINFINITY) = ⊥ ∧
      dp_value (dp_spcval IEEE754_SPCVAL_PMAX) = ((((2 - (2 : ℚ) ^ (-52 : ℤ)) * 2 ^ 1023 : ℚ) : WithTop ℚ) : WithBot (WithTop ℚ)) ∧
      dp_value (dp_spcval IEEE754_SPCVAL_NMAX) = (((-((2 - (2 : ℚ) ^ (-52 : ℤ)) * 2 ^ 1023) : ℚ) : WithTop ℚ) : WithBot (WithTop ℚ)) ∧
      dp_value (dp_spcval IEEE754_SPCVAL_PMIN) = ((((2 : ℚ) ^ (-1022 : ℤ) : ℚ) : WithTop ℚ) : WithBot (WithTop ℚ)) ∧
      dp_value (dp_spcval IEEE754_SPCVAL_NMIN) = (((-(2 : ℚ) ^ (-1022 : ℤ) : ℚ) : WithTop ℚ) : WithBot (WithTop ℚ)) ∧
      dp_value (dp_spcval IEEE754_SPCVAL_PMIND) = ((((2 : ℚ) ^ (-1074 : ℤ) : ℚ) : WithTop ℚ) : WithBot (WithTop ℚ)) ∧
      dp_value (dp_spcval IEEE754_SPCVAL_NMIND) = (((-(2 : ℚ) ^ (-1074 : ℤ) : ℚ) : WithTop ℚ) : WithBot (WithTop ℚ))) ∧
    (sp_spcval IEEE754_SPCVAL_PZERO = 0 ∧
      sp_spcval IEEE754_SPCVAL_NZERO = 2 ^ 31 ∧
      sp_value (sp_spcval IEEE754_SPCVAL_PZERO) = 0 ∧
      sp_value (sp_spcval IEEE754_SPCVAL_NZERO) = 0 ∧
      sp_value (sp_spcval IEEE754_SPCVAL_PONE) = 1 ∧
      sp_value (sp_spcval IEEE754_SPCVAL_NONE) = -1 ∧
      sp_value (sp_spcval IEEE754_SPCVAL_PTEN) = 10 ∧
      sp_value (sp_spcval IEEE754_SPCVAL_NTEN) = -10 ∧
      sp_spcval IEEE754_SPCVAL_PINFINITY = 255 * 2 ^ 23 ∧
      sp_spcval IEEE754_SPCVAL_NINFINITY = 2 ^ 31 + 255 * 2 ^ 23 ∧
      (EXPLODESP (sp_spcval IEEE754_SPCVAL_PINFINITY)).1 = INF ∧
      (EXPLODESP (sp_spcval IEEE754_SPCVAL_NINFINITY)).1 = INF ∧
      sp_value (sp_spcval IEEE754_SPCVAL_PMAX) = (2 - (2 : ℚ) ^ (-23 : ℤ)) * 2 ^ 127 ∧
      sp_value (sp_spcval IEEE754_SPCVAL_NMAX) = -((2 - (2 : ℚ) ^ (-23 : ℤ)) * 2 ^ 127) ∧
      sp_value (sp_spcval IEEE754_SPCVAL_PMIN) = (2 : ℚ) ^ (-126 : ℤ) ∧
      sp_value (sp_spcval IEEE754_SPCVAL_NMIN) = -(2 : ℚ) ^ (-126 : ℤ) ∧
      sp_value (sp_spcval IEEE754_SPCVAL_PMIND) = (2 : ℚ) ^ (-149 : ℤ) ∧
      sp_value (sp_spcval IEEE754_SPCVAL_NMIND) = -(2 : ℚ) ^ (-149 : ℤ)) ∧
    (__ieee754dp_spcvals.length = 17 ∧ __ieee754sp_spcvals.length = 17 ∧
      ∀ i, i < 17 → SPSIGN (sp_spcval i) = DPSIGN (dp_spcval i) ∧
        (EXPLODESP (sp_spcval i)).1 = (EXPLODEDP (dp_spcval i)).1) ∧
    ((∀ i, i < 17 →
        (DPSIGN (dp_spcval i), (DPBEXP (dp_spcval i) : Int), DPMANT (dp_spcval i)) =
          spcval_named DP_EBIAS DP_EMIN DP_EMAX DP_FBITS i ∧
        (SPSIGN (sp_spcval i), (SPBEXP (sp_spcval i) : Int), SPMANT (sp_spcval i)) =
          spcval_named SP_EBIAS SP_EMIN SP_EMAX SP_FBITS i ∧
        dp_spcval i < 2 ^ 64 ∧ sp_spcval i < 2 ^ 32) ∧
      ((List.range 17).map (spcval_named DP_EBIAS DP_EMIN DP_EMAX DP_FBITS)).Nodup ∧
      ((List.range 17).map (spcval_named SP_EBIAS SP_EMIN SP_EMAX SP_FBITS)).Nodup ∧
      __ieee754dp_spcvals =
        [0x0000000000000000, 0x8000000000000000, 0x3FF0000000000000, 0xBFF0000000000000,
         0x4024000000000000, 0xC024000000000000, 0x7FF0000000000000, 0xFFF0000000000000,
         0x7FF7FFFFFFFFFFFF, 0x7FEFFFFFFFFFFFFF, 0xFFEFFFFFFFFFFFFF, 0x0010000000000000,
         0x8010000000000000, 0x0000000000000001, 0x8000000000000001, 0x41E0000000000000,
         0x43E0000000000000] ∧
      __ieee754sp_spcvals =
        [0x00000000, 0x80000000, 0x3F800000, 0xBF800000, 0x41200000, 0xC1200000,
         0x7F800000, 0xFF800000, 0x7FBFFFFF, 0x7F7FFFFF, 0xFF7FFFFF, 0x00800000,
         0x80800000, 0x00000001, 0x80000001, 0x4F000000, 0x5F000000]) := by
  have dPZERO : dp_value (dp_spcval IEEE754_SPCVAL_PZERO) = ((dp_finite_value 0 0 0 : ℚ) : WithTop ℚ) :=
    dp_value_of_fields _ 0 0 0 (by decide) (by decide) (by decide) (by decide)
  have dNZERO : dp_value (dp_spcval IEEE754_SPCVAL_NZERO) = ((dp_finite_value 1 0 0 : ℚ) : WithTop ℚ) :=
    dp_value_of_fields _ 1 0 0 (by decide) (by decide) (by decide) (by decide)
  have dPONE : dp_value (dp_spcval IEEE754_SPCVAL_PONE) = ((dp_finite_value 0 1023 0 : ℚ) : WithTop ℚ) :=
    dp_value_of_fields _ 0 1023 0 (by decide) (by decide) (by decide) (by decide)
  have dNONE : dp_value (dp_spcval IEEE754_SPCVAL_NONE) = ((dp_finite_value 1 1023 0 : ℚ) : WithTop ℚ) :=
    dp_value_of_fields _ 1 1023 0 (by decide) (by decide) (by decide) (by decide)
  have dPTEN : dp_value (dp_spcval IEEE754_SPCVAL_PTEN) = ((dp_finite_value 0 1026 1125899906842624 : ℚ) : WithTop ℚ) :=
    dp_value_of_fields _ 0 1026 1125899906842624 (by decide) (by decide) (by decide) (by decide)
  have dNTEN : dp_value (dp_spcval IEEE754_SPCVAL_NTEN) = ((dp_finite_value 1 1026 1125899906842624 : ℚ) : WithTop ℚ) :=
    dp_value_of_fields _ 1 1026 1125899906842624 (by decide) (by decide) (by decide) (by decide)
  have dPMAX : dp_value (dp_spcval IEEE754_SPCVAL_PMAX) = ((dp_finite_value 0 2046 4503599627370495 : ℚ) : WithTop ℚ) :=
    dp_value_of_fields _ 0 2046 4503599627370495 (by decide) (by decide) (by decide) (by decide)
  have dNMAX : dp_value (dp_spcval IEEE754_SPCVAL_NMAX) = ((dp_finite_value 1 2046 4503599627370495 : ℚ) : WithTop ℚ) :=
    dp_value_of_fields _ 1 2046 4503599627370495 (by decide) (by decide) (by decide) (by decide)
  have dPMIN : dp_value (dp_spcval IEEE754_SPCVAL_PMIN) = ((dp_finite_value 0 1 0 : ℚ) : WithTop ℚ) :=
    dp_value_of_fields _ 0 1 0 (by decide) (by decide) (by decide) (by decide)
  have dNMIN : dp_value (dp_spcval IEEE754_SPCVAL_NMIN) = ((dp_finite_value 1 1 0 : ℚ) : WithTop ℚ) :=
    dp_value_of_fields _ 1 1 0 (by decide) (by decide) (by decide) (by decide)
  have dPMIND : dp_value (dp_spcval IEEE754_SPCVAL_PMIND) = ((dp_finite_value 0 0 1 : ℚ) : WithTop ℚ) :=
    dp_value_of_fields _ 0 0 1 (by decide) (by decide) (by decide) (by decide)
  have dNMIND : dp_value (dp_spcval IEEE754_SPCVAL_NMIND) = ((dp_finite_value 1 0 1 : ℚ) : WithTop ℚ) :=
    dp_value_of_fields _ 1 0 1 (by decide) (by decide) (by decide) (by decide)
  have sPZERO := sp_value_of_fields (sp_spcval IEEE754_SPCVAL_PZERO) 0 0 0 (by decide) (by decide) (by decide)
  have sNZERO := sp_value_of_fields (sp_spcval IEEE754_SPCVAL_NZERO) 1 0 0 (by decide) (by decide) (by decide)
  have sPONE := sp_value_of_fields (sp_spcval IEEE754_SPCVAL_PONE) 0 127 0 (by decide) (by decide) (by decide)
  have sNONE := sp_value_of_fields (sp_spcval IEEE754_SPCVAL_NONE) 1 127 0 (by decide) (by decide) (by decide)
  have sPTEN := sp_value_of_fields (sp_spcval IEEE754_SPCVAL_PTEN) 0 130 2097152 (by decide) (by decide) (by decide)
  have sNTEN := sp_value_of_fields (sp_spcval IEEE754_SPCVAL_NTEN) 1 130 2097152 (by decide) (by decide) (by decide)
  have sPMAX := sp_value_of_fields (sp_spcval IEEE754_SPCVAL_PMAX) 0 254 8388607 (by decide) (by decide) (by decide)
  have sNMAX := sp_value_of_fields (sp_spcval IEEE754_SPCVAL_NMAX) 1 254 8388607 (by decide) (by decide) (by decide)
  have sPMIN := sp_value_of_fields (sp_spcval IEEE754_SPCVAL_PMIN) 0 1 0 (by decide) (by decide) (by decide)
  have sNMIN := sp_value_of_fields (sp_spcval IEEE754_SPCVAL_NMIN) 1 1 0 (by decide) (by decide) (by decide)
  have sPMIND := sp_value_of_fields (sp_spcval IEEE754_SPCVAL_PMIND) 0 0 1 (by decide) (by decide) (by decide)
  have sNMIND := sp_value_of_fields (sp_spcval IEEE754_SPCVAL_NMIND) 1 0 1 (by decide) (by decide) (by decide)
  refine ⟨⟨by decide, by decide, ?_, ?_, ?_, ?_, ?_, ?_, by norm_num, by decide, by decide,
      ?_, ?_, ?_, ?_, ?_, ?_, ?_, ?_⟩,
    ⟨by decide, by decide, ?_, ?_, ?_, ?_, ?_, ?_, by decide, by decide, by decide, by decide,
      ?_, ?_, ?_, ?_, ?_, ?_⟩,
    ⟨by decide, by decide, by decide⟩,
    ⟨by decide, by decide, by decide, by decide, by decide⟩⟩
  · rw [dPZERO]; norm_num [dp_finite_value]
  · rw [dNZERO]; norm_num [dp_finite_value]
  · rw [dPONE]; norm_num [dp_finite_value]
  · rw [dNONE]; norm_num [dp_finite_value]
  · rw [dPTEN]; norm_num [dp_finite_value]
  · rw [dNTEN]; norm_num [dp_finite_value]
  · unfold dp_value
    rw [if_pos (by decide), if_neg (by decide)]
  · unfold dp_value
    rw [if_pos (by decide), if_pos (by decide)]
  · rw [dPMAX]; norm_num [dp_finite_value]
  · rw [dNMAX]; norm_num [dp_finite_value]
  · rw [dPMIN]; norm_num [dp_finite_value]
  · rw [dNMIN]; norm_num [dp_finite_value]
  · rw [dPMIND]; norm_num [dp_finite_value]
  · rw [dNMIND]; norm_num [dp_finite_value]
  · rw [sPZERO]; norm_num
  · rw [sNZERO]; norm_num
  · rw [sPONE]; norm_num
  · rw [sNONE]; norm_num
  · rw [sPTEN]; norm_num
  · rw [sNTEN]; norm_num
  · rw [sPMAX]; norm_num
  · rw [sNMAX]; norm_num
  · rw [sPMIN]; norm_num
  · rw [sNMIN]; norm_num
  · rw [sPMIND]; norm_num
  · rw [sNMIND]; norm_num

/-- C23: `ieee754dp_cmp` clears the pending flags at entry. For all non-NaN doubles `x`
and `y`, every mask and `sig` and every prior state of the exception context, no flag
is pending when it returns (so none of the five flags is, inexact included), and the
trap-enable mask and the record of trap entries are as before. -/
theorem C23_cmp_clears_flags (xcpt : ieee754xctx → ieee754xctx) (st : State) (x y cmp : Nat)
    (sig : Int) (_hx : x < 2 ^ 64) (_hy : y < 2 ^ 64)
    (nx : ieee754dp_isnan x = 0) (ny : ieee754dp_isnan y = 0) :
    (ieee754dp_cmp xcpt st x y cmp sig).1.cx = 0 ∧
    (ieee754dp_cmp xcpt st x y cmp sig).1.cx &&& IEEE754_INEXACT = 0 ∧
    (ieee754dp_cmp xcpt st x y cmp sig).1 = ieee754_clearcx st ∧
    (ieee754dp_cmp xcpt st x y cmp sig).1.mx = st.mx ∧
    (ieee754dp_cmp xcpt st x y cmp sig).1.entries = st.entries := by
  rw [cmp_ordered xcpt st x y cmp sig nx ny]
  refine ⟨rfl, ?_, rfl, rfl, rfl⟩
  show (0 : Nat) &&& IEEE754_INEXACT = 0
  decide

theorem C23_cmp_clears_flags_witness :
    (0x0000000000000001 < 2 ^ 64 ∧ 0xFFF0000000000000 < 2 ^ 64 ∧
      ieee754dp_isnan 0x0000000000000001 = 0 ∧ ieee754dp_isnan 0xFFF0000000000000 = 0) ∧
    ((ieee754dp_cmp id ⟨31, 31, [], []⟩ 0x0000000000000001 0xFFF0000000000000 15 1).1.cx = 0 ∧
    (ieee754dp_cmp id ⟨31, 31, [], []⟩ 0x0000000000000001 0xFFF0000000000000 15 1).1.cx &&&
      IEEE754_INEXACT = 0 ∧
    (ieee754dp_cmp id ⟨31, 31, [], []⟩ 0x0000000000000001 0xFFF0000000000000 15 1).1 =
      ieee754_clearcx ⟨31, 31, [], []⟩ ∧
    (ieee754dp_cmp id ⟨31, 31, [], []⟩ 0x0000000000000001 0xFFF0000000000000 15 1).1.mx =
      (⟨31, 31, [], []⟩ : State).mx ∧
    (ieee754dp_cmp id ⟨31, 31, [], []⟩ 0x0000000000000001 0xFFF0000000000000 15 1).1.entries =
      (⟨31, 31, [], []⟩ : State).entries) :=
  ⟨⟨by decide, by decide, by decide, by decide⟩,
    C23_cmp_clears_flags id ⟨31, 31, [], []⟩ 0x0000000000000001 0xFFF0000000000000 15 1
      (by decide) (by decide) (by decide) (by decide)⟩

/-- C25: sign-magnitude to two's-complement key. For every 64-bit pattern `b` with sign bit
`s` and magnitude `m = b mod 2^63`, the key `ieee754dp_cmp` computes is `m` when `s = 0`
and `-m` when `s = 1`; it lies in the `s64` range, and the key of `0x8000000000000000`
is 0. -/
theorem C25_cmp_key_sign_magnitude (b : Nat) (hb : b < 2 ^ 64) :
    cmp_key b = (if DPSIGN b = 0 then ((b % 2 ^ 63 : Nat) : Int)
      else -((b % 2 ^ 63 : Nat) : Int)) ∧
    (DPSIGN b = 0 ∨ DPSIGN b = 1) ∧ b = DPSIGN b * 2 ^ 63 + b % 2 ^ 63 ∧
    -2 ^ 63 < cmp_key b ∧ cmp_key b < 2 ^ 63 ∧
    cmp_key 0x8000000000000000 = 0 := by
  have hk := cmp_key_eq b hb
  have hs : DPSIGN b = b / 2 ^ 63 % 2 := rfl
  refine ⟨?_, by omega, by omega, ?_, ?_, by decide⟩
  · rw [hk]
    by_cases h : b < 2 ^ 63
    · rw [if_pos h, if_pos (by omega)]
      omega
    · rw [if_neg h, if_neg (by omega)]
      omega
  · rw [hk]
    split_ifs <;> omega
  · rw [hk]
    split_ifs <;> omega

theorem C25_cmp_key_sign_magnitude_witness :
    0xC024000000000000 < 2 ^ 64 ∧
    (cmp_key 0xC024000000000000 = (if DPSIGN 0xC024000000000000 = 0
        then ((0xC024000000000000 % 2 ^ 63 : Nat) : Int)
        else -((0xC024000000000000 % 2 ^ 63 : Nat) : Int)) ∧
    (DPSIGN 0xC024000000000000 = 0 ∨ DPSIGN 0xC024000000000000 = 1) ∧
    0xC024000000000000 = DPSIGN 0xC024000000000000 * 2 ^ 63 + 0xC024000000000000 % 2 ^ 63 ∧
    -2 ^ 63 < cmp_key 0xC024000000000000 ∧ cmp_key 0xC024000000000000 < 2 ^ 63 ∧
    cmp_key 0x8000000000000000 = 0) :=
  ⟨by decide, C25_cmp_key_sign_magnitude 0xC024000000000000 (by decide)⟩

/-- The masks with a single relation bit, tested against each relation bit. -/
theorem mask_bits :
    (IEEE754_CLT &&& IEEE754_CLT ≠ 0) ∧ ¬ (IEEE754_CLT &&& IEEE754_CEQ ≠ 0) ∧
    ¬ (IEEE754_CLT &&& IEEE754_CGT ≠ 0) ∧ ¬ (IEEE754_CEQ &&& IEEE754_CLT ≠ 0) ∧
    (IEEE754_CEQ &&& IEEE754_CEQ ≠ 0) ∧ ¬ (IEEE754_CEQ &&& IEEE754_CGT ≠ 0) ∧
    ¬ (IEEE754_CGT &&& IEEE754_CLT ≠ 0) ∧ ¬ (IEEE754_CGT &&& IEEE754_CEQ ≠ 0) ∧
    (IEEE754_CGT &&& IEEE754_CGT ≠ 0) ∧ ¬ (IEEE754_CUN &&& IEEE754_CLT ≠ 0) ∧
    ¬ (IEEE754_CUN &&& IEEE754_CEQ ≠ 0) ∧ ¬ (IEEE754_CUN &&& IEEE754_CGT ≠ 0) := by
  decide

/-- On non-NaN operands mask CLT returns 1 exactly when the first key is the smaller. -/
theorem cmp_lt_iff (xcpt : ieee754xctx → ieee754xctx) (st : State) (x y : Nat) (sig : Int)
    (nx : ieee754dp_isnan x = 0) (ny : ieee754dp_isnan y = 0) :
    (ieee754dp_cmp xcpt st x y IEEE754_CLT sig).2 = 1 ↔ cmp_key x < cmp_key y := by
  obtain ⟨c1, c2, c3, _⟩ := mask_bits
  rw [cmp_ordered_result xcpt st x y _ sig nx ny, if_pos c1, if_neg c2, if_neg c3]
  split_ifs <;> simp_all

/-- On non-NaN operands mask CEQ returns 1 exactly when the keys are equal. -/
theorem cmp_eq_iff (xcpt : ieee754xctx → ieee754xctx) (st : State) (x y : Nat) (sig : Int)
    (nx : ieee754dp_isnan x = 0) (ny : ieee754dp_isnan y = 0) :
    (ieee754dp_cmp xcpt st x y IEEE754_CEQ sig).2 = 1 ↔ cmp_key x = cmp_key y := by
  obtain ⟨_, _, _, c4, c5, c6, _⟩ := mask_bits
  rw [cmp_ordered_result xcpt st x y _ sig nx ny, if_neg c4, if_pos c5, if_neg c6]
  split_ifs with h1 h2
  · simp
    omega
  · simp [h2]
  · simp [h2]

/-- On non-NaN operands mask CGT returns 1 exactly when the first key is the larger. -/
theorem cmp_gt_iff (xcpt : ieee754xctx → ieee754xctx) (st : State) (x y : Nat) (sig : Int)
    (nx : ieee754dp_isnan x = 0) (ny : ieee754dp_isnan y = 0) :
    (ieee754dp_cmp xcpt st x y IEEE754_CGT sig).2 = 1 ↔ cmp_key y < cmp_key x := by
  obtain ⟨_, _, _, _, _, _, c7, c8, c9, _⟩ := mask_bits
  rw [cmp_ordered_result xcpt st x y _ sig nx ny, if_neg c7, if_neg c8, if_pos c9]
  split_ifs with h1 h2
  · simp
    omega
  · simp
    omega
  · simp
    omega

/-- On non-NaN operands every result is 0 or 1. -/
theorem cmp_result_bool (xcpt : ieee754xctx → ieee754xctx) (st : State) (x y cmp : Nat)
    (sig : Int) (nx : ieee754dp_isnan x = 0) (ny : ieee754dp_isnan y = 0) :
    (ieee754dp_cmp xcpt st x y cmp sig).2 = 0 ∨ (ieee754dp_cmp xcpt st x y cmp sig).2 = 1 := by
  rw [cmp_ordered_result xcpt st x y cmp sig nx ny]
  split_ifs <;> simp

/-- On non-NaN operands mask CLT|CEQ returns 1 exactly when the first key is not the
larger. -/
theorem cmp_le_iff (xcpt : ieee754xctx → ieee754xctx) (st : State) (x y : Nat) (sig : Int)
    (nx : ieee754dp_isnan x = 0) (ny : ieee754dp_isnan y = 0) :
    (ieee754dp_cmp xcpt st x y (IEEE754_CLT ||| IEEE754_CEQ) sig).2 = 1 ↔
      cmp_key x ≤ cmp_key y := by
  have c1 : (IEEE754_CLT ||| IEEE754_CEQ) &&& IEEE754_CLT ≠ 0 := by decide
  have c2 : (IEEE754_CLT ||| IEEE754_CEQ) &&& IEEE754_CEQ ≠ 0 := by decide
  have c3 : ¬ ((IEEE754_CLT ||| IEEE754_CEQ) &&& IEEE754_CGT ≠ 0) := by decide
  rw [cmp_ordered_result xcpt st x y _ sig nx ny, if_pos c1, if_pos c2, if_neg c3]
  split_ifs with h1 h2
  · simp
    omega
  · simp [h2]
  · simp
    omega

/-- C26: trichotomy. For all non-NaN doubles `x` and `y` and every `sig`, exactly one of the
comparisons under IEEE754_CLT, IEEE754_CEQ and IEEE754_CGT returns 1 and the other two
return 0, the comparison under IEEE754_CUN returns 0, and under every mask the result is
0 or 1. -/
theorem C26_cmp_trichotomy (xcpt : ieee754xctx → ieee754xctx) (st : State) (x y cmp : Nat)
    (sig : Int) (_hx : x < 2 ^ 64) (_hy : y < 2 ^ 64)
    (nx : ieee754dp_isnan x = 0) (ny : ieee754dp_isnan y = 0) :
    (((ieee754dp_cmp xcpt st x y IEEE754_CLT sig).2 = 1 ∧
        (ieee754dp_cmp xcpt st x y IEEE754_CEQ sig).2 = 0 ∧
        (ieee754dp_cmp xcpt st x y IEEE754_CGT sig).2 = 0) ∨
      ((ieee754dp_cmp xcpt st x y IEEE754_CLT sig).2 = 0 ∧
        (ieee754dp_cmp xcpt st x y IEEE754_CEQ sig).2 = 1 ∧
        (ieee754dp_cmp xcpt st x y IEEE754_CGT sig).2 = 0) ∨
      ((ieee754dp_cmp xcpt st x y IEEE754_CLT sig).2 = 0 ∧
        (ieee754dp_cmp xcpt st x y IEEE754_CEQ sig).2 = 0 ∧
        (ieee754dp_cmp xcpt st x y IEEE754_CGT sig).2 = 1)) ∧
    (ieee754dp_cmp xcpt st x y IEEE754_CUN sig).2 = 0 ∧
    ((ieee754dp_cmp xcpt st x y cmp sig).2 = 0 ∨
      (ieee754dp_cmp xcpt st x y cmp sig).2 = 1) := by
  obtain ⟨c1, c2, c3, c4, c5, c6, c7, c8, c9, c10, c11, c12⟩ := mask_bits
  refine ⟨?_, ?_, cmp_result_bool xcpt st x y cmp sig nx ny⟩
  · rw [cmp_ordered_result xcpt st x y IEEE754_CLT sig nx ny,
      cmp_ordered_result xcpt st x y IEEE754_CEQ sig nx ny,
      cmp_ordered_result xcpt st x y IEEE754_CGT sig nx ny,
      if_pos c1, if_neg c2, if_neg c3, if_neg c4, if_pos c5, if_neg c6, if_neg c7, if_neg c8,
      if_pos c9]
    by_cases h1 : cmp_key x < cmp_key y
    · exact Or.inl ⟨if_pos h1, if_pos h1, if_pos h1⟩
    · by_cases h2 : cmp_key x = cmp_key y
      · exact Or.inr (Or.inl ⟨(if_neg h1).trans (if_pos h2), (if_neg h1).trans (if_pos h2),
          (if_neg h1).trans (if_pos h2)⟩)
      · exact Or.inr (Or.inr ⟨(if_neg h1).trans (if_neg h2), (if_neg h1).trans (if_neg h2),
          (if_neg h1).trans (if_neg h2)⟩)
  · rw [cmp_ordered_result xcpt st x y IEEE754_CUN sig nx ny, if_neg c10, if_neg c11,
      if_neg c12]
    split_ifs <;> rfl

theorem C26_cmp_trichotomy_witness :
    (0x3FF0000000000000 < 2 ^ 64 ∧ 0xBFF0000000000000 < 2 ^ 64 ∧
      ieee754dp_isnan 0x3FF0000000000000 = 0 ∧ ieee754dp_isnan 0xBFF0000000000000 = 0) ∧
    ((((ieee754dp_cmp id ⟨0, 0, [], []⟩ 0x3FF0000000000000 0xBFF0000000000000
            IEEE754_CLT 1).2 = 1 ∧
        (ieee754dp_cmp id ⟨0, 0, [], []⟩ 0x3FF0000000000000 0xBFF0000000000000
            IEEE754_CEQ 1).2 = 0 ∧
        (ieee754dp_cmp id ⟨0, 0, [], []⟩ 0x3FF0000000000000 0xBFF0000000000000
            IEEE754_CGT 1).2 = 0) ∨
      ((ieee754dp_cmp id ⟨0, 0, [], []⟩ 0x3FF0000000000000 0xBFF0000000000000
            IEEE754_CLT 1).2 = 0 ∧
        (ieee754dp_cmp id ⟨0, 0, [], []⟩ 0x3FF0000000000000 0xBFF0000000000000
            IEEE754_CEQ 1).2 = 1 ∧
        (ieee754dp_cmp id ⟨0, 0, [], []⟩ 0x3FF0000000000000 0xBFF0000000000000
            IEEE754_CGT 1).2 = 0) ∨
      ((ieee754dp_cmp id ⟨0, 0, [], []⟩ 0x3FF0000000000000 0xBFF0000000000000
            IEEE754_CLT 1).2 = 0 ∧
        (ieee754dp_cmp id ⟨0, 0, [], []⟩ 0x3FF0000000000000 0xBFF0000000000000
            IEEE754_CEQ 1).2 = 0 ∧
        (ieee754dp_cmp id ⟨0, 0, [], []⟩ 0x3FF0000000000000 0xBFF0000000000000
            IEEE754_CGT 1).2 = 1)) ∧
    (ieee754dp_cmp id ⟨0, 0, [], []⟩ 0x3FF0000000000000 0xBFF0000000000000
        IEEE754_CUN 1).2 = 0 ∧
    ((ieee754dp_cmp id ⟨0, 0, [], []⟩ 0x3FF0000000000000 0xBFF0000000000000 7 1).2 = 0 ∨
      (ieee754dp_cmp id ⟨0, 0, [], []⟩ 0x3FF0000000000000 0xBFF0000000000000 7 1).2 = 1)) :=
  ⟨⟨by decide, by decide, by decide, by decide⟩,
    C26_cmp_trichotomy id ⟨0, 0, [], []⟩ 0x3FF0000000000000 0xBFF0000000000000 7 1
      (by decide) (by decide) (by decide) (by decide)⟩

/-- C27: comparison is a total preorder on non-NaN patterns. For all non-NaN doubles `x`,
`y`, `z`: less-than (mask CLT) is transitive; equality (mask CEQ) is transitive and
symmetric; less-or-equal (mask CLT|CEQ) is reflexive, transitive and total. Each mask
tests the order of the integer keys. -/
theorem C27_cmp_total_preorder (xcpt : ieee754xctx → ieee754xctx) (st : State) (x y z : Nat)
    (_hx : x < 2 ^ 64) (_hy : y < 2 ^ 64) (_hz : z < 2 ^ 64)
    (nx : ieee754dp_isnan x = 0) (ny : ieee754dp_isnan y = 0) (nz : ieee754dp_isnan z = 0) :
    ((ieee754dp_cmp xcpt st x y IEEE754_CLT 0).2 = 1 →
      (ieee754dp_cmp xcpt st y z IEEE754_CLT 0).2 = 1 →
      (ieee754dp_cmp xcpt st x z IEEE754_CLT 0).2 = 1) ∧
    ((ieee754dp_cmp xcpt st x y IEEE754_CEQ 0).2 = 1 →
      (ieee754dp_cmp xcpt st y z IEEE754_CEQ 0).2 = 1 →
      (ieee754dp_cmp xcpt st x z IEEE754_CEQ 0).2 = 1) ∧
    ((ieee754dp_cmp xcpt st x y IEEE754_CEQ 0).2 = 1 →
      (ieee754dp_cmp xcpt st y x IEEE754_CEQ 0).2 = 1) ∧
    (ieee754dp_cmp xcpt st x x (IEEE754_CLT ||| IEEE754_CEQ) 0).2 = 1 ∧
    ((ieee754dp_cmp xcpt st x y (IEEE754_CLT ||| IEEE754_CEQ) 0).2 = 1 →
      (ieee754dp_cmp xcpt st y z (IEEE754_CLT ||| IEEE754_CEQ) 0).2 = 1 →
      (ieee754dp_cmp xcpt st x z (IEEE754_CLT ||| IEEE754_CEQ) 0).2 = 1) ∧
    ((ieee754dp_cmp xcpt st x y (IEEE754_CLT ||| IEEE754_CEQ) 0).2 = 1 ∨
      (ieee754dp_cmp xcpt st y x (IEEE754_CLT ||| IEEE754_CEQ) 0).2 = 1) ∧
    ((ieee754dp_cmp xcpt st x y IEEE754_CLT 0).2 = 1 ↔ cmp_key x < cmp_key y) ∧
    ((ieee754dp_cmp xcpt st x y IEEE754_CEQ 0).2 = 1 ↔ cmp_key x = cmp_key y) ∧
    ((ieee754dp_cmp xcpt st x y (IEEE754_CLT ||| IEEE754_CEQ) 0).2 = 1 ↔
      cmp_key x ≤ cmp_key y) := by
  rw [cmp_lt_iff xcpt st x y 0 nx ny, cmp_lt_iff xcpt st y z 0 ny nz,
    cmp_lt_iff xcpt st x z 0 nx nz, cmp_eq_iff xcpt st x y 0 nx ny,
    cmp_eq_iff xcpt st y z 0 ny nz, cmp_eq_iff xcpt st x z 0 nx nz,
    cmp_eq_iff xcpt st y x 0 ny nx, cmp_le_iff xcpt st x x 0 nx nx,
    cmp_le_iff xcpt st x y 0 nx ny, cmp_le_iff xcpt st y z 0 ny nz,
    cmp_le_iff xcpt st x z 0 nx nz, cmp_le_iff xcpt st y x 0 ny nx]
  refine ⟨fun h1 h2 => lt_trans h1 h2, fun h1 h2 => h1.trans h2, fun h => h.symm, le_rfl,
    fun h1 h2 => le_trans h1 h2, le_total _ _, Iff.rfl, Iff.rfl, Iff.rfl⟩

theorem C27_cmp_total_preorder_witness :
    ((ieee754dp_isnan 0xBFF0000000000000 = 0 ∧ ieee754dp_isnan 0x0000000000000000 = 0 ∧
        ieee754dp_isnan 0x3FF0000000000000 = 0 ∧ ieee754dp_isnan 0x8000000000000000 = 0) ∧
      ((ieee754dp_cmp id ⟨0, 0, [], []⟩ 0xBFF0000000000000 0x0000000000000000
          IEEE754_CLT 0).2 = 1 ∧
        (ieee754dp_cmp id ⟨0, 0, [], []⟩ 0x0000000000000000 0x3FF0000000000000
          IEEE754_CLT 0).2 = 1) ∧
      ((ieee754dp_cmp id ⟨0, 0, [], []⟩ 0x0000000000000000 0x8000000000000000
          IEEE754_CEQ 0).2 = 1 ∧
        (ieee754dp_cmp id ⟨0, 0, [], []⟩ 0x8000000000000000 0x0000000000000000
          IEEE754_CEQ 0).2 = 1)) ∧
    (((ieee754dp_cmp id ⟨0, 0, [], []⟩ 0xBFF0000000000000 0x0000000000000000 IEEE754_CLT 0).2 = 1 →
      (ieee754dp_cmp id ⟨0, 0, [], []⟩ 0x0000000000000000 0x3FF0000000000000 IEEE754_CLT 0).2 = 1 →
      (ieee754dp_cmp id ⟨0, 0, [], []⟩ 0xBFF0000000000000 0x3FF0000000000000 IEEE754_CLT 0).2 = 1) ∧
    ((ieee754dp_cmp id ⟨0, 0, [], []⟩ 0xBFF0000000000000 0x0000000000000000 IEEE754_CEQ 0).2 = 1 →
      (ieee754dp_cmp id ⟨0, 0, [], []⟩ 0x0000000000000000 0x3FF0000000000000 IEEE754_CEQ 0).2 = 1 →
      (ieee754dp_cmp id ⟨0, 0, [], []⟩ 0xBFF0000000000000 0x3FF0000000000000 IEEE754_CEQ 0).2 = 1) ∧
    ((ieee754dp_cmp id ⟨0, 0, [], []⟩ 0xBFF0000000000000 0x0000000000000000 IEEE754_CEQ 0).2 = 1 →
      (ieee754dp_cmp id ⟨0, 0, [], []⟩ 0x0000000000000000 0xBFF0000000000000 IEEE754_CEQ 0).2 = 1) ∧
    (ieee754dp_cmp id ⟨0, 0, [], []⟩ 0xBFF0000000000000 0xBFF0000000000000 (IEEE754_CLT ||| IEEE754_CEQ) 0).2 = 1 ∧
    ((ieee754dp_cmp id ⟨0, 0, [], []⟩ 0xBFF0000000000000 0x0000000000000000 (IEEE754_CLT ||| IEEE754_CEQ) 0).2 = 1 →
      (ieee754dp_cmp id ⟨0, 0, [], []⟩ 0x0000000000000000 0x3FF0000000000000 (IEEE754_CLT ||| IEEE754_CEQ) 0).2 = 1 →
      (ieee754dp_cmp id ⟨0, 0, [], []⟩ 0xBFF0000000000000 0x3FF0000000000000 (IEEE754_CLT ||| IEEE754_CEQ) 0).2 = 1) ∧
    ((ieee754dp_cmp id ⟨0, 0, [], []⟩ 0xBFF0000000000000 0x0000000000000000 (IEEE754_CLT ||| IEEE754_CEQ) 0).2 = 1 ∨
      (ieee754dp_cmp id ⟨0, 0, [], []⟩ 0x0000000000000000 0xBFF0000000000000 (IEEE754_CLT ||| IEEE754_CEQ) 0).2 = 1) ∧
    ((ieee754dp_cmp id ⟨0, 0, [], []⟩ 0xBFF0000000000000 0x0000000000000000 IEEE754_CLT 0).2 = 1 ↔ cmp_key 0xBFF0000000000000 < cmp_key 0x0000000000000000) ∧
    ((ieee754dp_cmp id ⟨0, 0, [], []⟩ 0xBFF0000000000000 0x0000000000000000 IEEE754_CEQ 0).2 = 1 ↔ cmp_key 0xBFF0000000000000 = cmp_key 0x0000000000000000) ∧
    ((ieee754dp_cmp id ⟨0, 0, [], []⟩ 0xBFF0000000000000 0x0000000000000000 (IEEE754_CLT ||| IEEE754_CEQ) 0).2 = 1 ↔
      cmp_key 0xBFF0000000000000 ≤ cmp_key 0x0000000000000000)) ∧
    (((ieee754dp_cmp id ⟨0, 0, [], []⟩ 0x0000000000000000 0x8000000000000000 IEEE754_CLT 0).2 = 1 →
      (ieee754dp_cmp id ⟨0, 0, [], []⟩ 0x8000000000000000 0x0000000000000000 IEEE754_CLT 0).2 = 1 →
      (ieee754dp_cmp id ⟨0, 0, [], []⟩ 0x0000000000000000 0x0000000000000000 IEEE754_CLT 0).2 = 1) ∧
    ((ieee754dp_cmp id ⟨0, 0, [], []⟩ 0x0000000000000000 0x8000000000000000 IEEE754_CEQ 0).2 = 1 →
      (ieee754dp_cmp id ⟨0, 0, [], []⟩ 0x8000000000000000 0x0000000000000000 IEEE754_CEQ 0).2 = 1 →
      (ieee754dp_cmp id ⟨0, 0, [], []⟩ 0x0000000000000000 0x0000000000000000 IEEE754_CEQ 0).2 = 1) ∧
    ((ieee754dp_cmp id ⟨0, 0, [], []⟩ 0x0000000000000000 0x8000000000000000 IEEE754_CEQ 0).2 = 1 →
      (ieee754dp_cmp id ⟨0, 0, [], []⟩ 0x8000000000000000 0x0000000000000000 IEEE754_CEQ 0).2 = 1) ∧
    (ieee754dp_cmp id ⟨0, 0, [], []⟩ 0x0000000000000000 0x0000000000000000 (IEEE754_CLT ||| IEEE754_CEQ) 0).2 = 1 ∧
    ((ieee754dp_cmp id ⟨0, 0, [], []⟩ 0x0000000000000000 0x8000000000000000 (IEEE754_CLT ||| IEEE754_CEQ) 0).2 = 1 →
      (ieee754dp_cmp id ⟨0, 0, [], []⟩ 0x8000000000000000 0x0000000000000000 (IEEE754_CLT ||| IEEE754_CEQ) 0).2 = 1 →
      (ieee754dp_cmp id ⟨0, 0, [], []⟩ 0x0000000000000000 0x0000000000000000 (IEEE754_CLT ||| IEEE754_CEQ) 0).2 = 1) ∧
    ((ieee754dp_cmp id ⟨0, 0, [], []⟩ 0x0000000000000000 0x8000000000000000 (IEEE754_CLT ||| IEEE754_CEQ) 0).2 = 1 ∨
      (ieee754dp_cmp id ⟨0, 0, [], []⟩ 0x8000000000000000 0x0000000000000000 (IEEE754_CLT ||| IEEE754_CEQ) 0).2 = 1) ∧
    ((ieee754dp_cmp id ⟨0, 0, [], []⟩ 0x0000000000000000 0x8000000000000000 IEEE754_CLT 0).2 = 1 ↔ cmp_key 0x0000000000000000 < cmp_key 0x8000000000000000) ∧
    ((ieee754dp_cmp id ⟨0, 0, [], []⟩ 0x0000000000000000 0x8000000000000000 IEEE754_CEQ 0).2 = 1 ↔ cmp_key 0x0000000000000000 = cmp_key 0x8000000000000000) ∧
    ((ieee754dp_cmp id ⟨0, 0, [], []⟩ 0x0000000000000000 0x8000000000000000 (IEEE754_CLT ||| IEEE754_CEQ) 0).2 = 1 ↔
      cmp_key 0x0000000000000000 ≤ cmp_key 0x8000000000000000)) :=
  ⟨⟨⟨by decide, by decide, by decide, by decide⟩, ⟨by decide, by decide⟩,
      ⟨by decide, by decide⟩⟩,
    C27_cmp_total_preorder id ⟨0, 0, [], []⟩ 0xBFF0000000000000 0x0000000000000000
      0x3FF0000000000000 (by decide) (by decide) (by decide) (by decide) (by decide)
      (by decide),
    C27_cmp_total_preorder id ⟨0, 0, [], []⟩ 0x0000000000000000 0x8000000000000000
      0x0000000000000000 (by decide) (by decide) (by decide) (by decide) (by decide)
      (by decide)⟩

/-- C28: equality characterisation. For all non-NaN doubles `x` and `y`,
`ieee754dp_cmp(x, y, IEEE754_CEQ, 0)` returns 1 iff `x` and `y` have identical bits or
both are zeros (their low 63 bits are all zero); two distinct patterns of which one is
not a zero compare unequal. -/
theorem C28_cmp_eq_characterisation (xcpt : ieee754xctx → ieee754xctx) (st : State)
    (x y : Nat) (hx : x < 2 ^ 64) (hy : y < 2 ^ 64)
    (nx : ieee754dp_isnan x = 0) (ny : ieee754dp_isnan y = 0) :
    ((ieee754dp_cmp xcpt st x y IEEE754_CEQ 0).2 = 1 ↔
      (x = y ∨ (x % 2 ^ 63 = 0 ∧ y % 2 ^ 63 = 0))) ∧
    ((ieee754dp_cmp xcpt st x y IEEE754_CEQ 0).2 = 0 ↔
      (x ≠ y ∧ (x % 2 ^ 63 ≠ 0 ∨ y % 2 ^ 63 ≠ 0))) := by
  have hb := cmp_result_bool xcpt st x y IEEE754_CEQ 0 nx ny
  have hiff : (ieee754dp_cmp xcpt st x y IEEE754_CEQ 0).2 = 1 ↔
      (x = y ∨ (x % 2 ^ 63 = 0 ∧ y % 2 ^ 63 = 0)) := by
    rw [cmp_eq_iff xcpt st x y 0 nx ny, cmp_key_eq x hx, cmp_key_eq y hy]
    split_ifs <;> omega
  refine ⟨hiff, ?_⟩
  constructor
  · intro h0
    have hne : ¬ (x = y ∨ (x % 2 ^ 63 = 0 ∧ y % 2 ^ 63 = 0)) := by
      intro h
      have := hiff.mpr h
      omega
    omega
  · intro h
    have hne : ¬ (ieee754dp_cmp xcpt st x y IEEE754_CEQ 0).2 = 1 := by
      intro h1
      have := hiff.mp h1
      omega
    omega

theorem C28_cmp_eq_characterisation_witness :
    (0x8000000000000000 < 2 ^ 64 ∧ 0x0000000000000000 < 2 ^ 64 ∧
      ieee754dp_isnan 0x8000000000000000 = 0 ∧ ieee754dp_isnan 0x0000000000000000 = 0) ∧
    (((ieee754dp_cmp id ⟨0, 0, [], []⟩ 0x8000000000000000 0x0000000000000000
          IEEE754_CEQ 0).2 = 1 ↔
      (0x8000000000000000 = 0x0000000000000000 ∨
        (0x8000000000000000 % 2 ^ 63 = 0 ∧ 0x0000000000000000 % 2 ^ 63 = 0))) ∧
    ((ieee754dp_cmp id ⟨0, 0, [], []⟩ 0x8000000000000000 0x0000000000000000
          IEEE754_CEQ 0).2 = 0 ↔
      (0x8000000000000000 ≠ 0x0000000000000000 ∧
        (0x8000000000000000 % 2 ^ 63 ≠ 0 ∨ 0x0000000000000000 % 2 ^ 63 ≠ 0)))) :=
  ⟨⟨by decide, by decide, by decide, by decide⟩,
    C28_cmp_eq_characterisation id ⟨0, 0, [], []⟩ 0x8000000000000000 0x0000000000000000
      (by decide) (by decide) (by decide) (by decide)⟩

theorem dnorm_facts (a k : Nat) (hs : a < 2 ^ 23) (hlo : 2 ^ 23 ≤ a * 2 ^ k) :
    1 ≤ a ∧ 1 ≤ k := by
  constructor
  · rcases Nat.eq_zero_or_pos a with h0 | h0
    · subst h0
      simp at hlo
    · exact h0
  · rcases Nat.eq_zero_or_pos k with h0 | h0
    · subst h0
      simp at hlo
      omega
    · exact h0

/-- The four cases of `widen_rel` as ranges of the two magnitudes. -/
theorem widen_rel_bounds (a D : Nat) (h : widen_rel a D) :
    (a = 0 ∧ D = 0) ∨
    (1 ≤ a ∧ a < 2 ^ 23 ∧ 874 * 2 ^ 52 ≤ D ∧ D < 897 * 2 ^ 52) ∨
    (2 ^ 23 ≤ a ∧ a < 255 * 2 ^ 23 ∧ D = a * 2 ^ 29 + 896 * 2 ^ 52) ∨
    (a = 255 * 2 ^ 23 ∧ D = 2047 * 2 ^ 52) := by
  rcases h with h | ⟨k, hk, hs, hlo, hhi, hD⟩ | h | h
  · exact Or.inl h
  · obtain ⟨f1, f2⟩ := dnorm_facts a k hs hlo
    exact Or.inr (Or.inl ⟨f1, hs, by omega, by omega⟩)
  · exact Or.inr (Or.inr (Or.inl h))
  · exact Or.inr (Or.inr (Or.inr h))

theorem widen_rel_mono (a1 D1 a2 D2 : Nat) (h1 : widen_rel a1 D1) (h2 : widen_rel a2 D2)
    (hlt : a1 < a2) : D1 < D2 := by
  have b1 := widen_rel_bounds a1 D1 h1
  have b2 := widen_rel_bounds a2 D2 h2
  by_cases hd : a1 < 2 ^ 23 ∧ 1 ≤ a1 ∧ a2 < 2 ^ 23
  · rcases h1 with h | ⟨k1, hk1, hs1, hlo1, hhi1, hD1⟩ | h | h
    · omega
    · rcases h2 with h | ⟨k2, hk2, hs2, hlo2, hhi2, hD2⟩ | h | h
      · omega
      · have hk : k2 ≤ k1 := by
          by_contra hc
          have hp : 2 ^ (k1 + 1) ≤ 2 ^ k2 := Nat.pow_le_pow_right (by norm_num) (by omega)
          have hm : a2 * 2 ^ (k1 + 1) ≤ a2 * 2 ^ k2 := Nat.mul_le_mul_left a2 hp
          have e : a2 * 2 ^ (k1 + 1) = a2 * 2 ^ k1 * 2 := by ring
          have hmul : a1 * 2 ^ k1 ≤ a2 * 2 ^ k1 := Nat.mul_le_mul_right _ (by omega)
          omega
        rcases Nat.eq_or_lt_of_le hk with he | hl
        · subst he
          have hmul : a1 * 2 ^ k2 < a2 * 2 ^ k2 :=
            Nat.mul_lt_mul_of_pos_right hlt (Nat.two_pow_pos _)
          omega
        · omega
      · omega
      · omega
    · omega
    · omega
  · omega

theorem widen_rel_fun (a D1 D2 : Nat) (h1 : widen_rel a D1) (h2 : widen_rel a D2) :
    D1 = D2 := by
  have b1 := widen_rel_bounds a D1 h1
  have b2 := widen_rel_bounds a D2 h2
  by_cases hd : a < 2 ^ 23 ∧ 1 ≤ a
  · rcases h1 with h | ⟨k1, hk1, hs1, hlo1, hhi1, hD1⟩ | h | h
    · omega
    · rcases h2 with h | ⟨k2, hk2, hs2, hlo2, hhi2, hD2⟩ | h | h
      · omega
      · have hk : k1 = k2 := shift_count_unique a k1 k2 hlo1 hhi1 hlo2 hhi2
        subst hk
        omega
      · omega
      · omega
    · omega
    · omega
  · omega

theorem widen_rel_lt_iff (a1 D1 a2 D2 : Nat) (h1 : widen_rel a1 D1) (h2 : widen_rel a2 D2) :
    (a1 < a2 ↔ D1 < D2) ∧ (a1 = a2 ↔ D1 = D2) := by
  have m12 := widen_rel_mono a1 D1 a2 D2 h1 h2
  have m21 := widen_rel_mono a2 D2 a1 D1 h2 h1
  have f : a1 = a2 → D1 = D2 := by
    intro h
    subst h
    exact widen_rel_fun a1 D1 D2 h1 h2
  constructor
  · constructor
    · exact m12
    · intro h
      by_contra hc
      rcases Nat.eq_or_lt_of_le (Nat.le_of_not_lt hc) with he | hl
      · have := f he.symm
        omega
      · have := m21 hl
        omega
  · constructor
    · exact f
    · intro h
      by_contra hc
      rcases Nat.lt_or_gt_of_ne hc with hl | hl
      · have := m12 hl
        omega
      · have := m21 hl
        omega

theorem widen_rel_zero_iff (a D : Nat) (h : widen_rel a D) : a = 0 ↔ D = 0 := by
  have b := widen_rel_bounds a D h
  omega

theorem EXPLODESP_sign (x : Nat) : (EXPLODESP x).2.1 = (SPSIGN x : Int) := by
  rw [EXPLODESP_eq]
  split_ifs <;> rfl

/-- What `ieee754dp_fsp` returns on a Zero single. -/
theorem fsp_zero (xcpt : ieee754xctx → ieee754xctx) (st : State) (x : Nat)
    (hc : (EXPLODESP x).1 = ZERO) :
    ieee754dp_fsp xcpt st x = some (ieee754_clearcx st, SPSIGN x * 2 ^ 63) := by
  have hs : SPSIGN x = 0 ∨ SPSIGN x = 1 := by
    have := (sp_fields x).2.2
    omega
  unfold ieee754dp_fsp FLUSHXSP
  simp only [hc, EXPLODESP_sign]
  rcases hs with h | h <;> rw [h] <;> rfl

/-- What `ieee754dp_fsp` returns on an Infinity single. -/
theorem fsp_inf (xcpt : ieee754xctx → ieee754xctx) (st : State) (x : Nat)
    (hc : (EXPLODESP x).1 = INF) :
    ieee754dp_fsp xcpt st x =
      some (ieee754_clearcx st, SPSIGN x * 2 ^ 63 + 2047 * 2 ^ 52) := by
  have hs : SPSIGN x = 0 ∨ SPSIGN x = 1 := by
    have := (sp_fields x).2.2
    omega
  unfold ieee754dp_fsp FLUSHXSP
  simp only [hc, EXPLODESP_sign]
  rcases hs with h | h <;> rw [h] <;> rfl

/-- The Denormal case of `ieee754dp_fsp`, with one shift count for every handler and
state. -/
theorem fsp_dnorm_all (x : Nat) (he0 : SPBEXP x = 0) (hm0 : SPMANT x ≠ 0) :
    ∃ k, k ≤ 23 ∧ 2 ^ 23 ≤ SPMANT x * 2 ^ k ∧ SPMANT x * 2 ^ k < 2 ^ 24 ∧
      ∀ (xcpt : ieee754xctx → ieee754xctx) (st : State),
        ieee754dp_fsp xcpt st x = some (ieee754_clearcx st,
          builddp (SPSIGN x : Int) ((897 - k : Nat) : Int)
            ((SPMANT x * 2 ^ k - 2 ^ 23) * 2 ^ 29)) := by
  obtain ⟨k, hk, hlo, hhi, _⟩ := fsp_dnorm id ⟨0, 0, [], []⟩ x he0 hm0
  refine ⟨k, hk, hlo, hhi, fun xcpt st => ?_⟩
  obtain ⟨j, _, hloj, hhij, hrun⟩ := fsp_dnorm xcpt st x he0 hm0
  have hjk : j = k := shift_count_unique (SPMANT x) j k hloj hhij hlo hhi
  subst hjk
  exact hrun

theorem sp_magnitude (x : Nat) : x % 2 ^ 31 = SPBEXP x * 2 ^ 23 + SPMANT x := by
  unfold SPBEXP SPMANT
  omega

/-- The widened double of a non-NaN single: it is returned right after the context is
cleared, is not a NaN, keeps the sign, and its magnitude is tied to the magnitude of
the single by `widen_rel`. -/
theorem fsp_nonnan (x : Nat)
    (n1 : (EXPLODESP x).1 ≠ SNAN) (n2 : (EXPLODESP x).1 ≠ QNAN) :
    ∃ d, (∀ (xcpt : ieee754xctx → ieee754xctx) (st : State),
        ieee754dp_fsp xcpt st x = some (ieee754_clearcx st, d)) ∧ d < 2 ^ 64 ∧
      ieee754dp_isnan d = 0 ∧ DPSIGN d = SPSIGN x ∧ widen_rel (x % 2 ^ 31) (d % 2 ^ 63) := by
  obtain ⟨hm, he, hs⟩ := sp_fields x
  have hmag := sp_magnitude x
  have hcls := EXPLODESP_class x
  cases h : (EXPLODESP x).1 with
  | SNAN => exact absurd h n1
  | QNAN => exact absurd h n2
  | NORM =>
    rw [h] at hcls
    have hf : SPBEXP x ≠ 0 ∧ SPBEXP x ≠ 255 := by
      split_ifs at hcls
      simp_all
    obtain ⟨hb, hlt, f1, f2, f3⟩ :=
      builddp_fields (SPSIGN x) (SPBEXP x + 896) (SPMANT x * 2 ^ 29) hs (by omega) (by omega)
    refine ⟨_, fun xcpt st => fsp_norm xcpt st x hf.1 hf.2, hlt, ?_, f1, ?_⟩
    · rw [isnan_eq_zero_iff, f2]
      omega
    · rw [hb]
      exact Or.inr (Or.inr (Or.inl ⟨by omega, by omega, by omega⟩))
  | DNORM =>
    rw [h] at hcls
    have hf : SPBEXP x = 0 ∧ SPMANT x ≠ 0 := by
      split_ifs at hcls
      simp_all
    obtain ⟨k, hk, hlo, hhi, hrun⟩ := fsp_dnorm_all x hf.1 hf.2
    have hmb : (SPMANT x * 2 ^ k - 2 ^ 23) * 2 ^ 29 < 2 ^ 52 := by omega
    obtain ⟨hb, hlt, f1, f2, f3⟩ :=
      builddp_fields (SPSIGN x) (897 - k) ((SPMANT x * 2 ^ k - 2 ^ 23) * 2 ^ 29) hs
        (by omega) hmb
    refine ⟨_, hrun, hlt, ?_, f1, ?_⟩
    · rw [isnan_eq_zero_iff, f2]
      omega
    · rw [hb]
      have hx31 : x % 2 ^ 31 = SPMANT x := by omega
      rw [hx31]
      refine Or.inr (Or.inl ⟨k, hk, hm, hlo, hhi, ?_⟩)
      omega
  | ZERO =>
    rw [h] at hcls
    have hf : SPBEXP x = 0 ∧ SPMANT x = 0 := by
      split_ifs at hcls
      simp_all
    have hd : SPSIGN x * 2 ^ 63 < 2 ^ 64 := by omega
    refine ⟨_, fun xcpt st => fsp_zero xcpt st x h, hd, ?_, ?_, ?_⟩
    · rw [isnan_eq_zero_iff]
      unfold DPBEXP
      omega
    · unfold DPSIGN
      omega
    · exact Or.inl ⟨by omega, by omega⟩
  | INF =>
    rw [h] at hcls
    have hf : SPBEXP x = 255 ∧ SPMANT x = 0 := by
      split_ifs at hcls
      simp_all
    have hd : SPSIGN x * 2 ^ 63 + 2047 * 2 ^ 52 < 2 ^ 64 := by omega
    refine ⟨_, fun xcpt st => fsp_inf xcpt st x h, hd, ?_, ?_, ?_⟩
    · rw [isnan_eq_zero_iff]
      unfold DPMANT
      omega
    · unfold DPSIGN
      omega
    · exact Or.inr (Or.inr (Or.inr ⟨by omega, by omega⟩))

/-- C29: widening preserves order. For all non-NaN single patterns `x` and `y` with keys
`kx = (-1)^sx * (x mod 2^31)` and `ky` likewise, `ieee754dp_fsp` returns doubles `dx`
and `dy` such that comparing them under IEEE754_CLT returns 1 iff `kx < ky` and under
IEEE754_CEQ returns 1 iff `kx = ky`; and `dx = dy` only if `x = y`, so `ieee754dp_fsp` is
injective on non-NaN singles. -/
theorem C29_widen_preserves_order (x y : Nat) (hx : x < 2 ^ 32) (hy : y < 2 ^ 32)
    (nx1 : (EXPLODESP x).1 ≠ SNAN) (nx2 : (EXPLODESP x).1 ≠ QNAN)
    (ny1 : (EXPLODESP y).1 ≠ SNAN) (ny2 : (EXPLODESP y).1 ≠ QNAN) :
    ∃ dx dy,
      (∀ (xcpt : ieee754xctx → ieee754xctx) (st : State),
        ieee754dp_fsp xcpt st x = some (ieee754_clearcx st, dx)) ∧
      (∀ (xcpt : ieee754xctx → ieee754xctx) (st : State),
        ieee754dp_fsp xcpt st y = some (ieee754_clearcx st, dy)) ∧
      (∀ (xcpt : ieee754xctx → ieee754xctx) (st : State),
        ((ieee754dp_cmp xcpt st dx dy IEEE754_CLT 0).2 = 1 ↔ sp_key x < sp_key y) ∧
        ((ieee754dp_cmp xcpt st dx dy IEEE754_CEQ 0).2 = 1 ↔ sp_key x = sp_key y)) ∧
      (dx = dy → x = y) := by
  obtain ⟨dx, hfx, hdx, nnx, sgx, wx⟩ := fsp_nonnan x nx1 nx2
  obtain ⟨dy, hfy, hdy, nny, sgy, wy⟩ := fsp_nonnan y ny1 ny2
  obtain ⟨hlt, heq⟩ := widen_rel_lt_iff _ _ _ _ wx wy
  obtain ⟨hgt, _⟩ := widen_rel_lt_iff _ _ _ _ wy wx
  have zx := widen_rel_zero_iff _ _ wx
  have zy := widen_rel_zero_iff _ _ wy
  have hsx : SPSIGN x = 0 ∨ SPSIGN x = 1 := by
    have := (sp_fields x).2.2
    omega
  have hsy : SPSIGN y = 0 ∨ SPSIGN y = 1 := by
    have := (sp_fields y).2.2
    omega
  have kx : cmp_key dx = if SPSIGN x = 0 then ((dx % 2 ^ 63 : Nat) : Int)
      else -((dx % 2 ^ 63 : Nat) : Int) := by
    have hs : DPSIGN dx = dx / 2 ^ 63 % 2 := rfl
    rw [cmp_key_eq dx hdx]
    split_ifs <;> omega
  have ky : cmp_key dy = if SPSIGN y = 0 then ((dy % 2 ^ 63 : Nat) : Int)
      else -((dy % 2 ^ 63 : Nat) : Int) := by
    have hs : DPSIGN dy = dy / 2 ^ 63 % 2 := rfl
    rw [cmp_key_eq dy hdy]
    split_ifs <;> omega
  have sx : sp_key x = if SPSIGN x = 0 then ((x % 2 ^ 31 : Nat) : Int)
      else -((x % 2 ^ 31 : Nat) : Int) := by
    unfold sp_key
    rcases hsx with h | h <;> rw [h] <;> simp
  have sy : sp_key y = if SPSIGN y = 0 then ((y % 2 ^ 31 : Nat) : Int)
      else -((y % 2 ^ 31 : Nat) : Int) := by
    unfold sp_key
    rcases hsy with h | h <;> rw [h] <;> simp
  refine ⟨dx, dy, hfx, hfy, fun xcpt st => ⟨?_, ?_⟩, ?_⟩
  · rw [cmp_lt_iff xcpt st dx dy 0 nnx nny, kx, ky, sx, sy]
    split_ifs <;> omega
  · rw [cmp_eq_iff xcpt st dx dy 0 nnx nny, kx, ky, sx, sy]
    split_ifs <;> omega
  · intro hd
    have h1 : SPSIGN x = SPSIGN y := by rw [← sgx, ← sgy, hd]
    have h2 : x % 2 ^ 31 = y % 2 ^ 31 := heq.mpr (by rw [hd])
    have h3 : SPSIGN x = x / 2 ^ 31 % 2 := rfl
    have h4 : SPSIGN y = y / 2 ^ 31 % 2 := rfl
    omega

theorem C29_widen_preserves_order_witness :
    (0x80000001 < 2 ^ 32 ∧ 0x3F800000 < 2 ^ 32 ∧
      (EXPLODESP 0x80000001).1 ≠ SNAN ∧ (EXPLODESP 0x80000001).1 ≠ QNAN ∧
      (EXPLODESP 0x3F800000).1 ≠ SNAN ∧ (EXPLODESP 0x3F800000).1 ≠ QNAN) ∧
    (∃ dx dy,
      (∀ (xcpt : ieee754xctx → ieee754xctx) (st : State),
        ieee754dp_fsp xcpt st 0x80000001 = some (ieee754_clearcx st, dx)) ∧
      (∀ (xcpt : ieee754xctx → ieee754xctx) (st : State),
        ieee754dp_fsp xcpt st 0x3F800000 = some (ieee754_clearcx st, dy)) ∧
      (∀ (xcpt : ieee754xctx → ieee754xctx) (st : State),
        ((ieee754dp_cmp xcpt st dx dy IEEE754_CLT 0).2 = 1 ↔
          sp_key 0x80000001 < sp_key 0x3F800000) ∧
        ((ieee754dp_cmp xcpt st dx dy IEEE754_CEQ 0).2 = 1 ↔
          sp_key 0x80000001 = sp_key 0x3F800000)) ∧
      (dx = dy → 0x80000001 = 0x3F800000)) :=
  ⟨⟨by decide, by decide, by decide, by decide, by decide, by decide⟩,
    C29_widen_preserves_order 0x80000001 0x3F800000 (by decide) (by decide) (by decide)
      (by decide) (by decide) (by decide)⟩

/-- The `builddp` call of `ieee754dp_fsp`, case by case: none in the SNAN, INF and ZERO
cases; otherwise one call, with the sign of `x`, an exponent `e ≤ 2047` and a mantissa
`m < 2^52`, whose value is what `ieee754dp_fsp` returns. -/
theorem fsp_builddp_args_spec (x : Nat) :
    (((EXPLODESP x).1 = SNAN ∨ (EXPLODESP x).1 = INF ∨ (EXPLODESP x).1 = ZERO) ∧
      fsp_builddp_args x = none) ∨
    (((EXPLODESP x).1 = QNAN ∨ (EXPLODESP x).1 = DNORM ∨ (EXPLODESP x).1 = NORM) ∧
      ∃ e m, fsp_builddp_args x = some ((SPSIGN x : Int), ((e : Nat) : Int), m) ∧
        e ≤ 2047 ∧ m < 2 ^ 52 ∧
        ∀ (xcpt : ieee754xctx → ieee754xctx) (st : State),
          ∃ st1, ieee754dp_fsp xcpt st x = some (st1, builddp (SPSIGN x : Int) (e : Int) m)) := by
  obtain ⟨hm, he, hs⟩ := sp_fields x
  have hcls := EXPLODESP_class x
  have e1 : DP_FBITS - SP_FBITS = 29 := rfl
  cases h : (EXPLODESP x).1 with
  | SNAN =>
    refine Or.inl ⟨Or.inl rfl, ?_⟩
    unfold fsp_builddp_args
    simp only [h]
  | INF =>
    refine Or.inl ⟨Or.inr (Or.inl rfl), ?_⟩
    unfold fsp_builddp_args
    simp only [h]
  | ZERO =>
    refine Or.inl ⟨Or.inr (Or.inr rfl), ?_⟩
    unfold fsp_builddp_args
    simp only [h]
  | QNAN =>
    rw [h] at hcls
    have hf : SPBEXP x = 255 ∧ SPMANT x ≠ 0 ∧ SPMANT x &&& SP_MBIT (SP_FBITS - 1) ≠ 0 := by
      split_ifs at hcls
      simp_all
    have hE : EXPLODESP x = (QNAN, (SPSIGN x : Int), (SPBEXP x : Int), SPMANT x) := by
      rw [EXPLODESP_eq, if_pos hf.1, if_neg hf.2.1, if_pos hf.2.2]
    refine Or.inr ⟨Or.inl rfl, 2047, SPMANT x * 2 ^ 29, ?_, le_rfl, by omega,
      fun xcpt st => ⟨_, fsp_qnan_result xcpt st x h⟩⟩
    unfold fsp_builddp_args
    rw [hE]
    dsimp only
    have e2 : DP_EMAX + 1 + DP_EBIAS = ((2047 : Nat) : Int) := by decide
    have e3 : SPMANT x * 2 ^ 29 % 2 ^ 64 = SPMANT x * 2 ^ 29 := by omega
    rw [Nat.shiftLeft_eq, e1, e2, e3]
  | DNORM =>
    rw [h] at hcls
    have hf : SPBEXP x = 0 ∧ SPMANT x ≠ 0 := by
      split_ifs at hcls
      simp_all
    have hE : EXPLODESP x = (DNORM, (SPSIGN x : Int), -126, SPMANT x) := by
      rw [EXPLODESP_eq, if_neg (by omega), if_pos hf.1, if_pos hf.2]
    obtain ⟨k, hk, hlo, hhi, hall⟩ := fsp_dnorm_all x hf.1 hf.2
    obtain ⟨j, _, hrun, hloj, hhij⟩ :=
      SPDNORMx_spec 32 (SPMANT x) (-126) (by omega) (by omega) (by omega)
    have hjk : j = k := shift_count_unique (SPMANT x) j k hloj hhij hlo hhi
    subst hjk
    refine Or.inr ⟨Or.inr (Or.inl rfl), 897 - j, (SPMANT x * 2 ^ j - 2 ^ 23) * 2 ^ 29, ?_,
      by omega, by omega, fun xcpt st => ⟨_, hall xcpt st⟩⟩
    unfold fsp_builddp_args
    rw [hE]
    dsimp only
    rw [hrun]
    dsimp only
    unfold fsp_build_args
    obtain ⟨r, hr⟩ : ∃ r, SPMANT x * 2 ^ j = 2 ^ 23 + r := ⟨SPMANT x * 2 ^ j - 2 ^ 23, by omega⟩
    have hr23 : r < 2 ^ 23 := by omega
    rw [SP_HIDDEN_BIT_eq, hr, and_drop_hidden _ hr23]
    dsimp only
    rw [Nat.shiftLeft_eq]
    have e2 : (-126 : Int) - (j : Int) + DP_EBIAS = ((897 - j : Nat) : Int) := by
      simp only [DP_EBIAS]
      omega
    have e3 : r * 2 ^ 29 % 2 ^ 64 = r * 2 ^ 29 := by omega
    have e4 : 2 ^ 23 + r - 2 ^ 23 = r := by omega
    rw [e1, e2, e3, e4]
  | NORM =>
    rw [h] at hcls
    have hf : SPBEXP x ≠ 0 ∧ SPBEXP x ≠ 255 := by
      split_ifs at hcls
      simp_all
    have hE : EXPLODESP x =
        (NORM, (SPSIGN x : Int), (SPBEXP x : Int) - 127, SPMANT x ||| SP_HIDDEN_BIT) := by
      rw [EXPLODESP_eq, if_neg hf.2, if_neg hf.1]
    refine Or.inr ⟨Or.inr (Or.inr rfl), SPBEXP x + 896, SPMANT x * 2 ^ 29, ?_, by omega,
      by omega, fun xcpt st => ⟨_, fsp_norm xcpt st x hf.1 hf.2⟩⟩
    unfold fsp_builddp_args
    rw [hE]
    dsimp only
    unfold fsp_build_args
    rw [SP_HIDDEN_BIT_eq, or_hidden_of_lt _ hm, and_drop_hidden _ hm]
    dsimp only
    rw [Nat.shiftLeft_eq]
    have e2 : (SPBEXP x : Int) - 127 + DP_EBIAS = ((SPBEXP x + 896 : Nat) : Int) := by
      simp only [DP_EBIAS]
      push_cast
      ring
    have e3 : SPMANT x * 2 ^ 29 % 2 ^ 64 = SPMANT x * 2 ^ 29 := by omega
    rw [e1, e2, e3]

/-- C24: at every call of `builddp` made by `ieee754dp_fsp`, the three preconditions
asserted in `builddp` hold: the sign argument is 0 or 1, the biased exponent argument
lies between `DP_EMIN - 1 + DP_EBIAS = 0` and `DP_EMAX + 1 + DP_EBIAS = 2047`, and the
mantissa argument has no bit at or above bit 52. The call is made in the QNAN, DNORM and
NORM cases, and what it builds is what `ieee754dp_fsp` returns. -/
theorem C24_builddp_preconditions (x : Nat) (a : Int × Int × Nat) (_hx : x < 2 ^ 32)
    (h : fsp_builddp_args x = some a) :
    (a.1 = 0 ∨ a.1 = 1) ∧
    (DP_EMIN - 1 + DP_EBIAS ≤ a.2.1 ∧ a.2.1 ≤ DP_EMAX + 1 + DP_EBIAS) ∧
    a.2.2 >>> DP_FBITS = 0 ∧
    DP_EMIN - 1 + DP_EBIAS = 0 ∧ DP_EMAX + 1 + DP_EBIAS = 2047 ∧
    ((EXPLODESP x).1 = QNAN ∨ (EXPLODESP x).1 = DNORM ∨ (EXPLODESP x).1 = NORM) ∧
    (∀ (xcpt : ieee754xctx → ieee754xctx) (st : State),
      ∃ st1, ieee754dp_fsp xcpt st x = some (st1, builddp a.1 a.2.1 a.2.2)) := by
  obtain ⟨_, _, hs⟩ := sp_fields x
  rcases fsp_builddp_args_spec x with ⟨_, hn⟩ | ⟨hc, e, m, ha, he, hm, hall⟩
  · rw [hn] at h
    exact absurd h (by simp)
  · rw [ha] at h
    have ha2 : a = ((SPSIGN x : Int), ((e : Nat) : Int), m) := (Option.some.inj h).symm
    subst ha2
    refine ⟨by simp only; omega, ⟨?_, ?_⟩, ?_, by decide, by decide, hc, hall⟩
    · simp only [DP_EMIN, DP_EBIAS]
      omega
    · simp only [DP_EMAX, DP_EBIAS]
      omega
    · rw [Nat.shiftRight_eq_div_pow]
      exact Nat.div_eq_of_lt hm

theorem C24_builddp_preconditions_witness :
    (0x00000001 < 2 ^ 32 ∧
      fsp_builddp_args 0x00000001 = some (0, 874, 0)) ∧
    (((0, 874, 0) : Int × Int × Nat).1 = 0 ∨ ((0, 874, 0) : Int × Int × Nat).1 = 1) ∧
    (DP_EMIN - 1 + DP_EBIAS ≤ ((0, 874, 0) : Int × Int × Nat).2.1 ∧
      ((0, 874, 0) : Int × Int × Nat).2.1 ≤ DP_EMAX + 1 + DP_EBIAS) ∧
    ((0, 874, 0) : Int × Int × Nat).2.2 >>> DP_FBITS = 0 ∧
    DP_EMIN - 1 + DP_EBIAS = 0 ∧ DP_EMAX + 1 + DP_EBIAS = 2047 ∧
    ((EXPLODESP 0x00000001).1 = QNAN ∨ (EXPLODESP 0x00000001).1 = DNORM ∨
      (EXPLODESP 0x00000001).1 = NORM) ∧
    (∀ (xcpt : ieee754xctx → ieee754xctx) (st : State),
      ∃ st1, ieee754dp_fsp xcpt st 0x00000001 =
        some (st1, builddp ((0, 874, 0) : Int × Int × Nat).1
          ((0, 874, 0) : Int × Int × Nat).2.1 ((0, 874, 0) : Int × Int × Nat).2.2)) :=
  ⟨⟨by decide, by decide⟩,
    C24_builddp_preconditions 0x00000001 (0, 874, 0) (by decide) (by decide)⟩

/-- C30: for every single pattern `x` classified Normal or Denormal, `ieee754dp_fsp(x)` is a
Normal double with the sign of `x`; its biased exponent lies in [874, 1150], in
[897, 1150] for a Normal input and in [874, 896] for a Denormal input, and the low 29
bits of its mantissa are zero. -/
theorem C30_widen_normal (x : Nat) (_hx : x < 2 ^ 32)
    (hc : (EXPLODESP x).1 = NORM ∨ (EXPLODESP x).1 = DNORM) :
    ∃ d, (∀ (xcpt : ieee754xctx → ieee754xctx) (st : State),
        ieee754dp_fsp xcpt st x = some (ieee754_clearcx st, d)) ∧
      (EXPLODEDP d).1 = NORM ∧ DPSIGN d = SPSIGN x ∧
      874 ≤ DPBEXP d ∧ DPBEXP d ≤ 1150 ∧
      (((EXPLODESP x).1 = NORM ∧ 897 ≤ DPBEXP d ∧ DPBEXP d ≤ 1150) ∨
        ((EXPLODESP x).1 = DNORM ∧ 874 ≤ DPBEXP d ∧ DPBEXP d ≤ 896)) ∧
      DPMANT d % 2 ^ 29 = 0 := by
  obtain ⟨hm, he, hs⟩ := sp_fields x
  have hcls := EXPLODESP_class x
  rcases hc with h | h
  · have hcls2 := hcls
    rw [h] at hcls2
    have hf : SPBEXP x ≠ 0 ∧ SPBEXP x ≠ 255 := by
      split_ifs at hcls2
      simp_all
    obtain ⟨_, _, f1, f2, f3⟩ :=
      builddp_fields (SPSIGN x) (SPBEXP x + 896) (SPMANT x * 2 ^ 29) hs (by omega) (by omega)
    refine ⟨_, fun xcpt st => fsp_norm xcpt st x hf.1 hf.2, ?_, f1, by omega, by omega,
      Or.inl ⟨h, by omega, by omega⟩, by omega⟩
    rw [EXPLODEDP_class, f2, if_neg (by omega), if_neg (by omega)]
  · have hcls2 := hcls
    rw [h] at hcls2
    have hf : SPBEXP x = 0 ∧ SPMANT x ≠ 0 := by
      split_ifs at hcls2
      simp_all
    obtain ⟨k, hk, hlo, hhi, hall⟩ := fsp_dnorm_all x hf.1 hf.2
    obtain ⟨_, hk1⟩ := dnorm_facts (SPMANT x) k hm hlo
    have hmb : (SPMANT x * 2 ^ k - 2 ^ 23) * 2 ^ 29 < 2 ^ 52 := by omega
    obtain ⟨_, _, f1, f2, f3⟩ :=
      builddp_fields (SPSIGN x) (897 - k) ((SPMANT x * 2 ^ k - 2 ^ 23) * 2 ^ 29) hs
        (by omega) hmb
    refine ⟨_, hall, ?_, f1, by omega, by omega, Or.inr ⟨h, by omega, by omega⟩, by omega⟩
    rw [EXPLODEDP_class, f2, if_neg (by omega), if_neg (by omega)]

theorem C30_widen_normal_witness :
    (0x807FFFFF < 2 ^ 32 ∧
      ((EXPLODESP 0x807FFFFF).1 = NORM ∨ (EXPLODESP 0x807FFFFF).1 = DNORM)) ∧
    (∃ d, (∀ (xcpt : ieee754xctx → ieee754xctx) (st : State),
        ieee754dp_fsp xcpt st 0x807FFFFF = some (ieee754_clearcx st, d)) ∧
      (EXPLODEDP d).1 = NORM ∧ DPSIGN d = SPSIGN 0x807FFFFF ∧
      874 ≤ DPBEXP d ∧ DPBEXP d ≤ 1150 ∧
      (((EXPLODESP 0x807FFFFF).1 = NORM ∧ 897 ≤ DPBEXP d ∧ DPBEXP d ≤ 1150) ∨
        ((EXPLODESP 0x807FFFFF).1 = DNORM ∧ 874 ≤ DPBEXP d ∧ DPBEXP d ≤ 896)) ∧
      DPMANT d % 2 ^ 29 = 0) :=
  ⟨⟨by decide, Or.inr (by decide)⟩,
    C30_widen_normal 0x807FFFFF (by decide) (Or.inr (by decide))⟩

end MathEmu
